import Mathlib

/-!
# Verification of the FastMath C++ library against its specification

This file gives a shallow embedding of the `FastMath` namespace of
`fast_math.cpp` and proves/refutes the specification claims about it.

Two number domains are used for the embedding:
* functions whose algorithms are built from π (`sin`, `cos`, `atan2`) are
  embedded over `ℝ` (the float constants `pi`/`M_PI` are idealized as `Real.pi`);
* the remaining functions (`exp`, `log`, `pow`, `sqrt`, `fmod`, `ceil`,
  `floor`, `round`, `sinh`, `cosh`, `asinh`, `atanh`) are embedded over `ℚ`,
  exactly mirroring the source arithmetic (float arithmetic idealized as
  exact; IEEE-754 bit manipulations modelled by the exact quantities they
  compute on normal, exactly-representable inputs).
-/

unseal Rat.add Rat.mul Rat.sub Rat.inv Rat.ofScientific

namespace FastMath

/-- Model of the C++ cast `static_cast<int>` on a float value: truncation
toward zero. -/
def castInt (x : ℚ) : ℤ := if 0 ≤ x then ⌊x⌋ else ⌈x⌉

/-- Embedding of `FastMath::sqrt`.  The IEEE-754 bit-level initial guess
(`conv.i = 0x1FBD1DF5 + (conv.i >> 1)`) is idealized over exact rationals:
for a positive normal float `x` the integer reading of its bits is
`2^23 * (e + 127 + (m - 1))` where `e = ⌊log₂ x⌋` and `m = x / 2^e ∈ [1,2)`;
re-interpreting an integer `j` as a float gives `2^(⌊j/2^23⌋ - 127) * (1 + frac)`.
The two Newton-Raphson steps follow the source exactly. -/
def sqrt (number : ℚ) : ℚ :=
  if number ≤ 0 then 0
  else
    let e : ℤ := Int.log 2 number
    let bits : ℚ := 2 ^ (23 : ℕ) * ((e : ℚ) + 127 + number / 2 ^ e - 1)
    let j : ℚ := 0x1FBD1DF5 + bits / 2
    let jE : ℤ := ⌊j / 2 ^ (23 : ℕ)⌋
    let x0 : ℚ := 2 ^ (jE - 127) * (1 + (j / 2 ^ (23 : ℕ) - jE))
    let x1 : ℚ := 0.5 * (x0 + number / x0)
    let x2 : ℚ := 0.5 * (x1 + number / x1)
    x2

/-- Embedding of `FastMath::exp`.  The bit construction `(n + 127) << 23`
re-interpreted as a float is exactly `2^n` for the reachable range
`n ∈ [-126, 127]` (inputs are clamped to `[-87, 88]`), so it is modelled
as `2^n`. -/
def exp (x : ℚ) : ℚ :=
  if 88 < x then 1e38
  else if x < -87 then 0
  else
    let inv_ln2 : ℚ := 1.44269504088896341
    let fx : ℚ := x * inv_ln2
    let n : ℤ := castInt (fx + if 0 ≤ fx then 0.5 else -0.5)
    let r0 : ℚ := fx - (n : ℚ)
    let ln2 : ℚ := 0.69314718055994531
    let r : ℚ := r0 * ln2
    let r2 : ℚ := r * r
    let poly : ℚ := 1 + r + 0.5 * r2 + r2 * r * (1/6 + r * (1/24 + r * (1/120)))
    poly * 2 ^ n

/-- Embedding of `FastMath::log`.  The IEEE-754 exponent/mantissa extraction
is idealized exactly: for `x > 0` the exponent field minus the bias is
`⌊log₂ x⌋` and the normalized mantissa is `x / 2^⌊log₂ x⌋ ∈ [1, 2)`. -/
def log (x : ℚ) : ℚ :=
  if x ≤ 0 then -1e38
  else if x = 1 then 0
  else
    let e : ℤ := Int.log 2 x
    let mantissa : ℚ := x / 2 ^ e
    let t : ℚ := (mantissa - 1) / (mantissa + 1)
    let t2 : ℚ := t * t
    let poly : ℚ := t * (2 + t2 * (2/3 + t2 * (2/5 + t2 * (2/7 + t2 * 2/9))))
    let ln2 : ℚ := 0.69314718055994531
    (e : ℚ) * ln2 + poly

/-- The binary-exponentiation loop inside `FastMath::pow`
(`while (abs_exp > 0) { if (abs_exp & 1) result *= current_base;
current_base *= current_base; abs_exp >>= 1; }`). -/
def powLoop (result current_base : ℚ) (abs_exp : ℕ) : ℚ :=
  if h : abs_exp = 0 then result
  else
    powLoop (if abs_exp % 2 = 1 then result * current_base else result)
      (current_base * current_base) (abs_exp / 2)
termination_by abs_exp
decreasing_by exact Nat.div_lt_self (Nat.pos_of_ne_zero h) one_lt_two

/-- Embedding of `FastMath::pow`.  The C++ test
`exponent == static_cast<float>(int_exp)` holds exactly when the exponent is
an integer, and `int_exp & 1` on a two's-complement int agrees with
`int_exp % 2 ≠ 0`. -/
def pow (base exponent : ℚ) : ℚ :=
  if exponent = 0 then 1
  else if exponent = 1 then base
  else if base = 0 then (if 0 < exponent then 0 else 1e38)
  else if base = 1 then 1
  else if exponent = 2 then base * base
  else if exponent = 3 then base * base * base
  else if exponent = 4 then (base * base) * (base * base)
  else if exponent = 0.5 then sqrt base
  else if exponent = -1 then 1 / base
  else if exponent = -2 then 1 / (base * base)
  else
    let int_exp : ℤ := castInt exponent
    if exponent = (int_exp : ℚ) ∧ int_exp.natAbs ≤ 32 then
      let negative_result : Bool := base < 0 ∧ int_exp % 2 ≠ 0
      let b : ℚ := if base < 0 then -base else base
      let result : ℚ := powLoop 1 b int_exp.natAbs
      let result : ℚ := if int_exp < 0 then 1 / result else result
      if negative_result then -result else result
    else if base < 0 then 0
    else exp (exponent * log base)

/-- Model of `std::fmod` (exact in real arithmetic):
`fmod(x, y) = x - trunc(x/y) * y`. -/
def stdFmod (x y : ℚ) : ℚ := x - (castInt (x / y) : ℚ) * y

/-- Embedding of `FastMath::fmod`. -/
def fmod (dividend divisor : ℚ) : ℚ :=
  if divisor = 0 then 0
  else if |dividend| < |divisor| then dividend
  else if 25 < |dividend| ∨ 25 < |divisor| then stdFmod dividend divisor
  else
    let quotient : ℚ := dividend / divisor
    if 25 < |quotient| then stdFmod dividend divisor
    else dividend - (castInt quotient : ℚ) * divisor

/-- Embedding of `FastMath::ceil`. -/
def ceil (x : ℚ) : ℚ :=
  if 0 ≤ x then
    let int_x : ℤ := castInt x
    if (int_x : ℚ) < x then ((int_x + 1 : ℤ) : ℚ) else (int_x : ℚ)
  else (castInt x : ℚ)

/-- Embedding of `FastMath::floor`. -/
def floor (x : ℚ) : ℚ :=
  if 0 ≤ x then (castInt x : ℚ)
  else
    let int_x : ℤ := castInt x
    if x < (int_x : ℚ) then ((int_x - 1 : ℤ) : ℚ) else (int_x : ℚ)

/-- Embedding of `FastMath::round`. -/
def round (x : ℚ) : ℚ :=
  if 0 ≤ x then floor (x + 0.5) else ceil (x - 0.5)

/-- Embedding of `FastMath::sinh`. -/
def sinh (x : ℚ) : ℚ :=
  if |x| < 0.5 then
    let x2 : ℚ := x * x
    x * (1 + x2 * (1/6 + x2 * (1/120 + x2 / 5040)))
  else
    -- source: `bool negative = x < 0; if (negative) x = -x;`
    let y : ℚ := if x < 0 then -x else x
    let exp_x : ℚ := exp y
    let exp_neg_x : ℚ := 1 / exp_x
    let result : ℚ := 0.5 * (exp_x - exp_neg_x)
    if x < 0 then -result else result

/-- Embedding of `FastMath::cosh`. -/
def cosh (x : ℚ) : ℚ :=
  if |x| < 0.5 then
    let x2 : ℚ := x * x
    1 + x2 * (0.5 + x2 * (1/24 + x2 * (1/720 + x2 / 40320)))
  else
    let y : ℚ := |x|
    let exp_x : ℚ := exp y
    let exp_neg_x : ℚ := 1 / exp_x
    0.5 * (exp_x + exp_neg_x)

/-- Embedding of `FastMath::asinh`. -/
def asinh (x : ℚ) : ℚ :=
  if |x| < 0.5 then
    let x2 : ℚ := x * x
    x * (1 - x2 * (1/6 - x2 * (3/40 - x2 * 15/336)))
  else
    let y : ℚ := if x < 0 then -x else x
    let result : ℚ := log (y + sqrt (y * y + 1))
    if x < 0 then -result else result

/-- Embedding of `FastMath::atanh`. -/
def atanh (x : ℚ) : ℚ :=
  if 1 ≤ |x| then 0
  else if |x| < 0.5 then
    let x2 : ℚ := x * x
    x * (1 + x2 * (1/3 + x2 * (2/15 + x2 * 17/315)))
  else 0.5 * log ((1 + x) / (1 - x))


/-! ## Real-number embedding of the trigonometric core -/

/-- The first range-reduction loop of `FastMath::sin`/`FastMath::cos`:
`while (theta < -pi) { theta += two_pi; }`. -/
noncomputable def reduceUp (theta : ℝ) : ℝ :=
  if h : theta < -Real.pi then reduceUp (theta + 2 * Real.pi) else theta
termination_by Nat.ceil ((-Real.pi - theta) / (2 * Real.pi))
decreasing_by
  have hpi : (0:ℝ) < 2 * Real.pi := by positivity
  have h1 : (-Real.pi - (theta + 2 * Real.pi)) / (2 * Real.pi)
      = (-Real.pi - theta) / (2 * Real.pi) - 1 := by field_simp; ring
  have h2 : (0:ℝ) < (-Real.pi - theta) / (2 * Real.pi) := by
    apply div_pos (by linarith) hpi
  have h3 : 1 ≤ Nat.ceil ((-Real.pi - theta) / (2 * Real.pi)) := by
    rw [Nat.one_le_ceil_iff]; exact h2
  have h4 : Nat.ceil ((-Real.pi - theta) / (2 * Real.pi) - 1)
      ≤ Nat.ceil ((-Real.pi - theta) / (2 * Real.pi)) - 1 := by
    rw [Nat.ceil_le]
    push_cast [h3]
    have := Nat.le_ceil ((-Real.pi - theta) / (2 * Real.pi))
    linarith
  rw [h1]
  omega

/-- The second range-reduction loop of `FastMath::sin`/`FastMath::cos`:
`while (theta > pi) { theta -= two_pi; }`. -/
noncomputable def reduceDown (theta : ℝ) : ℝ :=
  if h : Real.pi < theta then reduceDown (theta - 2 * Real.pi) else theta
termination_by Nat.ceil ((theta - Real.pi) / (2 * Real.pi))
decreasing_by
  have hpi : (0:ℝ) < 2 * Real.pi := by positivity
  have h1 : (theta - 2 * Real.pi - Real.pi) / (2 * Real.pi)
      = (theta - Real.pi) / (2 * Real.pi) - 1 := by field_simp; ring
  have h2 : (0:ℝ) < (theta - Real.pi) / (2 * Real.pi) := by
    apply div_pos (by linarith) hpi
  have h3 : 1 ≤ Nat.ceil ((theta - Real.pi) / (2 * Real.pi)) := by
    rw [Nat.one_le_ceil_iff]; exact h2
  have h4 : Nat.ceil ((theta - Real.pi) / (2 * Real.pi) - 1)
      ≤ Nat.ceil ((theta - Real.pi) / (2 * Real.pi)) - 1 := by
    rw [Nat.ceil_le]
    push_cast [h3]
    have := Nat.le_ceil ((theta - Real.pi) / (2 * Real.pi))
    linarith
  rw [h1]
  omega

/-- The approximation body shared by `FastMath::sin` and `FastMath::cos`
(the code after range reduction, with `B = 4/pi`, `C = 4/(pi*pi)`,
`P = 0.225`). -/
noncomputable def sinBody (theta : ℝ) : ℝ :=
  let B : ℝ := 4 / Real.pi
  let C : ℝ := 4 / (Real.pi * Real.pi)
  let P : ℝ := 0.225
  if theta < 0 then
    let s : ℝ := theta * B + C * theta * theta
    if s < 0 then P * (s * -s - s) + s else P * (s * s - s) + s
  else
    let s : ℝ := theta * B - C * theta * theta
    if s < 0 then P * (s * -s - s) + s else P * (s * s - s) + s

/-- Embedding of `FastMath::sin`: range reduction into `[-π, π]` followed by
the parabola approximation with one correction pass. -/
noncomputable def sin (theta : ℝ) : ℝ :=
  sinBody (reduceDown (reduceUp theta))

/-- Embedding of `FastMath::cos`: range reduction into `[-π, π]`, phase shift
by `+π/2` with a single re-wrap, then the same approximation body. -/
noncomputable def cos (theta : ℝ) : ℝ :=
  let theta1 : ℝ := reduceDown (reduceUp theta)
  let theta2 : ℝ := theta1 + Real.pi / 2
  let theta3 : ℝ := if Real.pi < theta2 then theta2 - 2 * Real.pi else theta2
  sinBody theta3

/-- Embedding of `FastMath::atan2` (`M_PI` idealized as `Real.pi`). -/
noncomputable def atan2 (y x : ℝ) : ℝ :=
  if |x| < 1e-7 ∧ |y| < 1e-7 then 0
  else if |x| < 1e-7 then (if 0 ≤ y then Real.pi / 2 else -(Real.pi / 2))
  else
    let abs_y : ℝ := |y|
    let abs_x : ℝ := |x|
    let angle : ℝ :=
      if abs_y ≤ abs_x then
        (abs_y / abs_x) * (Real.pi / 4 + 0.273 * (1 - abs_y / abs_x))
      else
        Real.pi / 2 - (abs_x / abs_y) * (Real.pi / 4 + 0.273 * (1 - abs_x / abs_y))
    if x < 0 then
      (if 0 ≤ y then Real.pi - angle else -Real.pi + angle)
    else
      (if y < 0 then -angle else angle)

/-! ## Definitions following the specification text (for the refinement
claim about the sin/cos pipeline) -/

/-- The parabola base term exactly as the specification words it:
`θ·B − sign(θ)·C·θ²` with `B = 4/π`, `C = 4/π²`. -/
noncomputable def specBase (theta : ℝ) : ℝ :=
  theta * (4 / Real.pi) - Real.sign theta * (4 / Real.pi ^ 2) * theta ^ 2

/-- The correction pass exactly as the specification words it:
`y ← y + P·(y·|y| − y)` with `P = 0.225`. -/
noncomputable def specCorr (y : ℝ) : ℝ := y + 0.225 * (y * |y| - y)

/-- The specification's re-wrap of the phase-shifted angle into `[-π, π]`. -/
noncomputable def specWrap (t : ℝ) : ℝ :=
  if Real.pi < t then t - 2 * Real.pi else t

/-! ## Auxiliary definitions for the numerical-error claim -/

/-- Value of the approximation body at `π·u` for `u ∈ [0,1]`, written as a
polynomial in `u`. -/
noncomputable def hFun (u : ℝ) : ℝ :=
  0.225 * ((4*u - 4*u*u) * (4*u - 4*u*u) - (4*u - 4*u*u)) + (4*u - 4*u*u)

/-- Certified upper bound for `hFun u - Real.sin (π·u)` (`u ≥ 0`), obtained
from the degree-7 Taylor lower bracket of `sin` and the rational bounds
`3.141592 < π < 3.141593`. -/
noncomputable def AFun (u : ℝ) : ℝ :=
  hFun u - ((3141592/1000000)*u - ((3141593/1000000)*u)^3/6
    + ((3141592/1000000)*u)^5/120 - ((3141593/1000000)*u)^7/5040)

/-- Certified upper bound for `Real.sin (π·u) - hFun u` (`u ≥ 0`), obtained
from the degree-9 Taylor upper bracket of `sin`. -/
noncomputable def BFun (u : ℝ) : ℝ :=
  ((3141593/1000000)*u - ((3141592/1000000)*u)^3/6 + ((3141593/1000000)*u)^5/120
    - ((3141592/1000000)*u)^7/5040 + ((3141593/1000000)*u)^9/362880) - hFun u

/-- Piecewise-constant certified bound on `max (AFun (m/19998)) (BFun (m/19998))`
for `m ∈ [0, 9999]` (regions of width 1250 in `m`). -/
def boundPW (m : ℤ) : ℚ :=
  if m < 1250 then 1093/1000000
  else if m < 2500 then 1091/1000000
  else if m < 3750 then 111/200000
  else if m < 5000 then 707/1000000
  else if m < 6250 then 769/1000000
  else if m < 7500 then 717/1000000
  else if m < 8750 then 449/1000000
  else 177/1000000

/-- One pass of the `±2π` folding at the scale `θ = π·t/19998`:
the reduction of `θ ∈ [-2π, 2π]` to `[-π, π]` acts on `t` as `fold1`. -/
def fold1 (t : ℤ) : ℤ :=
  if t < -19998 then t + 39996 else if 19998 < t then t - 39996 else t

/-- The re-wrap step of `FastMath::cos` at the scale `θ = π·t/19998`. -/
def fold2 (w : ℤ) : ℤ := if 19998 < w then w - 39996 else w

/-- Folding `a ∈ [0, 19998]` (scale `π/19998`) into `[0, 9999]` using the
symmetry of the approximation body and of `sin` about `π/2`. -/
def half (a : ℤ) : ℤ := if a ≤ 9999 then a else 19998 - a

/-- Index of the reduced, folded sample point for the `k`-th sine sample
`θ_k = -2π + 4π·k/9999`: the error of `FastMath.sin` at `θ_k` equals the
error of the body at `π · mQ k / 19998`. -/
def mQ (k : ℕ) : ℤ := half |fold1 (8 * (k:ℤ) - 39996)|

/-- Same as `mQ`, for the `k`-th cosine sample. -/
def mQc (k : ℕ) : ℤ := half |fold2 (fold1 (8 * (k:ℤ) - 39996) + 9999)|

/-! ## Float32 model of the range-reduction loop step (for the termination
claim: the exact-arithmetic idealization above hides the rounding no-op) -/

/-- Round-to-nearest integer with ties to even (the IEEE-754 default
rounding of the significand). -/
def rne (q : ℚ) : ℤ :=
  if q - ⌊q⌋ < 1/2 then ⌊q⌋
  else if (1:ℚ)/2 < q - ⌊q⌋ then ⌊q⌋ + 1
  else if ⌊q⌋ % 2 = 0 then ⌊q⌋ else ⌊q⌋ + 1

/-- Binary32 rounding (round to nearest, ties to even) of a rational in the
normal range: the magnitude is scaled into its binade, the 24-bit significand
is rounded to the nearest integer and scaled back. -/
def fl32 (x : ℚ) : ℚ :=
  if x = 0 then 0
  else (if 0 < x then 1 else -1) *
    ((rne (|x| / 2 ^ (Int.log 2 |x| - 23)) : ℚ) * 2 ^ (Int.log 2 |x| - 23))

/-- The value of the `constexpr float pi` constant of `FastMath::sin`: the
decimal literal rounded to binary32 (bit pattern `0x40490FDB`). -/
def piF32 : ℚ := 13176795 / 2 ^ 22

/-- The value of the `constexpr float two_pi = float(2.0) * pi` constant:
doubling is exact in binary32. -/
def twoPiF32 : ℚ := 2 * piF32

/-- One iteration of the first range-reduction loop of `FastMath::sin` with
float32 arithmetic: the guard `theta < -pi` compares against the float
constant `pi`, and `theta += two_pi` rounds the sum back to binary32. -/
def reduceUpStepF32 (theta : ℚ) : ℚ :=
  if theta < -piF32 then fl32 (theta + twoPiF32) else theta

end FastMath

namespace FastMath

/-! ## Taylor brackets for `Real.sin` on `[0, ∞)` (bootstrapped from the
derivative chain `sin' = cos`, `cos' = -sin`) -/

lemma nonneg_on_of_deriv (F F' : ℝ → ℝ) (hder : ∀ x, HasDerivAt F (F' x) x)
    (h0 : F 0 = 0) (hF' : ∀ x, 0 ≤ x → 0 ≤ F' x) :
    ∀ x, 0 ≤ x → 0 ≤ F x := by
  intro x hx
  have hmono : MonotoneOn F (Set.Ici (0:ℝ)) := by
    apply monotoneOn_of_deriv_nonneg (convex_Ici 0)
    · exact fun y _ => ((hder y).differentiableAt.continuousAt).continuousWithinAt
    · intro y _
      exact (hder y).differentiableAt.differentiableWithinAt
    · intro y hy
      rw [(hder y).deriv]
      rw [interior_Ici] at hy
      exact hF' y (le_of_lt hy)
  have h := hmono Set.left_mem_Ici hx hx
  rwa [h0] at h

lemma sin_le_T1 (x : ℝ) (hx : 0 ≤ x) : Real.sin x ≤ x := by
  have key := nonneg_on_of_deriv (fun t => t - Real.sin t) (fun t => 1 - Real.cos t)
    (fun t => by
      have h := (hasDerivAt_id t).sub (Real.hasDerivAt_sin t)
      convert h using 1 <;> (push_cast; ring))
    (by norm_num)
    (fun t _ => by
      have := Real.cos_le_one t
      show (0:ℝ) ≤ 1 - Real.cos t
      linarith) x hx
  have key2 : (0:ℝ) ≤ x - Real.sin x := key
  linarith

lemma cos_ge_T2 (x : ℝ) (hx : 0 ≤ x) : 1 - x^2/2 ≤ Real.cos x := by
  have key := nonneg_on_of_deriv (fun t => Real.cos t - (1 - t^2/2)) (fun t => t - Real.sin t)
    (fun t => by
      have h := (Real.hasDerivAt_cos t).sub (((hasDerivAt_pow 2 t).div_const 2).const_sub 1)
      convert h using 1 <;> (push_cast; ring))
    (by norm_num)
    (fun t ht => by
      have := sin_le_T1 t ht
      show (0:ℝ) ≤ t - Real.sin t
      linarith) x hx
  have key2 : (0:ℝ) ≤ Real.cos x - (1 - x^2/2) := key
  linarith

lemma sin_ge_T3 (x : ℝ) (hx : 0 ≤ x) : x - x^3/6 ≤ Real.sin x := by
  have key := nonneg_on_of_deriv (fun t => Real.sin t - (t - t^3/6)) (fun t => Real.cos t - (1 - t^2/2))
    (fun t => by
      have h := (Real.hasDerivAt_sin t).sub ((hasDerivAt_id t).sub ((hasDerivAt_pow 3 t).div_const 6))
      convert h using 1 <;> (push_cast; ring))
    (by norm_num)
    (fun t ht => by
      have := cos_ge_T2 t ht
      show (0:ℝ) ≤ Real.cos t - (1 - t^2/2)
      linarith) x hx
  have key2 : (0:ℝ) ≤ Real.sin x - (x - x^3/6) := key
  linarith

lemma cos_le_T4 (x : ℝ) (hx : 0 ≤ x) : Real.cos x ≤ 1 - x^2/2 + x^4/24 := by
  have key := nonneg_on_of_deriv (fun t => (1 - t^2/2 + t^4/24) - Real.cos t) (fun t => Real.sin t - (t - t^3/6))
    (fun t => by
      have h := ((((hasDerivAt_pow 2 t).div_const 2).const_sub 1).add ((hasDerivAt_pow 4 t).div_const 24)).sub (Real.hasDerivAt_cos t)
      convert h using 1 <;> (push_cast; ring))
    (by norm_num)
    (fun t ht => by
      have := sin_ge_T3 t ht
      show (0:ℝ) ≤ Real.sin t - (t - t^3/6)
      linarith) x hx
  have key2 : (0:ℝ) ≤ (1 - x^2/2 + x^4/24) - Real.cos x := key
  linarith

lemma sin_le_T5 (x : ℝ) (hx : 0 ≤ x) : Real.sin x ≤ x - x^3/6 + x^5/120 := by
  have key := nonneg_on_of_deriv (fun t => (t - t^3/6 + t^5/120) - Real.sin t) (fun t => (1 - t^2/2 + t^4/24) - Real.cos t)
    (fun t => by
      have h := (((hasDerivAt_id t).sub ((hasDerivAt_pow 3 t).div_const 6)).add ((hasDerivAt_pow 5 t).div_const 120)).sub (Real.hasDerivAt_sin t)
      convert h using 1 <;> (push_cast; ring))
    (by norm_num)
    (fun t ht => by
      have := cos_le_T4 t ht
      show (0:ℝ) ≤ (1 - t^2/2 + t^4/24) - Real.cos t
      linarith) x hx
  have key2 : (0:ℝ) ≤ (x - x^3/6 + x^5/120) - Real.sin x := key
  linarith

lemma cos_ge_T6 (x : ℝ) (hx : 0 ≤ x) : 1 - x^2/2 + x^4/24 - x^6/720 ≤ Real.cos x := by
  have key := nonneg_on_of_deriv (fun t => Real.cos t - (1 - t^2/2 + t^4/24 - t^6/720)) (fun t => (t - t^3/6 + t^5/120) - Real.sin t)
    (fun t => by
      have h := (Real.hasDerivAt_cos t).sub (((((hasDerivAt_pow 2 t).div_const 2).const_sub 1).add ((hasDerivAt_pow 4 t).div_const 24)).sub ((hasDerivAt_pow 6 t).div_const 720))
      convert h using 1 <;> (push_cast; ring))
    (by norm_num)
    (fun t ht => by
      have := sin_le_T5 t ht
      show (0:ℝ) ≤ (t - t^3/6 + t^5/120) - Real.sin t
      linarith) x hx
  have key2 : (0:ℝ) ≤ Real.cos x - (1 - x^2/2 + x^4/24 - x^6/720) := key
  linarith

lemma sin_ge_T7 (x : ℝ) (hx : 0 ≤ x) : x - x^3/6 + x^5/120 - x^7/5040 ≤ Real.sin x := by
  have key := nonneg_on_of_deriv (fun t => Real.sin t - (t - t^3/6 + t^5/120 - t^7/5040)) (fun t => Real.cos t - (1 - t^2/2 + t^4/24 - t^6/720))
    (fun t => by
      have h := (Real.hasDerivAt_sin t).sub ((((hasDerivAt_id t).sub ((hasDerivAt_pow 3 t).div_const 6)).add ((hasDerivAt_pow 5 t).div_const 120)).sub ((hasDerivAt_pow 7 t).div_const 5040))
      convert h using 1 <;> (push_cast; ring))
    (by norm_num)
    (fun t ht => by
      have := cos_ge_T6 t ht
      show (0:ℝ) ≤ Real.cos t - (1 - t^2/2 + t^4/24 - t^6/720)
      linarith) x hx
  have key2 : (0:ℝ) ≤ Real.sin x - (x - x^3/6 + x^5/120 - x^7/5040) := key
  linarith

lemma cos_le_T8 (x : ℝ) (hx : 0 ≤ x) : Real.cos x ≤ 1 - x^2/2 + x^4/24 - x^6/720 + x^8/40320 := by
  have key := nonneg_on_of_deriv (fun t => (1 - t^2/2 + t^4/24 - t^6/720 + t^8/40320) - Real.cos t) (fun t => Real.sin t - (t - t^3/6 + t^5/120 - t^7/5040))
    (fun t => by
      have h := ((((((hasDerivAt_pow 2 t).div_const 2).const_sub 1).add ((hasDerivAt_pow 4 t).div_const 24)).sub ((hasDerivAt_pow 6 t).div_const 720)).add ((hasDerivAt_pow 8 t).div_const 40320)).sub (Real.hasDerivAt_cos t)
      convert h using 1 <;> (push_cast; ring))
    (by norm_num)
    (fun t ht => by
      have := sin_ge_T7 t ht
      show (0:ℝ) ≤ Real.sin t - (t - t^3/6 + t^5/120 - t^7/5040)
      linarith) x hx
  have key2 : (0:ℝ) ≤ (1 - x^2/2 + x^4/24 - x^6/720 + x^8/40320) - Real.cos x := key
  linarith

lemma sin_le_T9 (x : ℝ) (hx : 0 ≤ x) : Real.sin x ≤ x - x^3/6 + x^5/120 - x^7/5040 + x^9/362880 := by
  have key := nonneg_on_of_deriv (fun t => (t - t^3/6 + t^5/120 - t^7/5040 + t^9/362880) - Real.sin t) (fun t => (1 - t^2/2 + t^4/24 - t^6/720 + t^8/40320) - Real.cos t)
    (fun t => by
      have h := (((((hasDerivAt_id t).sub ((hasDerivAt_pow 3 t).div_const 6)).add ((hasDerivAt_pow 5 t).div_const 120)).sub ((hasDerivAt_pow 7 t).div_const 5040)).add ((hasDerivAt_pow 9 t).div_const 362880)).sub (Real.hasDerivAt_sin t)
      convert h using 1 <;> (push_cast; ring))
    (by norm_num)
    (fun t ht => by
      have := cos_le_T8 t ht
      show (0:ℝ) ≤ (1 - t^2/2 + t^4/24 - t^6/720 + t^8/40320) - Real.cos t
      linarith) x hx
  have key2 : (0:ℝ) ≤ (x - x^3/6 + x^5/120 - x^7/5040 + x^9/362880) - Real.sin x := key
  linarith

end FastMath

namespace FastMath

/-! ## Properties of the range-reduction loops -/

lemma reduceUp_exists (theta : ℝ) :
    ∃ n : ℕ, reduceUp theta = theta + n * (2 * Real.pi) ∧
      ¬ (reduceUp theta < -Real.pi) := by
  suffices h : ∀ (m : ℕ) (t : ℝ), Nat.ceil ((-Real.pi - t) / (2 * Real.pi)) ≤ m →
      ∃ n : ℕ, reduceUp t = t + n * (2 * Real.pi) ∧ ¬ (reduceUp t < -Real.pi) by
    exact h _ theta le_rfl
  intro m
  induction m with
  | zero =>
    intro t h0
    have hpi : (0:ℝ) < 2 * Real.pi := by positivity
    have hle : (-Real.pi - t) / (2 * Real.pi) ≤ 0 :=
      Nat.ceil_eq_zero.mp (Nat.le_zero.mp h0)
    have ht : ¬ t < -Real.pi := by
      intro hlt
      have : 0 < (-Real.pi - t) / (2 * Real.pi) := div_pos (by linarith) hpi
      linarith
    refine ⟨0, ?_, ?_⟩
    · rw [reduceUp, dif_neg ht]
      push_cast
      ring
    · rw [reduceUp, dif_neg ht]
      exact ht
  | succ k ih =>
    intro t hm
    by_cases hlt : t < -Real.pi
    · have hpi : (0:ℝ) < 2 * Real.pi := by positivity
      have hstep : Nat.ceil ((-Real.pi - (t + 2 * Real.pi)) / (2 * Real.pi)) ≤ k := by
        have h1 : (-Real.pi - (t + 2 * Real.pi)) / (2 * Real.pi)
            = (-Real.pi - t) / (2 * Real.pi) - 1 := by field_simp; ring
        have h2 : 0 < (-Real.pi - t) / (2 * Real.pi) := div_pos (by linarith) hpi
        have h3 : 1 ≤ Nat.ceil ((-Real.pi - t) / (2 * Real.pi)) := Nat.one_le_ceil_iff.mpr h2
        have h4 : Nat.ceil ((-Real.pi - t) / (2 * Real.pi) - 1)
            ≤ Nat.ceil ((-Real.pi - t) / (2 * Real.pi)) - 1 := by
          rw [Nat.ceil_le]
          push_cast [h3]
          have := Nat.le_ceil ((-Real.pi - t) / (2 * Real.pi))
          linarith
        rw [h1]
        omega
      obtain ⟨n, hn1, hn2⟩ := ih (t + 2 * Real.pi) hstep
      refine ⟨n + 1, ?_, ?_⟩
      · rw [reduceUp, dif_pos hlt, hn1]
        push_cast
        ring
      · rw [reduceUp, dif_pos hlt]
        exact hn2
    · refine ⟨0, ?_, ?_⟩
      · rw [reduceUp, dif_neg hlt]
        push_cast
        ring
      · rw [reduceUp, dif_neg hlt]
        exact hlt

lemma reduceDown_exists (theta : ℝ) :
    ∃ n : ℕ, reduceDown theta = theta - n * (2 * Real.pi) ∧
      ¬ (Real.pi < reduceDown theta) ∧
      (-Real.pi ≤ theta → -Real.pi ≤ reduceDown theta) := by
  suffices h : ∀ (m : ℕ) (t : ℝ), Nat.ceil ((t - Real.pi) / (2 * Real.pi)) ≤ m →
      ∃ n : ℕ, reduceDown t = t - n * (2 * Real.pi) ∧ ¬ (Real.pi < reduceDown t) ∧
        (-Real.pi ≤ t → -Real.pi ≤ reduceDown t) by
    exact h _ theta le_rfl
  intro m
  induction m with
  | zero =>
    intro t h0
    have hpi : (0:ℝ) < 2 * Real.pi := by positivity
    have hle : (t - Real.pi) / (2 * Real.pi) ≤ 0 :=
      Nat.ceil_eq_zero.mp (Nat.le_zero.mp h0)
    have ht : ¬ Real.pi < t := by
      intro hlt
      have : 0 < (t - Real.pi) / (2 * Real.pi) := div_pos (by linarith) hpi
      linarith
    refine ⟨0, ?_, ?_, ?_⟩
    · rw [reduceDown, dif_neg ht]
      push_cast
      ring
    · rw [reduceDown, dif_neg ht]
      exact ht
    · rw [reduceDown, dif_neg ht]
      exact fun h => h
  | succ k ih =>
    intro t hm
    by_cases hlt : Real.pi < t
    · have hpi : (0:ℝ) < 2 * Real.pi := by positivity
      have hstep : Nat.ceil ((t - 2 * Real.pi - Real.pi) / (2 * Real.pi)) ≤ k := by
        have h1 : (t - 2 * Real.pi - Real.pi) / (2 * Real.pi)
            = (t - Real.pi) / (2 * Real.pi) - 1 := by field_simp; ring
        have h2 : 0 < (t - Real.pi) / (2 * Real.pi) := div_pos (by linarith) hpi
        have h3 : 1 ≤ Nat.ceil ((t - Real.pi) / (2 * Real.pi)) := Nat.one_le_ceil_iff.mpr h2
        have h4 : Nat.ceil ((t - Real.pi) / (2 * Real.pi) - 1)
            ≤ Nat.ceil ((t - Real.pi) / (2 * Real.pi)) - 1 := by
          rw [Nat.ceil_le]
          push_cast [h3]
          have := Nat.le_ceil ((t - Real.pi) / (2 * Real.pi))
          linarith
        rw [h1]
        omega
      obtain ⟨n, hn1, hn2, hn3⟩ := ih (t - 2 * Real.pi) hstep
      refine ⟨n + 1, ?_, ?_, ?_⟩
      · rw [reduceDown, dif_pos hlt, hn1]
        push_cast
        ring
      · rw [reduceDown, dif_pos hlt]
        exact hn2
      · rw [reduceDown, dif_pos hlt]
        intro _
        apply hn3
        have hpi3 : 0 < Real.pi := Real.pi_pos
        linarith
    · refine ⟨0, ?_, ?_, ?_⟩
      · rw [reduceDown, dif_neg hlt]
        push_cast
        ring
      · rw [reduceDown, dif_neg hlt]
        exact hlt
      · rw [reduceDown, dif_neg hlt]
        exact fun h => h

/-- The combined reduction used by `sin`/`cos` lands in `[-π, π]` and shifts
the input by an integer multiple of `2π`. -/
lemma reduce_spec (theta : ℝ) :
    -Real.pi ≤ reduceDown (reduceUp theta) ∧ reduceDown (reduceUp theta) ≤ Real.pi ∧
      ∃ j : ℤ, reduceDown (reduceUp theta) = theta + j * (2 * Real.pi) := by
  obtain ⟨n, hn1, hn2⟩ := reduceUp_exists theta
  obtain ⟨m, hm1, hm2, hm3⟩ := reduceDown_exists (reduceUp theta)
  have hub : -Real.pi ≤ reduceUp theta := le_of_not_lt hn2
  refine ⟨hm3 hub, le_of_not_lt hm2, ⟨(n : ℤ) - m, ?_⟩⟩
  rw [hm1, hn1]
  push_cast
  ring

/-- If the argument is already in `[-π, π]`, both loops are the identity. -/
lemma reduce_id {theta : ℝ} (h1 : -Real.pi ≤ theta) (h2 : theta ≤ Real.pi) :
    reduceDown (reduceUp theta) = theta := by
  have hu : reduceUp theta = theta := by
    rw [reduceUp, dif_neg (not_lt.mpr h1)]
  rw [hu, reduceDown, dif_neg (not_lt.mpr h2)]

end FastMath

namespace FastMath

/-! ## Properties of the approximation body -/

/-- The body of `FastMath::sin` is exactly the specification pipeline:
parabola base term followed by one correction pass. -/
lemma sinBody_eq_spec (w : ℝ) : sinBody w = specCorr (specBase w) := by
  have key : ∀ y : ℝ,
      (if y < 0 then (0.225:ℝ) * (y * -y - y) + y else (0.225:ℝ) * (y * y - y) + y)
        = specCorr y := by
    intro y
    rw [specCorr]
    split_ifs with h
    · rw [abs_of_neg h]
      ring
    · rw [abs_of_nonneg (not_lt.mp h)]
      ring
  simp only [sinBody]
  rcases lt_trichotomy w 0 with hw | hw | hw
  · rw [if_pos hw]
    have hbase : w * (4 / Real.pi) + 4 / (Real.pi * Real.pi) * w * w = specBase w := by
      rw [specBase, Real.sign_of_neg hw]
      ring
    rw [hbase]
    exact key (specBase w)
  · rw [if_neg (by rw [hw]; exact lt_irrefl 0)]
    have hbase : w * (4 / Real.pi) - 4 / (Real.pi * Real.pi) * w * w = specBase w := by
      rw [specBase, hw, Real.sign_zero]
      ring
    rw [hbase]
    exact key (specBase w)
  · rw [if_neg (not_lt.mpr hw.le)]
    have hbase : w * (4 / Real.pi) - 4 / (Real.pi * Real.pi) * w * w = specBase w := by
      rw [specBase, Real.sign_of_pos hw]
      ring
    rw [hbase]
    exact key (specBase w)

lemma specBase_neg (w : ℝ) : specBase (-w) = -specBase w := by
  rw [specBase, specBase, Real.sign_neg]
  ring

lemma specCorr_neg (y : ℝ) : specCorr (-y) = -specCorr y := by
  rw [specCorr, specCorr, abs_neg]
  ring

/-- The approximation body is an odd function. -/
lemma sinBody_odd (w : ℝ) : sinBody (-w) = -sinBody w := by
  rw [sinBody_eq_spec, sinBody_eq_spec, specBase_neg, specCorr_neg]

/-- On `[0, π]`, written as `π·u` with `u ∈ [0, 1]`, the body is the
polynomial `hFun`. -/
lemma sinBody_eq_hFun {u : ℝ} (h0 : 0 ≤ u) (h1 : u ≤ 1) :
    sinBody (Real.pi * u) = hFun u := by
  have hpi : (0:ℝ) < Real.pi := Real.pi_pos
  have hs : Real.pi * u * (4 / Real.pi) - 4 / (Real.pi * Real.pi) * (Real.pi * u) * (Real.pi * u)
      = 4*u - 4*u*u := by
    field_simp
    ring
  have hnonneg : (0:ℝ) ≤ 4*u - 4*u*u := by nlinarith
  simp only [sinBody]
  rw [if_neg (by nlinarith : ¬ Real.pi * u < 0), hs, if_neg (by linarith : ¬ (4*u - 4*u*u < 0))]
  rw [hFun]

lemma hFun_sym (u : ℝ) : hFun (1 - u) = hFun u := by
  rw [hFun, hFun]
  ring

lemma hFun_mem {u : ℝ} (h0 : 0 ≤ u) (h1 : u ≤ 1) : 0 ≤ hFun u ∧ hFun u ≤ 1 := by
  rw [hFun]
  have hs0 : (0:ℝ) ≤ 4*u - 4*u*u := by nlinarith
  have hs1 : 4*u - 4*u*u ≤ 1 := by nlinarith [sq_nonneg (2*u - 1)]
  constructor
  · nlinarith [mul_nonneg hs0 (by linarith : (0:ℝ) ≤ 1 - 0.225*(1 - (4*u - 4*u*u)))]
  · nlinarith [mul_nonneg (by linarith : (0:ℝ) ≤ 1 - (4*u - 4*u*u))
      (by linarith : (0:ℝ) ≤ 1 - 0.225*(4*u - 4*u*u))]

/-- Range of the body on `[-π, π]`. -/
lemma sinBody_range {w : ℝ} (h1 : -Real.pi ≤ w) (h2 : w ≤ Real.pi) :
    -1 ≤ sinBody w ∧ sinBody w ≤ 1 := by
  have hpi : (0:ℝ) < Real.pi := Real.pi_pos
  rcases le_or_lt 0 w with hw | hw
  · have hu0 : 0 ≤ w / Real.pi := div_nonneg hw hpi.le
    have hu1 : w / Real.pi ≤ 1 := (div_le_one hpi).mpr h2
    have hww : Real.pi * (w / Real.pi) = w := by field_simp
    have := hFun_mem hu0 hu1
    rw [← sinBody_eq_hFun hu0 hu1, hww] at this
    exact ⟨by linarith [this.1], this.2⟩
  · have hu0 : 0 ≤ -w / Real.pi := div_nonneg (by linarith) hpi.le
    have hu1 : -w / Real.pi ≤ 1 := (div_le_one hpi).mpr (by linarith)
    have hww : Real.pi * (-w / Real.pi) = -w := by field_simp; ring
    have hmem := hFun_mem hu0 hu1
    rw [← sinBody_eq_hFun hu0 hu1, hww] at hmem
    have hodd : sinBody (-w) = -sinBody w := sinBody_odd w
    constructor <;> linarith [hmem.1, hmem.2, hodd.symm.le, hodd.le]

end FastMath

namespace FastMath

/-! ## Certified error bounds: `sin` bracket transfer and per-region
Bernstein-form bounds -/

lemma pi_lo : (3141592/1000000 : ℝ) < Real.pi := by
  have h := Real.pi_gt_3141592
  norm_num at h ⊢
  linarith

lemma pi_hi : Real.pi < (3141593/1000000 : ℝ) := by
  have h := Real.pi_lt_3141593
  norm_num at h ⊢
  linarith

lemma err_up (u : ℝ) (hu : 0 ≤ u) : hFun u - Real.sin (Real.pi * u) ≤ AFun u := by
  have hx : (0:ℝ) ≤ Real.pi * u := by positivity
  have hS7 := sin_ge_T7 (Real.pi * u) hx
  have h1 : (3141592/1000000)*u ≤ Real.pi*u := mul_le_mul_of_nonneg_right pi_lo.le hu
  have h2 : Real.pi*u ≤ (3141593/1000000)*u := mul_le_mul_of_nonneg_right pi_hi.le hu
  have h3 : (Real.pi*u)^3 ≤ ((3141593/1000000)*u)^3 := pow_le_pow_left hx h2 3
  have h5 : ((3141592/1000000)*u)^5 ≤ (Real.pi*u)^5 :=
    pow_le_pow_left (by positivity) h1 5
  have h7 : (Real.pi*u)^7 ≤ ((3141593/1000000)*u)^7 := pow_le_pow_left hx h2 7
  rw [AFun]
  have hlow : (3141592/1000000)*u - ((3141593/1000000)*u)^3/6
      + ((3141592/1000000)*u)^5/120 - ((3141593/1000000)*u)^7/5040
      ≤ Real.sin (Real.pi*u) := by
    have hmid : (3141592/1000000)*u - ((3141593/1000000)*u)^3/6
        + ((3141592/1000000)*u)^5/120 - ((3141593/1000000)*u)^7/5040
        ≤ Real.pi*u - (Real.pi*u)^3/6 + (Real.pi*u)^5/120 - (Real.pi*u)^7/5040 := by
      linarith
    linarith
  linarith

lemma err_dn (u : ℝ) (hu : 0 ≤ u) : Real.sin (Real.pi * u) - hFun u ≤ BFun u := by
  have hx : (0:ℝ) ≤ Real.pi * u := by positivity
  have hS9 := sin_le_T9 (Real.pi * u) hx
  have h1 : Real.pi*u ≤ (3141593/1000000)*u := mul_le_mul_of_nonneg_right pi_hi.le hu
  have h1l : (3141592/1000000)*u ≤ Real.pi*u := mul_le_mul_of_nonneg_right pi_lo.le hu
  have h3 : ((3141592/1000000)*u)^3 ≤ (Real.pi*u)^3 :=
    pow_le_pow_left (by positivity) h1l 3
  have h5 : (Real.pi*u)^5 ≤ ((3141593/1000000)*u)^5 := pow_le_pow_left hx h1 5
  have h7 : ((3141592/1000000)*u)^7 ≤ (Real.pi*u)^7 :=
    pow_le_pow_left (by positivity) h1l 7
  have h9 : (Real.pi*u)^9 ≤ ((3141593/1000000)*u)^9 := pow_le_pow_left hx h1 9
  rw [BFun]
  have hup : Real.sin (Real.pi*u)
      ≤ (3141593/1000000)*u - ((3141592/1000000)*u)^3/6 + ((3141593/1000000)*u)^5/120
        - ((3141592/1000000)*u)^7/5040 + ((3141593/1000000)*u)^9/362880 := by
    have hmid : Real.pi*u - (Real.pi*u)^3/6 + (Real.pi*u)^5/120 - (Real.pi*u)^7/5040
        + (Real.pi*u)^9/362880
        ≤ (3141593/1000000)*u - ((3141592/1000000)*u)^3/6 + ((3141593/1000000)*u)^5/120
          - ((3141592/1000000)*u)^7/5040 + ((3141593/1000000)*u)^9/362880 := by
      linarith
    linarith
  linarith

lemma regionA0 (u : ℝ) (hlo : (0:ℝ)/19998 ≤ u) (hhi : u ≤ (1250:ℝ)/19998) :
    AFun u ≤ (1093/1000000 : ℝ) := by
  have hx : (0:ℝ) ≤ 19998*u - 0 := by
    have h := hlo
    rw [div_le_iff (by norm_num : (0:ℝ) < 19998)] at h
    linarith
  have hy : (0:ℝ) ≤ 1250 - 19998*u := by
    have h := hhi
    rw [le_div_iff (by norm_num : (0:ℝ) < 19998)] at h
    linarith
  calc AFun u
      = (0 : ℝ) * ((19998*u - 0)^0 * (1250 - 19998*u)^7) + (-(1733/3178596496582031250000000000) : ℝ) * ((19998*u - 0)^1 * (1250 - 19998*u)^6) + (-(136423153/47674179553985595703125000000000) : ℝ) * ((19998*u - 0)^2 * (1250 - 19998*u)^5) + (-(730305746709700745143/117152347265507812500000000000000000000000000) : ℝ) * ((19998*u - 0)^3 * (1250 - 19998*u)^4) + (-(234677482340083364653873/32539064452994794921875000000000000000000000000) : ℝ) * ((19998*u - 0)^4 * (1250 - 19998*u)^3) + (-(21374930948527733308672468069781/4575348358108522796585083007812500000000000000000000000) : ℝ) * ((19998*u - 0)^5 * (1250 - 19998*u)^2) + (-(7346312680959200865906045067687/4575348358108522796585083007812500000000000000000000000) : ℝ) * ((19998*u - 0)^6 * (1250 - 19998*u)^1) + (-(210527291599215179410654183111202138285955563299249/920955073503747225406470451107840000000000000000000000000000000000000000000) : ℝ) * ((19998*u - 0)^7 * (1250 - 19998*u)^0) := by
        rw [AFun, hFun]
        ring
    _ ≤ (1093/4768371582031250000000000000 : ℝ) * ((19998*u - 0)^0 * (1250 - 19998*u)^7) + (7651/4768371582031250000000000000 : ℝ) * ((19998*u - 0)^1 * (1250 - 19998*u)^6) + (22953/4768371582031250000000000000 : ℝ) * ((19998*u - 0)^2 * (1250 - 19998*u)^5) + (7651/953674316406250000000000000 : ℝ) * ((19998*u - 0)^3 * (1250 - 19998*u)^4) + (7651/953674316406250000000000000 : ℝ) * ((19998*u - 0)^4 * (1250 - 19998*u)^3) + (22953/4768371582031250000000000000 : ℝ) * ((19998*u - 0)^5 * (1250 - 19998*u)^2) + (7651/4768371582031250000000000000 : ℝ) * ((19998*u - 0)^6 * (1250 - 19998*u)^1) + (1093/4768371582031250000000000000 : ℝ) * ((19998*u - 0)^7 * (1250 - 19998*u)^0) := by
        refine add_le_add (add_le_add (add_le_add (add_le_add (add_le_add (add_le_add (add_le_add ?_ ?_) ?_) ?_) ?_) ?_) ?_) ?_
        all_goals
          exact mul_le_mul_of_nonneg_right (by norm_num)
            (mul_nonneg (pow_nonneg hx _) (pow_nonneg hy _))
    _ = (1093/1000000 : ℝ) := by ring

lemma regionB0 (u : ℝ) (hlo : (0:ℝ)/19998 ≤ u) (hhi : u ≤ (1250:ℝ)/19998) :
    BFun u ≤ (1093/1000000 : ℝ) := by
  have hx : (0:ℝ) ≤ 19998*u - 0 := by
    have h := hlo
    rw [div_le_iff (by norm_num : (0:ℝ) < 19998)] at h
    linarith
  have hy : (0:ℝ) ≤ 1250 - 19998*u := by
    have h := hhi
    rw [le_div_iff (by norm_num : (0:ℝ) < 19998)] at h
    linarith
  calc BFun u
      = (0 : ℝ) * ((19998*u - 0)^0 * (1250 - 19998*u)^9) + (41593/119197368621826171875000000000000000 : ℝ) * ((19998*u - 0)^1 * (1250 - 19998*u)^8) + (376825907/148981811106204986572265625000000000000 : ℝ) * ((19998*u - 0)^2 * (1250 - 19998*u)^7) + (2860744801193811901/357520591020226478576660156250000000000000000000 : ℝ) * ((19998*u - 0)^3 * (1250 - 19998*u)^6) + (955077049328924142011/66200896103911936283111572265625000000000000000000 : ℝ) * ((19998*u - 0)^4 * (1250 - 19998*u)^5) + (15190910726881029427207626118950091193/937031343740625468740625000000000000000000000000000000000000000000 : ℝ) * ((19998*u - 0)^5 * (1250 - 19998*u)^4) + (2722947962579039766539977447206091193/234257835935156367185156250000000000000000000000000000000000000000 : ℝ) * ((19998*u - 0)^6 * (1250 - 19998*u)^3) + (3191859354004544911030254408716965596971984885303/614803840115187700066117587829101562500000000000000000000000000000000000000000 : ℝ) * ((19998*u - 0)^7 * (1250 - 19998*u)^2) + (405854922296336000068597404228055046719416069053/307401920057593850033058793914550781250000000000000000000000000000000000000000 : ℝ) * ((19998*u - 0)^8 * (1250 - 19998*u)^1) + (27159228391638037062663076761323107314049101608725412309738318800793/185627411766437197737370460474196305324605440000000000000000000000000000000000000000000000000000000 : ℝ) * ((19998*u - 0)^9 * (1250 - 19998*u)^0) := by
        rw [BFun, hFun]
        ring
    _ ≤ (1093/7450580596923828125000000000000000 : ℝ) * ((19998*u - 0)^0 * (1250 - 19998*u)^9) + (9837/7450580596923828125000000000000000 : ℝ) * ((19998*u - 0)^1 * (1250 - 19998*u)^8) + (9837/1862645149230957031250000000000000 : ℝ) * ((19998*u - 0)^2 * (1250 - 19998*u)^7) + (22953/1862645149230957031250000000000000 : ℝ) * ((19998*u - 0)^3 * (1250 - 19998*u)^6) + (68859/3725290298461914062500000000000000 : ℝ) * ((19998*u - 0)^4 * (1250 - 19998*u)^5) + (68859/3725290298461914062500000000000000 : ℝ) * ((19998*u - 0)^5 * (1250 - 19998*u)^4) + (22953/1862645149230957031250000000000000 : ℝ) * ((19998*u - 0)^6 * (1250 - 19998*u)^3) + (9837/1862645149230957031250000000000000 : ℝ) * ((19998*u - 0)^7 * (1250 - 19998*u)^2) + (9837/7450580596923828125000000000000000 : ℝ) * ((19998*u - 0)^8 * (1250 - 19998*u)^1) + (1093/7450580596923828125000000000000000 : ℝ) * ((19998*u - 0)^9 * (1250 - 19998*u)^0) := by
        refine add_le_add (add_le_add (add_le_add (add_le_add (add_le_add (add_le_add (add_le_add (add_le_add (add_le_add ?_ ?_) ?_) ?_) ?_) ?_) ?_) ?_) ?_) ?_
        all_goals
          exact mul_le_mul_of_nonneg_right (by norm_num)
            (mul_nonneg (pow_nonneg hx _) (pow_nonneg hy _))
    _ = (1093/1000000 : ℝ) := by ring

lemma regionA1 (u : ℝ) (hlo : (1250:ℝ)/19998 ≤ u) (hhi : u ≤ (2500:ℝ)/19998) :
    AFun u ≤ (1091/1000000 : ℝ) := by
  have hx : (0:ℝ) ≤ 19998*u - 1250 := by
    have h := hlo
    rw [div_le_iff (by norm_num : (0:ℝ) < 19998)] at h
    linarith
  have hy : (0:ℝ) ≤ 2500 - 19998*u := by
    have h := hhi
    rw [le_div_iff (by norm_num : (0:ℝ) < 19998)] at h
    linarith
  calc AFun u
      = (-(210527291599215179410654183111202138285955563299249/920955073503747225406470451107840000000000000000000000000000000000000000000) : ℝ) * ((19998*u - 1250)^0 * (2500 - 19998*u)^7) + (-(734334886697098565987064383363500806573794179574743/460477536751873612703235225553920000000000000000000000000000000000000000000) : ℝ) * ((19998*u - 1250)^1 * (2500 - 19998*u)^6) + (-(353518846927642167962146793574320291658149313014743/76746256125312268783872537592320000000000000000000000000000000000000000000) : ℝ) * ((19998*u - 1250)^2 * (2500 - 19998*u)^5) + (-(165190653918815311588818436291032889768776743414743/23023876837593680635161761277696000000000000000000000000000000000000000000) : ℝ) * ((19998*u - 1250)^3 * (2500 - 19998*u)^4) + (-(75061303344628255285513226204086442585446070774743/11511938418796840317580880638848000000000000000000000000000000000000000000) : ℝ) * ((19998*u - 1250)^4 * (2500 - 19998*u)^3) + (-(33153176114984178401753738966563012713674095094743/9593282015664033597984067199040000000000000000000000000000000000000000000) : ℝ) * ((19998*u - 1250)^5 * (2500 - 19998*u)^2) + (-(14193678149894035535896383408438268004724816374743/14389923023496050396976100798560000000000000000000000000000000000000000000) : ℝ) * ((19998*u - 1250)^6 * (2500 - 19998*u)^1) + (-(836342619049336124139296544679200633658490659249/7194961511748025198488050399280000000000000000000000000000000000000000000) : ℝ) * ((19998*u - 1250)^7 * (2500 - 19998*u)^0) := by
        rw [AFun, hFun]
        ring
    _ ≤ (1091/4768371582031250000000000000 : ℝ) * ((19998*u - 1250)^0 * (2500 - 19998*u)^7) + (7637/4768371582031250000000000000 : ℝ) * ((19998*u - 1250)^1 * (2500 - 19998*u)^6) + (22911/4768371582031250000000000000 : ℝ) * ((19998*u - 1250)^2 * (2500 - 19998*u)^5) + (7637/953674316406250000000000000 : ℝ) * ((19998*u - 1250)^3 * (2500 - 19998*u)^4) + (7637/953674316406250000000000000 : ℝ) * ((19998*u - 1250)^4 * (2500 - 19998*u)^3) + (22911/4768371582031250000000000000 : ℝ) * ((19998*u - 1250)^5 * (2500 - 19998*u)^2) + (7637/4768371582031250000000000000 : ℝ) * ((19998*u - 1250)^6 * (2500 - 19998*u)^1) + (1091/4768371582031250000000000000 : ℝ) * ((19998*u - 1250)^7 * (2500 - 19998*u)^0) := by
        refine add_le_add (add_le_add (add_le_add (add_le_add (add_le_add (add_le_add (add_le_add ?_ ?_) ?_) ?_) ?_) ?_) ?_) ?_
        all_goals
          exact mul_le_mul_of_nonneg_right (by norm_num)
            (mul_nonneg (pow_nonneg hx _) (pow_nonneg hy _))
    _ = (1091/1000000 : ℝ) := by ring

lemma regionB1 (u : ℝ) (hlo : (1250:ℝ)/19998 ≤ u) (hhi : u ≤ (2500:ℝ)/19998) :
    BFun u ≤ (1091/1000000 : ℝ) := by
  have hx : (0:ℝ) ≤ 19998*u - 1250 := by
    have h := hlo
    rw [div_le_iff (by norm_num : (0:ℝ) < 19998)] at h
    linarith
  have hy : (0:ℝ) ≤ 2500 - 19998*u := by
    have h := hhi
    rw [le_div_iff (by norm_num : (0:ℝ) < 19998)] at h
    linarith
  calc BFun u
      = (27159228391638037062663076761323107314049101608725412309738318800793/185627411766437197737370460474196305324605440000000000000000000000000000000000000000000000000000000 : ℝ) * ((19998*u - 1250)^0 * (2500 - 19998*u)^9) + (13543720509676444516665118940625961758289257159858272964855589840793/10312633987024288763187247804122016962478080000000000000000000000000000000000000000000000000000000 : ℝ) * ((19998*u - 1250)^1 * (2500 - 19998*u)^8) + (6620688159776739751743623522228869055279298914974774546391231440793/1289079248378036095398405975515252120309760000000000000000000000000000000000000000000000000000000 : ℝ) * ((19998*u - 1250)^2 * (2500 - 19998*u)^7) + (3179295879111388910654530720221403064625790601348530946338843600793/276231267509579163299658423324696882923520000000000000000000000000000000000000000000000000000000 : ℝ) * ((19998*u - 1250)^3 * (2500 - 19998*u)^6) + (1501438251626596853778384906696339989812157876321905832359226320793/92077089169859721099886141108232294307840000000000000000000000000000000000000000000000000000000 : ℝ) * ((19998*u - 1250)^4 * (2500 - 19998*u)^5) + (697544105487685270792896485726705163107684004139067367780379600793/46038544584929860549943070554116147153920000000000000000000000000000000000000000000000000000000 : ℝ) * ((19998*u - 1250)^5 * (2500 - 19998*u)^4) + (318668000789417785468033953631453907305494605027711091597503440793/34528908438697395412457302915587110365440000000000000000000000000000000000000000000000000000000 : ℝ) * ((19998*u - 1250)^6 * (2500 - 19998*u)^3) + (142977698334253691027451690770431214122224710603050958472997840793/40283726511813627981200186734851628759680000000000000000000000000000000000000000000000000000000 : ℝ) * ((19998*u - 1250)^7 * (2500 - 19998*u)^2) + (62859689967516488203793075876510192981888051149278538736462800793/80567453023627255962400373469703257519360000000000000000000000000000000000000000000000000000000 : ℝ) * ((19998*u - 1250)^8 * (2500 - 19998*u)^1) + (26978260644467932799142559700064457796295191815290378384698320793/362553538606322651830801680613664658837120000000000000000000000000000000000000000000000000000000 : ℝ) * ((19998*u - 1250)^9 * (2500 - 19998*u)^0) := by
        rw [BFun, hFun]
        ring
    _ ≤ (1091/7450580596923828125000000000000000 : ℝ) * ((19998*u - 1250)^0 * (2500 - 19998*u)^9) + (9819/7450580596923828125000000000000000 : ℝ) * ((19998*u - 1250)^1 * (2500 - 19998*u)^8) + (9819/1862645149230957031250000000000000 : ℝ) * ((19998*u - 1250)^2 * (2500 - 19998*u)^7) + (22911/1862645149230957031250000000000000 : ℝ) * ((19998*u - 1250)^3 * (2500 - 19998*u)^6) + (68733/3725290298461914062500000000000000 : ℝ) * ((19998*u - 1250)^4 * (2500 - 19998*u)^5) + (68733/3725290298461914062500000000000000 : ℝ) * ((19998*u - 1250)^5 * (2500 - 19998*u)^4) + (22911/1862645149230957031250000000000000 : ℝ) * ((19998*u - 1250)^6 * (2500 - 19998*u)^3) + (9819/1862645149230957031250000000000000 : ℝ) * ((19998*u - 1250)^7 * (2500 - 19998*u)^2) + (9819/7450580596923828125000000000000000 : ℝ) * ((19998*u - 1250)^8 * (2500 - 19998*u)^1) + (1091/7450580596923828125000000000000000 : ℝ) * ((19998*u - 1250)^9 * (2500 - 19998*u)^0) := by
        refine add_le_add (add_le_add (add_le_add (add_le_add (add_le_add (add_le_add (add_le_add (add_le_add (add_le_add ?_ ?_) ?_) ?_) ?_) ?_) ?_) ?_) ?_) ?_
        all_goals
          exact mul_le_mul_of_nonneg_right (by norm_num)
            (mul_nonneg (pow_nonneg hx _) (pow_nonneg hy _))
    _ = (1091/1000000 : ℝ) := by ring

lemma regionA2 (u : ℝ) (hlo : (2500:ℝ)/19998 ≤ u) (hhi : u ≤ (3750:ℝ)/19998) :
    AFun u ≤ (111/200000 : ℝ) := by
  have hx : (0:ℝ) ≤ 19998*u - 2500 := by
    have h := hlo
    rw [div_le_iff (by norm_num : (0:ℝ) < 19998)] at h
    linarith
  have hy : (0:ℝ) ≤ 3750 - 19998*u := by
    have h := hhi
    rw [le_div_iff (by norm_num : (0:ℝ) < 19998)] at h
    linarith
  calc AFun u
      = (-(836342619049336124139296544679200633658490659249/7194961511748025198488050399280000000000000000000000000000000000000000000) : ℝ) * ((19998*u - 2500)^0 * (3750 - 19998*u)^7) + (-(3074638394495791980001306614193116579237640694743/4796641007832016798992033599520000000000000000000000000000000000000000000) : ℝ) * ((19998*u - 2500)^1 * (3750 - 19998*u)^6) + (-(1474902694373060002020431633680815516180724214743/1065920223962670399776007466560000000000000000000000000000000000000000000) : ℝ) * ((19998*u - 2500)^2 * (3750 - 19998*u)^5) + (-(598583413865583830626299622441286282624285174743/426368089585068159910402986624000000000000000000000000000000000000000000) : ℝ) * ((19998*u - 2500)^3 * (3750 - 19998*u)^4) + (-(148877461812118405643345843464567348405123574743/284245393056712106606935324416000000000000000000000000000000000000000000) : ℝ) * ((19998*u - 2500)^4 * (3750 - 19998*u)^3) + (59612051937064826594215853282461222988760585257/315828214507457896229928138240000000000000000000000000000000000000000000 : ℝ) * ((19998*u - 2500)^5 * (3750 - 19998*u)^2) + (138512315777708323369101501513920974418167305257/631656429014915792459856276480000000000000000000000000000000000000000000 : ℝ) * ((19998*u - 2500)^6 * (3750 - 19998*u)^1) + (21793612561116818301938005021601373584670940751/421104286009943861639904184320000000000000000000000000000000000000000000 : ℝ) * ((19998*u - 2500)^7 * (3750 - 19998*u)^0) := by
        rw [AFun, hFun]
        ring
    _ ≤ (111/953674316406250000000000000 : ℝ) * ((19998*u - 2500)^0 * (3750 - 19998*u)^7) + (777/953674316406250000000000000 : ℝ) * ((19998*u - 2500)^1 * (3750 - 19998*u)^6) + (2331/953674316406250000000000000 : ℝ) * ((19998*u - 2500)^2 * (3750 - 19998*u)^5) + (777/190734863281250000000000000 : ℝ) * ((19998*u - 2500)^3 * (3750 - 19998*u)^4) + (777/190734863281250000000000000 : ℝ) * ((19998*u - 2500)^4 * (3750 - 19998*u)^3) + (2331/953674316406250000000000000 : ℝ) * ((19998*u - 2500)^5 * (3750 - 19998*u)^2) + (777/953674316406250000000000000 : ℝ) * ((19998*u - 2500)^6 * (3750 - 19998*u)^1) + (111/953674316406250000000000000 : ℝ) * ((19998*u - 2500)^7 * (3750 - 19998*u)^0) := by
        refine add_le_add (add_le_add (add_le_add (add_le_add (add_le_add (add_le_add (add_le_add ?_ ?_) ?_) ?_) ?_) ?_) ?_) ?_
        all_goals
          exact mul_le_mul_of_nonneg_right (by norm_num)
            (mul_nonneg (pow_nonneg hx _) (pow_nonneg hy _))
    _ = (111/200000 : ℝ) := by ring

lemma regionB2 (u : ℝ) (hlo : (2500:ℝ)/19998 ≤ u) (hhi : u ≤ (3750:ℝ)/19998) :
    BFun u ≤ (111/200000 : ℝ) := by
  have hx : (0:ℝ) ≤ 19998*u - 2500 := by
    have h := hlo
    rw [div_le_iff (by norm_num : (0:ℝ) < 19998)] at h
    linarith
  have hy : (0:ℝ) ≤ 3750 - 19998*u := by
    have h := hhi
    rw [le_div_iff (by norm_num : (0:ℝ) < 19998)] at h
    linarith
  calc BFun u
      = (26978260644467932799142559700064457796295191815290378384698320793/362553538606322651830801680613664658837120000000000000000000000000000000000000000000000000000000 : ℝ) * ((19998*u - 2500)^0 * (3750 - 19998*u)^9) + (15017784203451747664259054307915879401097572037294324934110160793/26855817674542418654133457823234419173120000000000000000000000000000000000000000000000000000000 : ℝ) * ((19998*u - 2500)^1 * (3750 - 19998*u)^8) + (7972483211734301131487559884375666111982596717052078081829840793/4475969612423736442355576303872403195520000000000000000000000000000000000000000000000000000000 : ℝ) * ((19998*u - 2500)^2 * (3750 - 19998*u)^7) + (3941034889880843415720093123902099925683990489707954346257360793/1278848460692496126387307515392115198720000000000000000000000000000000000000000000000000000000 : ℝ) * ((19998*u - 2500)^3 * (3750 - 19998*u)^6) + (1716904027715121708014609881663345610389759902316208216992720793/568377093641109389505470006840940088320000000000000000000000000000000000000000000000000000000 : ℝ) * ((19998*u - 2500)^4 * (3750 - 19998*u)^5) + (549902910521330988600980785243098387966136361148552154835920793/378918062427406259670313337893960058880000000000000000000000000000000000000000000000000000000 : ℝ) * ((19998*u - 2500)^5 * (3750 - 19998*u)^4) + (-(16866681047617588775380260221211541573557945807283408213039207/378918062427406259670313337893960058880000000000000000000000000000000000000000000000000000000) : ℝ) * ((19998*u - 2500)^6 * (3750 - 19998*u)^3) + (-(255569383558075575734981067260453624387427224757950068954159207/589428097109298626153820747835048980480000000000000000000000000000000000000000000000000000000) : ℝ) * ((19998*u - 2500)^7 * (3750 - 19998*u)^2) + (-(324285137576122259479702367631879182437824078423841452987439207/1571808258958129669743521994226797281280000000000000000000000000000000000000000000000000000000) : ℝ) * ((19998*u - 2500)^8 * (3750 - 19998*u)^1) + (-(312061185830428785997274238372072170460013717167413214712879207/9430849553748778018461131965360783687680000000000000000000000000000000000000000000000000000000) : ℝ) * ((19998*u - 2500)^9 * (3750 - 19998*u)^0) := by
        rw [BFun, hFun]
        ring
    _ ≤ (111/1490116119384765625000000000000000 : ℝ) * ((19998*u - 2500)^0 * (3750 - 19998*u)^9) + (999/1490116119384765625000000000000000 : ℝ) * ((19998*u - 2500)^1 * (3750 - 19998*u)^8) + (999/372529029846191406250000000000000 : ℝ) * ((19998*u - 2500)^2 * (3750 - 19998*u)^7) + (2331/372529029846191406250000000000000 : ℝ) * ((19998*u - 2500)^3 * (3750 - 19998*u)^6) + (6993/745058059692382812500000000000000 : ℝ) * ((19998*u - 2500)^4 * (3750 - 19998*u)^5) + (6993/745058059692382812500000000000000 : ℝ) * ((19998*u - 2500)^5 * (3750 - 19998*u)^4) + (2331/372529029846191406250000000000000 : ℝ) * ((19998*u - 2500)^6 * (3750 - 19998*u)^3) + (999/372529029846191406250000000000000 : ℝ) * ((19998*u - 2500)^7 * (3750 - 19998*u)^2) + (999/1490116119384765625000000000000000 : ℝ) * ((19998*u - 2500)^8 * (3750 - 19998*u)^1) + (111/1490116119384765625000000000000000 : ℝ) * ((19998*u - 2500)^9 * (3750 - 19998*u)^0) := by
        refine add_le_add (add_le_add (add_le_add (add_le_add (add_le_add (add_le_add (add_le_add (add_le_add (add_le_add ?_ ?_) ?_) ?_) ?_) ?_) ?_) ?_) ?_) ?_
        all_goals
          exact mul_le_mul_of_nonneg_right (by norm_num)
            (mul_nonneg (pow_nonneg hx _) (pow_nonneg hy _))
    _ = (111/200000 : ℝ) := by ring

lemma regionA3 (u : ℝ) (hlo : (3750:ℝ)/19998 ≤ u) (hhi : u ≤ (5000:ℝ)/19998) :
    AFun u ≤ (707/1000000 : ℝ) := by
  have hx : (0:ℝ) ≤ 19998*u - 3750 := by
    have h := hlo
    rw [div_le_iff (by norm_num : (0:ℝ) < 19998)] at h
    linarith
  have hy : (0:ℝ) ≤ 5000 - 19998*u := by
    have h := hhi
    rw [le_div_iff (by norm_num : (0:ℝ) < 19998)] at h
    linarith
  calc AFun u
      = (21793612561116818301938005021601373584670940751/421104286009943861639904184320000000000000000000000000000000000000000000 : ℝ) * ((19998*u - 3750)^0 * (5000 - 19998*u)^7) + (159576774002872430485798301969853935429961225257/315828214507457896229928138240000000000000000000000000000000000000000000 : ℝ) * ((19998*u - 3750)^1 * (5000 - 19998*u)^6) + (150383937155293609850425290139955478078506505257/78957053626864474057482034560000000000000000000000000000000000000000000 : ℝ) * ((19998*u - 3750)^2 * (5000 - 19998*u)^5) + (133068272162331971636478866401688956689532425257/35530674132089013325866915552000000000000000000000000000000000000000000 : ℝ) * ((19998*u - 3750)^3 * (5000 - 19998*u)^4) + (112790321915129670407337078758183845311038985257/26648005599066759994400186664000000000000000000000000000000000000000000 : ℝ) * ((19998*u - 3750)^4 * (5000 - 19998*u)^3) + (92619504655478099939868188241970458387826185257/33310006998833449993000233330000000000000000000000000000000000000000000 : ℝ) * ((19998*u - 3750)^5 * (5000 - 19998*u)^2) + (74205784530055665684916896710620270761494025257/74947515747375262484250524992500000000000000000000000000000000000000000 : ℝ) * ((19998*u - 3750)^6 * (5000 - 19998*u)^1) + (8326169351735077087018967238797211095777500751/56210636810531446863187893744375000000000000000000000000000000000000000 : ℝ) * ((19998*u - 3750)^7 * (5000 - 19998*u)^0) := by
        rw [AFun, hFun]
        ring
    _ ≤ (707/4768371582031250000000000000 : ℝ) * ((19998*u - 3750)^0 * (5000 - 19998*u)^7) + (4949/4768371582031250000000000000 : ℝ) * ((19998*u - 3750)^1 * (5000 - 19998*u)^6) + (14847/4768371582031250000000000000 : ℝ) * ((19998*u - 3750)^2 * (5000 - 19998*u)^5) + (4949/953674316406250000000000000 : ℝ) * ((19998*u - 3750)^3 * (5000 - 19998*u)^4) + (4949/953674316406250000000000000 : ℝ) * ((19998*u - 3750)^4 * (5000 - 19998*u)^3) + (14847/4768371582031250000000000000 : ℝ) * ((19998*u - 3750)^5 * (5000 - 19998*u)^2) + (4949/4768371582031250000000000000 : ℝ) * ((19998*u - 3750)^6 * (5000 - 19998*u)^1) + (707/4768371582031250000000000000 : ℝ) * ((19998*u - 3750)^7 * (5000 - 19998*u)^0) := by
        refine add_le_add (add_le_add (add_le_add (add_le_add (add_le_add (add_le_add (add_le_add ?_ ?_) ?_) ?_) ?_) ?_) ?_) ?_
        all_goals
          exact mul_le_mul_of_nonneg_right (by norm_num)
            (mul_nonneg (pow_nonneg hx _) (pow_nonneg hy _))
    _ = (707/1000000 : ℝ) := by ring

lemma regionB3 (u : ℝ) (hlo : (3750:ℝ)/19998 ≤ u) (hhi : u ≤ (5000:ℝ)/19998) :
    BFun u ≤ (707/1000000 : ℝ) := by
  have hx : (0:ℝ) ≤ 19998*u - 3750 := by
    have h := hlo
    rw [div_le_iff (by norm_num : (0:ℝ) < 19998)] at h
    linarith
  have hy : (0:ℝ) ≤ 5000 - 19998*u := by
    have h := hhi
    rw [le_div_iff (by norm_num : (0:ℝ) < 19998)] at h
    linarith
  calc BFun u
      = (-(312061185830428785997274238372072170460013717167413214712879207/9430849553748778018461131965360783687680000000000000000000000000000000000000000000000000000000) : ℝ) * ((19998*u - 3750)^0 * (5000 - 19998*u)^9) + (-(305949209957582049256060173742168664471108536539199095575599207/785904129479064834871760997113398640640000000000000000000000000000000000000000000000000000000) : ℝ) * ((19998*u - 3750)^1 * (5000 - 19998*u)^8) + (-(279602307643800273208058751704457015975151552180405070861359207/147357024277324656538455186958762245120000000000000000000000000000000000000000000000000000000) : ℝ) * ((19998*u - 3750)^2 * (5000 - 19998*u)^7) + (-(244151384230167351101736231888510219314050915386338097370159207/47364757803425782458789167236745007360000000000000000000000000000000000000000000000000000000) : ℝ) * ((19998*u - 3750)^3 * (5000 - 19998*u)^6) + (-(206412801442929167359674458003859558378021815429934008701999207/23682378901712891229394583618372503680000000000000000000000000000000000000000000000000000000) : ℝ) * ((19998*u - 3750)^4 * (5000 - 19998*u)^5) + (-(170296252336083101428710746154149317760857236159517515256879207/17761784176284668422045937713779377760000000000000000000000000000000000000000000000000000000) : ℝ) * ((19998*u - 3750)^5 * (5000 - 19998*u)^4) + (-(137812684849317517458031292284023814654821247109202204234799207/19982007198320251974801679928001799980000000000000000000000000000000000000000000000000000000) : ℝ) * ((19998*u - 3750)^6 * (5000 - 19998*u)^3) + (-(109778446928097434661898091088112539938458089921930539635759207/34968512597060440955902939874003149965000000000000000000000000000000000000000000000000000000) : ℝ) * ((19998*u - 3750)^7 * (5000 - 19998*u)^2) + (-(86295088166339737495353992743444089353948663285153862259759207/104905537791181322867708819622009449895000000000000000000000000000000000000000000000000000000) : ℝ) * ((19998*u - 3750)^8 * (5000 - 19998*u)^1) + (-(67067514945768449042915157858584458113984351979152389706799207/708112380090473929357034532448563786791250000000000000000000000000000000000000000000000000000) : ℝ) * ((19998*u - 3750)^9 * (5000 - 19998*u)^0) := by
        rw [BFun, hFun]
        ring
    _ ≤ (707/7450580596923828125000000000000000 : ℝ) * ((19998*u - 3750)^0 * (5000 - 19998*u)^9) + (6363/7450580596923828125000000000000000 : ℝ) * ((19998*u - 3750)^1 * (5000 - 19998*u)^8) + (6363/1862645149230957031250000000000000 : ℝ) * ((19998*u - 3750)^2 * (5000 - 19998*u)^7) + (14847/1862645149230957031250000000000000 : ℝ) * ((19998*u - 3750)^3 * (5000 - 19998*u)^6) + (44541/3725290298461914062500000000000000 : ℝ) * ((19998*u - 3750)^4 * (5000 - 19998*u)^5) + (44541/3725290298461914062500000000000000 : ℝ) * ((19998*u - 3750)^5 * (5000 - 19998*u)^4) + (14847/1862645149230957031250000000000000 : ℝ) * ((19998*u - 3750)^6 * (5000 - 19998*u)^3) + (6363/1862645149230957031250000000000000 : ℝ) * ((19998*u - 3750)^7 * (5000 - 19998*u)^2) + (6363/7450580596923828125000000000000000 : ℝ) * ((19998*u - 3750)^8 * (5000 - 19998*u)^1) + (707/7450580596923828125000000000000000 : ℝ) * ((19998*u - 3750)^9 * (5000 - 19998*u)^0) := by
        refine add_le_add (add_le_add (add_le_add (add_le_add (add_le_add (add_le_add (add_le_add (add_le_add (add_le_add ?_ ?_) ?_) ?_) ?_) ?_) ?_) ?_) ?_) ?_
        all_goals
          exact mul_le_mul_of_nonneg_right (by norm_num)
            (mul_nonneg (pow_nonneg hx _) (pow_nonneg hy _))
    _ = (707/1000000 : ℝ) := by ring

lemma regionA4 (u : ℝ) (hlo : (5000:ℝ)/19998 ≤ u) (hhi : u ≤ (6250:ℝ)/19998) :
    AFun u ≤ (769/1000000 : ℝ) := by
  have hx : (0:ℝ) ≤ 19998*u - 5000 := by
    have h := hlo
    rw [div_le_iff (by norm_num : (0:ℝ) < 19998)] at h
    linarith
  have hy : (0:ℝ) ≤ 6250 - 19998*u := by
    have h := hhi
    rw [le_div_iff (by norm_num : (0:ℝ) < 19998)] at h
    linarith
  calc AFun u
      = (8326169351735077087018967238797211095777500751/56210636810531446863187893744375000000000000000000000000000000000000000 : ℝ) * ((19998*u - 5000)^0 * (6250 - 19998*u)^7) + (48729626021399463963662295048156601815811593257/44968509448425157490550314995500000000000000000000000000000000000000000 : ℝ) * ((19998*u - 5000)^1 * (6250 - 19998*u)^6) + (40072870161357819262691999001964467993881711657/11991602519580041997480083998800000000000000000000000000000000000000000 : ℝ) * ((19998*u - 5000)^2 * (6250 - 19998*u)^5) + (32471467049449770651018188898612670376147260457/5755969209398420158790440319424000000000000000000000000000000000000000 : ℝ) * ((19998*u - 5000)^3 * (6250 - 19998*u)^4) + (25965260000152461013885481562333696497527919657/4604775367518736127032352255539200000000000000000000000000000000000000 : ℝ) * ((19998*u - 5000)^4 * (6250 - 19998*u)^3) + (20514539713655783593487382512603062641968649257/6139700490024981502709803007385600000000000000000000000000000000000000 : ℝ) * ((19998*u - 5000)^5 * (6250 - 19998*u)^2) + (16031351996347500663450765698696535689479689257/14735281176059955606503527217725440000000000000000000000000000000000000 : ℝ) * ((19998*u - 5000)^6 * (6250 - 19998*u)^1) + (1771851423302672608757750676026491632088079951/11788224940847964485202821774180352000000000000000000000000000000000000 : ℝ) * ((19998*u - 5000)^7 * (6250 - 19998*u)^0) := by
        rw [AFun, hFun]
        ring
    _ ≤ (769/4768371582031250000000000000 : ℝ) * ((19998*u - 5000)^0 * (6250 - 19998*u)^7) + (5383/4768371582031250000000000000 : ℝ) * ((19998*u - 5000)^1 * (6250 - 19998*u)^6) + (16149/4768371582031250000000000000 : ℝ) * ((19998*u - 5000)^2 * (6250 - 19998*u)^5) + (5383/953674316406250000000000000 : ℝ) * ((19998*u - 5000)^3 * (6250 - 19998*u)^4) + (5383/953674316406250000000000000 : ℝ) * ((19998*u - 5000)^4 * (6250 - 19998*u)^3) + (16149/4768371582031250000000000000 : ℝ) * ((19998*u - 5000)^5 * (6250 - 19998*u)^2) + (5383/4768371582031250000000000000 : ℝ) * ((19998*u - 5000)^6 * (6250 - 19998*u)^1) + (769/4768371582031250000000000000 : ℝ) * ((19998*u - 5000)^7 * (6250 - 19998*u)^0) := by
        refine add_le_add (add_le_add (add_le_add (add_le_add (add_le_add (add_le_add (add_le_add ?_ ?_) ?_) ?_) ?_) ?_) ?_) ?_
        all_goals
          exact mul_le_mul_of_nonneg_right (by norm_num)
            (mul_nonneg (pow_nonneg hx _) (pow_nonneg hy _))
    _ = (769/1000000 : ℝ) := by ring

lemma regionB4 (u : ℝ) (hlo : (5000:ℝ)/19998 ≤ u) (hhi : u ≤ (6250:ℝ)/19998) :
    BFun u ≤ (769/1000000 : ℝ) := by
  have hx : (0:ℝ) ≤ 19998*u - 5000 := by
    have h := hlo
    rw [div_le_iff (by norm_num : (0:ℝ) < 19998)] at h
    linarith
  have hy : (0:ℝ) ≤ 6250 - 19998*u := by
    have h := hhi
    rw [le_div_iff (by norm_num : (0:ℝ) < 19998)] at h
    linarith
  calc BFun u
      = (-(67067514945768449042915157858584458113984351979152389706799207/708112380090473929357034532448563786791250000000000000000000000000000000000000000000000000000) : ℝ) * ((19998*u - 5000)^0 * (6250 - 19998*u)^9) + (-(55530971013425675971451856927668679370005765195551506175023207/62943322674708793720625291773205669937000000000000000000000000000000000000000000000000000000) : ℝ) * ((19998*u - 5000)^1 * (6250 - 19998*u)^8) + (-(45526509875910010037066450842284075590063419931029696379541607/12588664534941758744125058354641133987400000000000000000000000000000000000000000000000000000) : ℝ) * ((19998*u - 5000)^2 * (6250 - 19998*u)^7) + (-(36990391311673840226014430293880901740098655298127487321954407/4316113554837174426557162864448388795680000000000000000000000000000000000000000000000000000) : ℝ) * ((19998*u - 5000)^3 * (6250 - 19998*u)^6) + (-(29807470138869360690931027005836659757430969407016028437141607/2301927229246493027497153527705807357696000000000000000000000000000000000000000000000000000) : ℝ) * ((19998*u - 5000)^4 * (6250 - 19998*u)^5) + (-(23835935958984836809535939030301092339388528312294454793263207/1841541783397194421997722822164645886156800000000000000000000000000000000000000000000000000) : ℝ) * ((19998*u - 5000)^5 * (6250 - 19998*u)^4) + (-(18924511121221976272603196096240668632106236166706582131759207/2209850140076633306397267386597575063388160000000000000000000000000000000000000000000000000) : ℝ) * ((19998*u - 5000)^6 * (6250 - 19998*u)^3) + (-(14923862021628305677046664240428320781341149250925093747349607/4125053594809715505274899121648806784991232000000000000000000000000000000000000000000000000) : ℝ) * ((19998*u - 5000)^7 * (6250 - 19998*u)^2) + (-(11693697717101593054624851612666517755016118281636563208034407/13200171503391089616879677189276181711971942400000000000000000000000000000000000000000000000) : ℝ) * ((19998*u - 5000)^8 * (6250 - 19998*u)^1) + (-(9106748700486496721421840006074090295063645133245840915093607/95041234824415845241533675762788508326197985280000000000000000000000000000000000000000000000) : ℝ) * ((19998*u - 5000)^9 * (6250 - 19998*u)^0) := by
        rw [BFun, hFun]
        ring
    _ ≤ (769/7450580596923828125000000000000000 : ℝ) * ((19998*u - 5000)^0 * (6250 - 19998*u)^9) + (6921/7450580596923828125000000000000000 : ℝ) * ((19998*u - 5000)^1 * (6250 - 19998*u)^8) + (6921/1862645149230957031250000000000000 : ℝ) * ((19998*u - 5000)^2 * (6250 - 19998*u)^7) + (16149/1862645149230957031250000000000000 : ℝ) * ((19998*u - 5000)^3 * (6250 - 19998*u)^6) + (48447/3725290298461914062500000000000000 : ℝ) * ((19998*u - 5000)^4 * (6250 - 19998*u)^5) + (48447/3725290298461914062500000000000000 : ℝ) * ((19998*u - 5000)^5 * (6250 - 19998*u)^4) + (16149/1862645149230957031250000000000000 : ℝ) * ((19998*u - 5000)^6 * (6250 - 19998*u)^3) + (6921/1862645149230957031250000000000000 : ℝ) * ((19998*u - 5000)^7 * (6250 - 19998*u)^2) + (6921/7450580596923828125000000000000000 : ℝ) * ((19998*u - 5000)^8 * (6250 - 19998*u)^1) + (769/7450580596923828125000000000000000 : ℝ) * ((19998*u - 5000)^9 * (6250 - 19998*u)^0) := by
        refine add_le_add (add_le_add (add_le_add (add_le_add (add_le_add (add_le_add (add_le_add (add_le_add (add_le_add ?_ ?_) ?_) ?_) ?_) ?_) ?_) ?_) ?_) ?_
        all_goals
          exact mul_le_mul_of_nonneg_right (by norm_num)
            (mul_nonneg (pow_nonneg hx _) (pow_nonneg hy _))
    _ = (769/1000000 : ℝ) := by ring

lemma regionA5 (u : ℝ) (hlo : (6250:ℝ)/19998 ≤ u) (hhi : u ≤ (7500:ℝ)/19998) :
    AFun u ≤ (717/1000000 : ℝ) := by
  have hx : (0:ℝ) ≤ 19998*u - 6250 := by
    have h := hlo
    rw [div_le_iff (by norm_num : (0:ℝ) < 19998)] at h
    linarith
  have hy : (0:ℝ) ≤ 7500 - 19998*u := by
    have h := hhi
    rw [le_div_iff (by norm_num : (0:ℝ) < 19998)] at h
    linarith
  calc AFun u
      = (1771851423302672608757750676026491632088079951/11788224940847964485202821774180352000000000000000000000000000000000000 : ℝ) * ((19998*u - 6250)^0 * (7500 - 19998*u)^7) + (9984031940966179993206580754511378581374473257/9823520784039970404335684811816960000000000000000000000000000000000000 : ℝ) * ((19998*u - 6250)^1 * (7500 - 19998*u)^6) + (7945013111737869737504509375679730265966089257/2728755773344436223426579114393600000000000000000000000000000000000000 : ℝ) * ((19998*u - 6250)^2 * (7500 - 19998*u)^5) + (6252499953920028171984299443563481896037487657/1364377886672218111713289557196800000000000000000000000000000000000000 : ℝ) * ((19998*u - 6250)^3 * (7500 - 19998*u)^4) + (4868193599530428693227617146735976203712828457/1136981572226848426427741297664000000000000000000000000000000000000000 : ℝ) * ((19998*u - 6250)^4 * (7500 - 19998*u)^3) + (3751989506849951249693791979243957951114351657/1579141072537289481149640691200000000000000000000000000000000000000000 : ℝ) * ((19998*u - 6250)^5 * (7500 - 19998*u)^2) + (2864378363382564182636050340316198252922377257/3947852681343223702874101728000000000000000000000000000000000000000000 : ℝ) * ((19998*u - 6250)^6 * (7500 - 19998*u)^1) + (309736888434814867835960967001099786567900751/3289877234452686419061751440000000000000000000000000000000000000000000 : ℝ) * ((19998*u - 6250)^7 * (7500 - 19998*u)^0) := by
        rw [AFun, hFun]
        ring
    _ ≤ (717/4768371582031250000000000000 : ℝ) * ((19998*u - 6250)^0 * (7500 - 19998*u)^7) + (5019/4768371582031250000000000000 : ℝ) * ((19998*u - 6250)^1 * (7500 - 19998*u)^6) + (15057/4768371582031250000000000000 : ℝ) * ((19998*u - 6250)^2 * (7500 - 19998*u)^5) + (5019/953674316406250000000000000 : ℝ) * ((19998*u - 6250)^3 * (7500 - 19998*u)^4) + (5019/953674316406250000000000000 : ℝ) * ((19998*u - 6250)^4 * (7500 - 19998*u)^3) + (15057/4768371582031250000000000000 : ℝ) * ((19998*u - 6250)^5 * (7500 - 19998*u)^2) + (5019/4768371582031250000000000000 : ℝ) * ((19998*u - 6250)^6 * (7500 - 19998*u)^1) + (717/4768371582031250000000000000 : ℝ) * ((19998*u - 6250)^7 * (7500 - 19998*u)^0) := by
        refine add_le_add (add_le_add (add_le_add (add_le_add (add_le_add (add_le_add (add_le_add ?_ ?_) ?_) ?_) ?_) ?_) ?_) ?_
        all_goals
          exact mul_le_mul_of_nonneg_right (by norm_num)
            (mul_nonneg (pow_nonneg hx _) (pow_nonneg hy _))
    _ = (717/1000000 : ℝ) := by ring

lemma regionB5 (u : ℝ) (hlo : (6250:ℝ)/19998 ≤ u) (hhi : u ≤ (7500:ℝ)/19998) :
    BFun u ≤ (717/1000000 : ℝ) := by
  have hx : (0:ℝ) ≤ 19998*u - 6250 := by
    have h := hlo
    rw [div_le_iff (by norm_num : (0:ℝ) < 19998)] at h
    linarith
  have hy : (0:ℝ) ≤ 7500 - 19998*u := by
    have h := hhi
    rw [le_div_iff (by norm_num : (0:ℝ) < 19998)] at h
    linarith
  calc BFun u
      = (-(9106748700486496721421840006074090295063645133245840915093607/95041234824415845241533675762788508326197985280000000000000000000000000000000000000000000000) : ℝ) * ((19998*u - 6250)^0 * (7500 - 19998*u)^9) + (-(7382116022743099165953165601679138655095329700985359386466407/8800114335594059744586451459517454474647961600000000000000000000000000000000000000000000000) : ℝ) * ((19998*u - 6250)^1 * (7500 - 19998*u)^8) + (-(5943356806293753294581736095581687266848151078012792634005607/1833357153248762446788844054066136348884992000000000000000000000000000000000000000000000000) : ℝ) * ((19998*u - 6250)^2 * (7500 - 19998*u)^7) + (-(4752761567536876386147279426483611905709517227114762998831207/654770411874558016710301447880762981744640000000000000000000000000000000000000000000000000) : ℝ) * ((19998*u - 6250)^3 * (7500 - 19998*u)^6) + (-(3775192958366567750961241783618415364155162265688910468143207/363761339930310009283500804378201656524800000000000000000000000000000000000000000000000000) : ℝ) * ((19998*u - 6250)^4 * (7500 - 19998*u)^5) + (-(2978609720094801171890696285636735264337637885886034115221607/303134449941925007736250670315168047104000000000000000000000000000000000000000000000000000) : ℝ) * ((19998*u - 6250)^5 * (7500 - 19998*u)^4) + (-(2334316742051124182931513725889766921806785189665318979426407/378918062427406259670313337893960058880000000000000000000000000000000000000000000000000000) : ℝ) * ((19998*u - 6250)^6 * (7500 - 19998*u)^3) + (-(1817011039362005515540604960016542263457392345859480386197607/736785121386623282692275934793811225600000000000000000000000000000000000000000000000000000) : ℝ) * ((19998*u - 6250)^7 * (7500 - 19998*u)^2) + (-(1404682495005235848574122646300194314710909692421921707055207/2455950404622077608974253115979370752000000000000000000000000000000000000000000000000000000) : ℝ) * ((19998*u - 6250)^8 * (7500 - 19998*u)^1) + (-(1078417241828050803255588183817525282849760123103265559599207/18419628034665582067306898369845280640000000000000000000000000000000000000000000000000000000) : ℝ) * ((19998*u - 6250)^9 * (7500 - 19998*u)^0) := by
        rw [BFun, hFun]
        ring
    _ ≤ (717/7450580596923828125000000000000000 : ℝ) * ((19998*u - 6250)^0 * (7500 - 19998*u)^9) + (6453/7450580596923828125000000000000000 : ℝ) * ((19998*u - 6250)^1 * (7500 - 19998*u)^8) + (6453/1862645149230957031250000000000000 : ℝ) * ((19998*u - 6250)^2 * (7500 - 19998*u)^7) + (15057/1862645149230957031250000000000000 : ℝ) * ((19998*u - 6250)^3 * (7500 - 19998*u)^6) + (45171/3725290298461914062500000000000000 : ℝ) * ((19998*u - 6250)^4 * (7500 - 19998*u)^5) + (45171/3725290298461914062500000000000000 : ℝ) * ((19998*u - 6250)^5 * (7500 - 19998*u)^4) + (15057/1862645149230957031250000000000000 : ℝ) * ((19998*u - 6250)^6 * (7500 - 19998*u)^3) + (6453/1862645149230957031250000000000000 : ℝ) * ((19998*u - 6250)^7 * (7500 - 19998*u)^2) + (6453/7450580596923828125000000000000000 : ℝ) * ((19998*u - 6250)^8 * (7500 - 19998*u)^1) + (717/7450580596923828125000000000000000 : ℝ) * ((19998*u - 6250)^9 * (7500 - 19998*u)^0) := by
        refine add_le_add (add_le_add (add_le_add (add_le_add (add_le_add (add_le_add (add_le_add (add_le_add (add_le_add ?_ ?_) ?_) ?_) ?_) ?_) ?_) ?_) ?_) ?_
        all_goals
          exact mul_le_mul_of_nonneg_right (by norm_num)
            (mul_nonneg (pow_nonneg hx _) (pow_nonneg hy _))
    _ = (717/1000000 : ℝ) := by ring

lemma regionA6 (u : ℝ) (hlo : (7500:ℝ)/19998 ≤ u) (hhi : u ≤ (8750:ℝ)/19998) :
    AFun u ≤ (449/1000000 : ℝ) := by
  have hx : (0:ℝ) ≤ 19998*u - 7500 := by
    have h := hlo
    rw [div_le_iff (by norm_num : (0:ℝ) < 19998)] at h
    linarith
  have hy : (0:ℝ) ≤ 8750 - 19998*u := by
    have h := hhi
    rw [le_div_iff (by norm_num : (0:ℝ) < 19998)] at h
    linarith
  calc AFun u
      = (309736888434814867835960967001099786567900751/3289877234452686419061751440000000000000000000000000000000000000000000 : ℝ) * ((19998*u - 7500)^0 * (8750 - 19998*u)^7) + (11696006811611627985040469526511390807091776799/19739263406716118514370508640000000000000000000000000000000000000000000 : ℝ) * ((19998*u - 7500)^1 * (8750 - 19998*u)^6) + (62289117607634466104667413380263743287617477593/39478526813432237028741017280000000000000000000000000000000000000000000 : ℝ) * ((19998*u - 7500)^2 * (8750 - 19998*u)^5) + (327786493824834544920875759739879922551805543151/142122696528356053303467662208000000000000000000000000000000000000000000 : ℝ) * ((19998*u - 7500)^3 * (8750 - 19998*u)^4) + (1707636813565221985733897544296635305723026642057/852736179170136319820805973248000000000000000000000000000000000000000000 : ℝ) * ((19998*u - 7500)^4 * (8750 - 19998*u)^3) + (8838603725083688681433064921351992557239339454399/8527361791701363198208059732480000000000000000000000000000000000000000000 : ℝ) * ((19998*u - 7500)^5 * (8750 - 19998*u)^2) + (45737386039072213941010976455477673498730513460793/153492512250624537567745075184640000000000000000000000000000000000000000000 : ℝ) * ((19998*u - 7500)^6 * (8750 - 19998*u)^1) + (34144971410933990528577337909798192428404917300793/920955073503747225406470451107840000000000000000000000000000000000000000000 : ℝ) * ((19998*u - 7500)^7 * (8750 - 19998*u)^0) := by
        rw [AFun, hFun]
        ring
    _ ≤ (449/4768371582031250000000000000 : ℝ) * ((19998*u - 7500)^0 * (8750 - 19998*u)^7) + (3143/4768371582031250000000000000 : ℝ) * ((19998*u - 7500)^1 * (8750 - 19998*u)^6) + (9429/4768371582031250000000000000 : ℝ) * ((19998*u - 7500)^2 * (8750 - 19998*u)^5) + (3143/953674316406250000000000000 : ℝ) * ((19998*u - 7500)^3 * (8750 - 19998*u)^4) + (3143/953674316406250000000000000 : ℝ) * ((19998*u - 7500)^4 * (8750 - 19998*u)^3) + (9429/4768371582031250000000000000 : ℝ) * ((19998*u - 7500)^5 * (8750 - 19998*u)^2) + (3143/4768371582031250000000000000 : ℝ) * ((19998*u - 7500)^6 * (8750 - 19998*u)^1) + (449/4768371582031250000000000000 : ℝ) * ((19998*u - 7500)^7 * (8750 - 19998*u)^0) := by
        refine add_le_add (add_le_add (add_le_add (add_le_add (add_le_add (add_le_add (add_le_add ?_ ?_) ?_) ?_) ?_) ?_) ?_) ?_
        all_goals
          exact mul_le_mul_of_nonneg_right (by norm_num)
            (mul_nonneg (pow_nonneg hx _) (pow_nonneg hy _))
    _ = (449/1000000 : ℝ) := by ring

lemma regionB6 (u : ℝ) (hlo : (7500:ℝ)/19998 ≤ u) (hhi : u ≤ (8750:ℝ)/19998) :
    BFun u ≤ (449/1000000 : ℝ) := by
  have hx : (0:ℝ) ≤ 19998*u - 7500 := by
    have h := hlo
    rw [div_le_iff (by norm_num : (0:ℝ) < 19998)] at h
    linarith
  have hy : (0:ℝ) ≤ 8750 - 19998*u := by
    have h := hhi
    rw [le_div_iff (by norm_num : (0:ℝ) < 19998)] at h
    linarith
  calc BFun u
      = (-(1078417241828050803255588183817525282849760123103265559599207/18419628034665582067306898369845280640000000000000000000000000000000000000000000000000000000) : ℝ) * ((19998*u - 7500)^0 * (8750 - 19998*u)^9) + (-(5917594426910430396196444974309331820642573015129578179914449/12279752023110388044871265579896853760000000000000000000000000000000000000000000000000000000) : ℝ) * ((19998*u - 7500)^1 * (8750 - 19998*u)^8) + (-(32155459406661151728425104914113879551491103282726645390601143/18419628034665582067306898369845280640000000000000000000000000000000000000000000000000000000) : ℝ) * ((19998*u - 7500)^2 * (8750 - 19998*u)^7) + (-(172911147336976796225656713906931140874625519656459474897728001/47364757803425782458789167236745007360000000000000000000000000000000000000000000000000000000) : ℝ) * ((19998*u - 7500)^3 * (8750 - 19998*u)^6) + (-(919401972137335300105867883047159648813574153819334235344576007/189459031213703129835156668946980029440000000000000000000000000000000000000000000000000000000) : ℝ) * ((19998*u - 7500)^4 * (8750 - 19998*u)^5) + (-(4829455651686823084885441318219954723984624312494107437246272049/1136754187282218779010940013681880176640000000000000000000000000000000000000000000000000000000) : ℝ) * ((19998*u - 7500)^5 * (8750 - 19998*u)^4) + (-(25034113914770999735768336322185987027487418771383506439639744343/10230787685539969011098460123136921589760000000000000000000000000000000000000000000000000000000) : ℝ) * ((19998*u - 7500)^6 * (8750 - 19998*u)^3) + (-(18271471462945126097903165443322224904877423713369503043031744343/20461575371079938022196920246273843179520000000000000000000000000000000000000000000000000000000) : ℝ) * ((19998*u - 7500)^7 * (8750 - 19998*u)^2) + (-(91880634378284887696047646172237646325992199104232785595499330401/491077808905918512532726085910572236308480000000000000000000000000000000000000000000000000000000) : ℝ) * ((19998*u - 7500)^8 * (8750 - 19998*u)^1) + (-(454115734488484237788437767426405154886103146399699444365366992807/26518201680919599676767208639170900760657920000000000000000000000000000000000000000000000000000000) : ℝ) * ((19998*u - 7500)^9 * (8750 - 19998*u)^0) := by
        rw [BFun, hFun]
        ring
    _ ≤ (449/7450580596923828125000000000000000 : ℝ) * ((19998*u - 7500)^0 * (8750 - 19998*u)^9) + (4041/7450580596923828125000000000000000 : ℝ) * ((19998*u - 7500)^1 * (8750 - 19998*u)^8) + (4041/1862645149230957031250000000000000 : ℝ) * ((19998*u - 7500)^2 * (8750 - 19998*u)^7) + (9429/1862645149230957031250000000000000 : ℝ) * ((19998*u - 7500)^3 * (8750 - 19998*u)^6) + (28287/3725290298461914062500000000000000 : ℝ) * ((19998*u - 7500)^4 * (8750 - 19998*u)^5) + (28287/3725290298461914062500000000000000 : ℝ) * ((19998*u - 7500)^5 * (8750 - 19998*u)^4) + (9429/1862645149230957031250000000000000 : ℝ) * ((19998*u - 7500)^6 * (8750 - 19998*u)^3) + (4041/1862645149230957031250000000000000 : ℝ) * ((19998*u - 7500)^7 * (8750 - 19998*u)^2) + (4041/7450580596923828125000000000000000 : ℝ) * ((19998*u - 7500)^8 * (8750 - 19998*u)^1) + (449/7450580596923828125000000000000000 : ℝ) * ((19998*u - 7500)^9 * (8750 - 19998*u)^0) := by
        refine add_le_add (add_le_add (add_le_add (add_le_add (add_le_add (add_le_add (add_le_add (add_le_add (add_le_add ?_ ?_) ?_) ?_) ?_) ?_) ?_) ?_) ?_) ?_
        all_goals
          exact mul_le_mul_of_nonneg_right (by norm_num)
            (mul_nonneg (pow_nonneg hx _) (pow_nonneg hy _))
    _ = (449/1000000 : ℝ) := by ring

lemma regionA7 (u : ℝ) (hlo : (8750:ℝ)/19998 ≤ u) (hhi : u ≤ (9999:ℝ)/19998) :
    AFun u ≤ (177/1000000 : ℝ) := by
  have hx : (0:ℝ) ≤ 19998*u - 8750 := by
    have h := hlo
    rw [div_le_iff (by norm_num : (0:ℝ) < 19998)] at h
    linarith
  have hy : (0:ℝ) ≤ 9999 - 19998*u := by
    have h := hhi
    rw [le_div_iff (by norm_num : (0:ℝ) < 19998)] at h
    linarith
  calc AFun u
      = (34144971410933990528577337909798192428404917300793/915810086237995690393541709860801752415754361397311891832832000000000000000 : ℝ) * ((19998*u - 8750)^0 * (9999 - 19998*u)^7) + (25456747066172729777224433893264335928652940340793/114487709550704531752367950527652984350404335608224808960000000000000000000 : ℝ) * ((19998*u - 8750)^1 * (9999 - 19998*u)^6) + (919949396320207044305564233357778204244159978133/1590266103703488845445210500600795973352951067443200000000000000000000000 : ℝ) * ((19998*u - 8750)^2 * (9999 - 19998*u)^5) + (311337225506677161866089176333322902796885202057/357845657899074897714943857020881182122626252800000000000000000000000000 : ℝ) * ((19998*u - 8750)^3 * (9999 - 19998*u)^4) + (37428715443256804834268904122085604506785383151/44735180755459908205188500977707918557184000000000000000000000000000000 : ℝ) * ((19998*u - 8750)^4 * (9999 - 19998*u)^3) + (147531742760517628070443981617854438366299321/282447315157398998771016628037222400000000000000000000000000000000000 : ℝ) * ((19998*u - 8750)^5 * (9999 - 19998*u)^2) + (62125517251116462430029910620306445964619709/317785008052879161533547061248000000000000000000000000000000000000000 : ℝ) * ((19998*u - 8750)^6 * (9999 - 19998*u)^1) + (14517558391121590386338800446234163200220751/436998085881296976806307840000000000000000000000000000000000000000000 : ℝ) * ((19998*u - 8750)^7 * (9999 - 19998*u)^0) := by
        rw [AFun, hFun]
        ring
    _ ≤ (177/4741732702705045321249000000 : ℝ) * ((19998*u - 8750)^0 * (9999 - 19998*u)^7) + (1239/4741732702705045321249000000 : ℝ) * ((19998*u - 8750)^1 * (9999 - 19998*u)^6) + (3717/4741732702705045321249000000 : ℝ) * ((19998*u - 8750)^2 * (9999 - 19998*u)^5) + (1239/948346540541009064249800000 : ℝ) * ((19998*u - 8750)^3 * (9999 - 19998*u)^4) + (1239/948346540541009064249800000 : ℝ) * ((19998*u - 8750)^4 * (9999 - 19998*u)^3) + (3717/4741732702705045321249000000 : ℝ) * ((19998*u - 8750)^5 * (9999 - 19998*u)^2) + (1239/4741732702705045321249000000 : ℝ) * ((19998*u - 8750)^6 * (9999 - 19998*u)^1) + (177/4741732702705045321249000000 : ℝ) * ((19998*u - 8750)^7 * (9999 - 19998*u)^0) := by
        refine add_le_add (add_le_add (add_le_add (add_le_add (add_le_add (add_le_add (add_le_add ?_ ?_) ?_) ?_) ?_) ?_) ?_) ?_
        all_goals
          exact mul_le_mul_of_nonneg_right (by norm_num)
            (mul_nonneg (pow_nonneg hx _) (pow_nonneg hy _))
    _ = (177/1000000 : ℝ) := by ring

lemma regionB7 (u : ℝ) (hlo : (8750:ℝ)/19998 ≤ u) (hhi : u ≤ (9999:ℝ)/19998) :
    BFun u ≤ (177/1000000 : ℝ) := by
  have hx : (0:ℝ) ≤ 19998*u - 8750 := by
    have h := hlo
    rw [div_le_iff (by norm_num : (0:ℝ) < 19998)] at h
    linarith
  have hy : (0:ℝ) ≤ 9999 - 19998*u := by
    have h := hhi
    rw [le_div_iff (by norm_num : (0:ℝ) < 19998)] at h
    linarith
  calc BFun u
      = (-(454115734488484237788437767426405154886103146399699444365366992807/26327880469056388543860486535898670336559492904021974615874918705833533757194240000000000000000000) : ℝ) * ((19998*u - 8750)^0 * (9999 - 19998*u)^9) + (-(44632637909376453829295421580541810230361658442417083329971010401/365701576672339297038877311840887843458783279772726920134720676315319500800000000000000000000000) : ℝ) * ((19998*u - 8750)^1 * (9999 - 19998*u)^8) + (-(1402578661446557674008211575145195350735153514497784967639274781/3809772400910292040025641229132161585520877918757781196189626007552000000000000000000000000000) : ℝ) * ((19998*u - 8750)^2 * (9999 - 19998*u)^7) + (-(2623909188414963734633472252303160399839302609064567267267264343/4286422593283406885717418124586140397750762734875991444857815040000000000000000000000000000000) : ℝ) * ((19998*u - 8750)^3 * (9999 - 19998*u)^6) + (-(215114092454702908003284029593529518260618105098425856108352049/357237606534270667543205830965274893968627090615394159820800000000000000000000000000000000000) : ℝ) * ((19998*u - 8750)^4 * (9999 - 19998*u)^5) + (-(5120360366143482777756555679321797578252406969874615092458669/14886388911152393053605603517238177733132775386513408000000000000000000000000000000000000000) : ℝ) * ((19998*u - 8750)^5 * (9999 - 19998*u)^4) + (-(816818824397054339945125846970320114520017332466737023808001/8374431205643785471200272005647039678855071662080000000000000000000000000000000000000000000) : ℝ) * ((19998*u - 8750)^6 * (9999 - 19998*u)^3) + (-(7619392032313506071695737924957254826627148375501167881143/2442786713650802509351014436424028975896985600000000000000000000000000000000000000000000000) : ℝ) * ((19998*u - 8750)^7 * (9999 - 19998*u)^2) + (198581727503367863741149025219857250264882957972603967613/45241315125045884391235687206202638336000000000000000000000000000000000000000000000000000 : ℝ) * ((19998*u - 8750)^8 * (9999 - 19998*u)^1) + (774739256250422898773726570823539775902713246868958160793/1374342381161384876871471146003005440000000000000000000000000000000000000000000000000000000 : ℝ) * ((19998*u - 8750)^9 * (9999 - 19998*u)^0) := by
        rw [BFun, hFun]
        ring
    _ ≤ (177/7397107757952573406193761249000000 : ℝ) * ((19998*u - 8750)^0 * (9999 - 19998*u)^9) + (1593/7397107757952573406193761249000000 : ℝ) * ((19998*u - 8750)^1 * (9999 - 19998*u)^8) + (1593/1849276939488143351548440312250000 : ℝ) * ((19998*u - 8750)^2 * (9999 - 19998*u)^7) + (3717/1849276939488143351548440312250000 : ℝ) * ((19998*u - 8750)^3 * (9999 - 19998*u)^6) + (11151/3698553878976286703096880624500000 : ℝ) * ((19998*u - 8750)^4 * (9999 - 19998*u)^5) + (11151/3698553878976286703096880624500000 : ℝ) * ((19998*u - 8750)^5 * (9999 - 19998*u)^4) + (3717/1849276939488143351548440312250000 : ℝ) * ((19998*u - 8750)^6 * (9999 - 19998*u)^3) + (1593/1849276939488143351548440312250000 : ℝ) * ((19998*u - 8750)^7 * (9999 - 19998*u)^2) + (1593/7397107757952573406193761249000000 : ℝ) * ((19998*u - 8750)^8 * (9999 - 19998*u)^1) + (177/7397107757952573406193761249000000 : ℝ) * ((19998*u - 8750)^9 * (9999 - 19998*u)^0) := by
        refine add_le_add (add_le_add (add_le_add (add_le_add (add_le_add (add_le_add (add_le_add (add_le_add (add_le_add ?_ ?_) ?_) ?_) ?_) ?_) ?_) ?_) ?_) ?_
        all_goals
          exact mul_le_mul_of_nonneg_right (by norm_num)
            (mul_nonneg (pow_nonneg hx _) (pow_nonneg hy _))
    _ = (177/1000000 : ℝ) := by ring

end FastMath

namespace FastMath

/-! ## Pointwise certified bounds -/

lemma hFun_err (u : ℝ) (h0 : 0 ≤ u) :
    |hFun u - Real.sin (Real.pi * u)| ≤ max (AFun u) (BFun u) := by
  rw [abs_sub_le_iff]
  exact ⟨le_trans (err_up u h0) (le_max_left _ _),
    le_trans (err_dn u h0) (le_max_right _ _)⟩

lemma boundPW_bound (m : ℤ) (h0 : 0 ≤ m) (h1 : m ≤ 9999) :
    AFun ((m:ℝ)/19998) ≤ ((boundPW m : ℚ) : ℝ)
    ∧ BFun ((m:ℝ)/19998) ≤ ((boundPW m : ℚ) : ℝ) := by
  have hcast : ∀ q : ℚ, ((q : ℚ) : ℝ) = (q : ℝ) := fun q => rfl
  by_cases hm0 : m < 1250
  · have hb : boundPW m = 1093/1000000 := by
      rw [boundPW]
      rw [if_pos hm0]
    rw [hb]
    have hlo : ((0:ℝ))/19998 ≤ (m:ℝ)/19998 := by
      have : (0:ℝ) ≤ (m:ℝ) := by exact_mod_cast (by omega : (0:ℤ) ≤ m)
      linarith
    have hhi : (m:ℝ)/19998 ≤ ((1250:ℝ))/19998 := by
      have : (m:ℝ) ≤ (1250:ℝ) := by exact_mod_cast (by omega : m ≤ (1250:ℤ))
      linarith
    constructor
    · refine le_trans (regionA0 ((m:ℝ)/19998) hlo hhi) ?_
      norm_num
    · refine le_trans (regionB0 ((m:ℝ)/19998) hlo hhi) ?_
      norm_num
  by_cases hm1 : m < 2500
  · have hb : boundPW m = 1091/1000000 := by
      rw [boundPW]
      rw [if_neg (by omega : ¬ m < 1250)]
      rw [if_pos hm1]
    rw [hb]
    have hlo : ((1250:ℝ))/19998 ≤ (m:ℝ)/19998 := by
      have : (1250:ℝ) ≤ (m:ℝ) := by exact_mod_cast (by omega : (1250:ℤ) ≤ m)
      linarith
    have hhi : (m:ℝ)/19998 ≤ ((2500:ℝ))/19998 := by
      have : (m:ℝ) ≤ (2500:ℝ) := by exact_mod_cast (by omega : m ≤ (2500:ℤ))
      linarith
    constructor
    · refine le_trans (regionA1 ((m:ℝ)/19998) hlo hhi) ?_
      norm_num
    · refine le_trans (regionB1 ((m:ℝ)/19998) hlo hhi) ?_
      norm_num
  by_cases hm2 : m < 3750
  · have hb : boundPW m = 111/200000 := by
      rw [boundPW]
      rw [if_neg (by omega : ¬ m < 1250)]
      rw [if_neg (by omega : ¬ m < 2500)]
      rw [if_pos hm2]
    rw [hb]
    have hlo : ((2500:ℝ))/19998 ≤ (m:ℝ)/19998 := by
      have : (2500:ℝ) ≤ (m:ℝ) := by exact_mod_cast (by omega : (2500:ℤ) ≤ m)
      linarith
    have hhi : (m:ℝ)/19998 ≤ ((3750:ℝ))/19998 := by
      have : (m:ℝ) ≤ (3750:ℝ) := by exact_mod_cast (by omega : m ≤ (3750:ℤ))
      linarith
    constructor
    · refine le_trans (regionA2 ((m:ℝ)/19998) hlo hhi) ?_
      norm_num
    · refine le_trans (regionB2 ((m:ℝ)/19998) hlo hhi) ?_
      norm_num
  by_cases hm3 : m < 5000
  · have hb : boundPW m = 707/1000000 := by
      rw [boundPW]
      rw [if_neg (by omega : ¬ m < 1250)]
      rw [if_neg (by omega : ¬ m < 2500)]
      rw [if_neg (by omega : ¬ m < 3750)]
      rw [if_pos hm3]
    rw [hb]
    have hlo : ((3750:ℝ))/19998 ≤ (m:ℝ)/19998 := by
      have : (3750:ℝ) ≤ (m:ℝ) := by exact_mod_cast (by omega : (3750:ℤ) ≤ m)
      linarith
    have hhi : (m:ℝ)/19998 ≤ ((5000:ℝ))/19998 := by
      have : (m:ℝ) ≤ (5000:ℝ) := by exact_mod_cast (by omega : m ≤ (5000:ℤ))
      linarith
    constructor
    · refine le_trans (regionA3 ((m:ℝ)/19998) hlo hhi) ?_
      norm_num
    · refine le_trans (regionB3 ((m:ℝ)/19998) hlo hhi) ?_
      norm_num
  by_cases hm4 : m < 6250
  · have hb : boundPW m = 769/1000000 := by
      rw [boundPW]
      rw [if_neg (by omega : ¬ m < 1250)]
      rw [if_neg (by omega : ¬ m < 2500)]
      rw [if_neg (by omega : ¬ m < 3750)]
      rw [if_neg (by omega : ¬ m < 5000)]
      rw [if_pos hm4]
    rw [hb]
    have hlo : ((5000:ℝ))/19998 ≤ (m:ℝ)/19998 := by
      have : (5000:ℝ) ≤ (m:ℝ) := by exact_mod_cast (by omega : (5000:ℤ) ≤ m)
      linarith
    have hhi : (m:ℝ)/19998 ≤ ((6250:ℝ))/19998 := by
      have : (m:ℝ) ≤ (6250:ℝ) := by exact_mod_cast (by omega : m ≤ (6250:ℤ))
      linarith
    constructor
    · refine le_trans (regionA4 ((m:ℝ)/19998) hlo hhi) ?_
      norm_num
    · refine le_trans (regionB4 ((m:ℝ)/19998) hlo hhi) ?_
      norm_num
  by_cases hm5 : m < 7500
  · have hb : boundPW m = 717/1000000 := by
      rw [boundPW]
      rw [if_neg (by omega : ¬ m < 1250)]
      rw [if_neg (by omega : ¬ m < 2500)]
      rw [if_neg (by omega : ¬ m < 3750)]
      rw [if_neg (by omega : ¬ m < 5000)]
      rw [if_neg (by omega : ¬ m < 6250)]
      rw [if_pos hm5]
    rw [hb]
    have hlo : ((6250:ℝ))/19998 ≤ (m:ℝ)/19998 := by
      have : (6250:ℝ) ≤ (m:ℝ) := by exact_mod_cast (by omega : (6250:ℤ) ≤ m)
      linarith
    have hhi : (m:ℝ)/19998 ≤ ((7500:ℝ))/19998 := by
      have : (m:ℝ) ≤ (7500:ℝ) := by exact_mod_cast (by omega : m ≤ (7500:ℤ))
      linarith
    constructor
    · refine le_trans (regionA5 ((m:ℝ)/19998) hlo hhi) ?_
      norm_num
    · refine le_trans (regionB5 ((m:ℝ)/19998) hlo hhi) ?_
      norm_num
  by_cases hm6 : m < 8750
  · have hb : boundPW m = 449/1000000 := by
      rw [boundPW]
      rw [if_neg (by omega : ¬ m < 1250)]
      rw [if_neg (by omega : ¬ m < 2500)]
      rw [if_neg (by omega : ¬ m < 3750)]
      rw [if_neg (by omega : ¬ m < 5000)]
      rw [if_neg (by omega : ¬ m < 6250)]
      rw [if_neg (by omega : ¬ m < 7500)]
      rw [if_pos hm6]
    rw [hb]
    have hlo : ((7500:ℝ))/19998 ≤ (m:ℝ)/19998 := by
      have : (7500:ℝ) ≤ (m:ℝ) := by exact_mod_cast (by omega : (7500:ℤ) ≤ m)
      linarith
    have hhi : (m:ℝ)/19998 ≤ ((8750:ℝ))/19998 := by
      have : (m:ℝ) ≤ (8750:ℝ) := by exact_mod_cast (by omega : m ≤ (8750:ℤ))
      linarith
    constructor
    · refine le_trans (regionA6 ((m:ℝ)/19998) hlo hhi) ?_
      norm_num
    · refine le_trans (regionB6 ((m:ℝ)/19998) hlo hhi) ?_
      norm_num
  · have hb : boundPW m = 177/1000000 := by
      rw [boundPW]
      rw [if_neg (by omega : ¬ m < 1250)]
      rw [if_neg (by omega : ¬ m < 2500)]
      rw [if_neg (by omega : ¬ m < 3750)]
      rw [if_neg (by omega : ¬ m < 5000)]
      rw [if_neg (by omega : ¬ m < 6250)]
      rw [if_neg (by omega : ¬ m < 7500)]
      rw [if_neg (by omega : ¬ m < 8750)]
    rw [hb]
    have hlo : ((8750:ℝ))/19998 ≤ (m:ℝ)/19998 := by
      have : (8750:ℝ) ≤ (m:ℝ) := by exact_mod_cast (by omega : (8750:ℤ) ≤ m)
      linarith
    have hhi : (m:ℝ)/19998 ≤ ((9999:ℝ))/19998 := by
      have : (m:ℝ) ≤ (9999:ℝ) := by exact_mod_cast (by omega : m ≤ (9999:ℤ))
      linarith
    constructor
    · refine le_trans (regionA7 ((m:ℝ)/19998) hlo hhi) ?_
      norm_num
    · refine le_trans (regionB7 ((m:ℝ)/19998) hlo hhi) ?_
      norm_num

lemma AB_max (u : ℝ) (h0 : 0 ≤ u) (h1 : u ≤ (9999:ℝ)/19998) :
    AFun u ≤ 1093/1000000 ∧ BFun u ≤ 1093/1000000 := by
  by_cases hu0 : u ≤ (1250:ℝ)/19998
  · have hlo : ((0:ℝ))/19998 ≤ u := by
      norm_num
      exact h0
    exact ⟨le_trans (regionA0 u hlo hu0) (by norm_num),
      le_trans (regionB0 u hlo hu0) (by norm_num)⟩
  by_cases hu1 : u ≤ (2500:ℝ)/19998
  · have hlo : ((1250:ℝ))/19998 ≤ u := by
      push_neg at hu0; linarith [hu0]
    exact ⟨le_trans (regionA1 u hlo hu1) (by norm_num),
      le_trans (regionB1 u hlo hu1) (by norm_num)⟩
  by_cases hu2 : u ≤ (3750:ℝ)/19998
  · have hlo : ((2500:ℝ))/19998 ≤ u := by
      push_neg at hu1; linarith [hu1]
    exact ⟨le_trans (regionA2 u hlo hu2) (by norm_num),
      le_trans (regionB2 u hlo hu2) (by norm_num)⟩
  by_cases hu3 : u ≤ (5000:ℝ)/19998
  · have hlo : ((3750:ℝ))/19998 ≤ u := by
      push_neg at hu2; linarith [hu2]
    exact ⟨le_trans (regionA3 u hlo hu3) (by norm_num),
      le_trans (regionB3 u hlo hu3) (by norm_num)⟩
  by_cases hu4 : u ≤ (6250:ℝ)/19998
  · have hlo : ((5000:ℝ))/19998 ≤ u := by
      push_neg at hu3; linarith [hu3]
    exact ⟨le_trans (regionA4 u hlo hu4) (by norm_num),
      le_trans (regionB4 u hlo hu4) (by norm_num)⟩
  by_cases hu5 : u ≤ (7500:ℝ)/19998
  · have hlo : ((6250:ℝ))/19998 ≤ u := by
      push_neg at hu4; linarith [hu4]
    exact ⟨le_trans (regionA5 u hlo hu5) (by norm_num),
      le_trans (regionB5 u hlo hu5) (by norm_num)⟩
  by_cases hu6 : u ≤ (8750:ℝ)/19998
  · have hlo : ((7500:ℝ))/19998 ≤ u := by
      push_neg at hu5; linarith [hu5]
    exact ⟨le_trans (regionA6 u hlo hu6) (by norm_num),
      le_trans (regionB6 u hlo hu6) (by norm_num)⟩
  · have hlo : ((8750:ℝ))/19998 ≤ u := by
      push_neg at hu6; linarith [hu6]
    exact ⟨le_trans (regionA7 u hlo h1) (by norm_num),
      le_trans (regionB7 u hlo h1) (by norm_num)⟩

lemma core_err (u : ℝ) (h0 : 0 ≤ u) (h1 : u ≤ (9999:ℝ)/19998) :
    |hFun u - Real.sin (Real.pi * u)| ≤ 1093/1000000 := by
  obtain ⟨hA, hB⟩ := AB_max u h0 h1
  exact le_trans (hFun_err u h0) (max_le hA hB)

end FastMath

namespace FastMath

/-! ## Error bound for the body on `[-π, π]` and transport along the
range reduction -/

lemma body_err_nonneg (w : ℝ) (h0 : 0 ≤ w) (h2 : w ≤ Real.pi) :
    |sinBody w - Real.sin w| ≤ 1093/1000000 := by
  have hpi : (0:ℝ) < Real.pi := Real.pi_pos
  have hu0 : 0 ≤ w / Real.pi := div_nonneg h0 hpi.le
  have hu1 : w / Real.pi ≤ 1 := (div_le_one hpi).mpr h2
  have hww : Real.pi * (w / Real.pi) = w := by field_simp
  rw [← hww, sinBody_eq_hFun hu0 hu1]
  rcases le_or_lt (w / Real.pi) ((9999:ℝ)/19998) with hc | hc
  · exact core_err (w / Real.pi) hu0 hc
  · have hsym : hFun (w / Real.pi) = hFun (1 - w / Real.pi) := (hFun_sym _).symm
    have hsin : Real.sin (Real.pi * (w / Real.pi))
        = Real.sin (Real.pi * (1 - w / Real.pi)) := by
      rw [show Real.pi * (1 - w / Real.pi) = Real.pi - Real.pi * (w / Real.pi) by ring,
        Real.sin_pi_sub]
    rw [hsym, hsin]
    have h1' : 1 - w / Real.pi ≤ (9999:ℝ)/19998 := by
      have : (9999:ℝ)/19998 = 1/2 := by norm_num
      rw [this]
      have : (1:ℝ)/2 ≤ w / Real.pi := by
        have h99 : (9999:ℝ)/19998 = 1/2 := by norm_num
        rw [h99] at hc
        linarith
      linarith
    exact core_err (1 - w / Real.pi) (by linarith) h1'

lemma body_err (w : ℝ) (h1 : -Real.pi ≤ w) (h2 : w ≤ Real.pi) :
    |sinBody w - Real.sin w| ≤ 1093/1000000 := by
  rcases le_or_lt 0 w with hw | hw
  · exact body_err_nonneg w hw h2
  · have h := body_err_nonneg (-w) (by linarith) (by linarith)
    rw [sinBody_odd, Real.sin_neg,
      show -sinBody w - -Real.sin w = -(sinBody w - Real.sin w) by ring, abs_neg] at h
    exact h

/-- The maximal-error bound for `FastMath.sin`, valid for every real input. -/
lemma sin_err (theta : ℝ) : |FastMath.sin theta - Real.sin theta| ≤ 1093/1000000 := by
  obtain ⟨hlo, hhi, j, hj⟩ := reduce_spec theta
  have hsin : Real.sin (reduceDown (reduceUp theta)) = Real.sin theta := by
    rw [hj, Real.sin_add_int_mul_two_pi]
  have := body_err (reduceDown (reduceUp theta)) hlo hhi
  rw [hsin] at this
  exact this

/-- The maximal-error bound for `FastMath.cos`, valid for every real input. -/
lemma cos_err (theta : ℝ) : |FastMath.cos theta - Real.cos theta| ≤ 1093/1000000 := by
  obtain ⟨hlo, hhi, j, hj⟩ := reduce_spec theta
  have hpi : (0:ℝ) < Real.pi := Real.pi_pos
  have hcos : FastMath.cos theta
      = sinBody (if Real.pi < reduceDown (reduceUp theta) + Real.pi/2
          then reduceDown (reduceUp theta) + Real.pi/2 - 2*Real.pi
          else reduceDown (reduceUp theta) + Real.pi/2) := rfl
  have hcth : Real.cos (reduceDown (reduceUp theta)) = Real.cos theta := by
    rw [hj, Real.cos_add_int_mul_two_pi]
  rw [hcos]
  split_ifs with hsh
  · have hb := body_err (reduceDown (reduceUp theta) + Real.pi/2 - 2*Real.pi)
      (by linarith) (by linarith)
    rw [Real.sin_sub_two_pi, Real.sin_add_pi_div_two, hcth] at hb
    exact hb
  · have hb := body_err (reduceDown (reduceUp theta) + Real.pi/2)
      (by linarith) (by linarith)
    rw [Real.sin_add_pi_div_two, hcth] at hb
    exact hb

/-! ## Exact reduction of the uniform sample points -/

lemma abs_err_abs (w : ℝ) :
    |sinBody w - Real.sin w| = abs (sinBody |w| - Real.sin |w|) := by
  rcases abs_cases w with ⟨h1, _⟩ | ⟨h1, _⟩
  · rw [h1]
  · rw [h1, sinBody_odd, Real.sin_neg]
    rw [show -sinBody w - -Real.sin w = -(sinBody w - Real.sin w) from by ring, abs_neg]

lemma fold1_red (t : ℤ) (h1 : -39996 ≤ t) (h2 : t ≤ 39996) :
    reduceDown (reduceUp (Real.pi * ((t:ℝ)/19998))) = Real.pi * ((fold1 t : ℝ)/19998)
    ∧ -19998 ≤ fold1 t ∧ fold1 t ≤ 19998
    ∧ Real.sin (Real.pi * ((t:ℝ)/19998)) = Real.sin (Real.pi * ((fold1 t : ℝ)/19998))
    ∧ Real.cos (Real.pi * ((t:ℝ)/19998)) = Real.cos (Real.pi * ((fold1 t : ℝ)/19998)) := by
  have hpi : (0:ℝ) < Real.pi := Real.pi_pos
  have h19 : (0:ℝ) < 19998 := by norm_num
  rw [fold1]
  split_ifs with ha hb
  · -- t < -19998 : one `+2π` step
    have htr : ((t:ℝ)) < -19998 := by exact_mod_cast ha
    have hq : (t:ℝ)/19998 < -1 := by rw [div_lt_iff h19]; linarith
    have hth : Real.pi * ((t:ℝ)/19998) < -Real.pi := by
      nlinarith [mul_lt_mul_of_pos_left hq hpi]
    have hshift : Real.pi * ((t:ℝ)/19998) + 2*Real.pi
        = Real.pi * (((t + 39996 : ℤ) : ℝ)/19998) := by
      push_cast
      field_simp
      ring
    have hq2lo : (-1:ℝ) ≤ ((t + 39996 : ℤ):ℝ)/19998 := by
      rw [le_div_iff h19]
      have : (0:ℝ) ≤ ((t + 39996 : ℤ):ℝ) := by
        exact_mod_cast (by omega : (0:ℤ) ≤ t + 39996)
      linarith
    have hq2hi : ((t + 39996 : ℤ):ℝ)/19998 ≤ 1 := by
      rw [div_le_one h19]
      exact_mod_cast (by omega : t + 39996 ≤ (19998:ℤ))
    have hin1 : ¬ (Real.pi * (((t + 39996 : ℤ) : ℝ)/19998) < -Real.pi) := by
      push_neg
      nlinarith [mul_le_mul_of_nonneg_left hq2lo hpi.le]
    have hin2 : ¬ (Real.pi < Real.pi * (((t + 39996 : ℤ) : ℝ)/19998)) := by
      push_neg
      exact mul_le_of_le_one_right hpi.le hq2hi
    refine ⟨?_, by omega, by omega, ?_, ?_⟩
    · rw [reduceUp, dif_pos hth, hshift, reduceUp, dif_neg hin1, reduceDown, dif_neg hin2]
    · rw [← hshift, Real.sin_add_two_pi]
    · rw [← hshift, Real.cos_add_two_pi]
  · -- 19998 < t : one `-2π` step
    have htr : (19998:ℝ) < ((t:ℝ)) := by exact_mod_cast hb
    have hq : (1:ℝ) < (t:ℝ)/19998 := by rw [lt_div_iff h19]; linarith
    have hnotup : ¬ (Real.pi * ((t:ℝ)/19998) < -Real.pi) := by
      push_neg
      nlinarith [mul_le_mul_of_nonneg_left (by linarith : (-1:ℝ) ≤ (t:ℝ)/19998) hpi.le]
    have hth : Real.pi < Real.pi * ((t:ℝ)/19998) := by
      nlinarith [mul_lt_mul_of_pos_left hq hpi]
    have hshift : Real.pi * ((t:ℝ)/19998) - 2*Real.pi
        = Real.pi * (((t - 39996 : ℤ) : ℝ)/19998) := by
      push_cast
      field_simp
      ring
    have hq2lo : (-1:ℝ) ≤ ((t - 39996 : ℤ):ℝ)/19998 := by
      rw [le_div_iff h19]
      have : (-19998:ℝ) ≤ ((t - 39996 : ℤ):ℝ) := by
        exact_mod_cast (by omega : (-19998:ℤ) ≤ t - 39996)
      linarith
    have hq2hi : ((t - 39996 : ℤ):ℝ)/19998 ≤ 1 := by
      rw [div_le_one h19]
      have : ((t - 39996 : ℤ):ℝ) ≤ 0 := by
        exact_mod_cast (by omega : t - 39996 ≤ (0:ℤ))
      linarith
    have hin2 : ¬ (Real.pi < Real.pi * (((t - 39996 : ℤ) : ℝ)/19998)) := by
      push_neg
      exact mul_le_of_le_one_right hpi.le hq2hi
    refine ⟨?_, by omega, by omega, ?_, ?_⟩
    · rw [reduceUp, dif_neg hnotup, reduceDown, dif_pos hth, hshift, reduceDown, dif_neg hin2]
    · rw [← hshift, Real.sin_sub_two_pi]
    · rw [← hshift, Real.cos_sub_two_pi]
  · -- already in range
    have htl : (-19998:ℝ) ≤ ((t:ℝ)) := by exact_mod_cast (by omega : (-19998:ℤ) ≤ t)
    have htu : ((t:ℝ)) ≤ 19998 := by exact_mod_cast (by omega : t ≤ (19998:ℤ))
    have hqlo : (-1:ℝ) ≤ (t:ℝ)/19998 := by rw [le_div_iff h19]; linarith
    have hqhi : (t:ℝ)/19998 ≤ 1 := by rw [div_le_one h19]; linarith
    have hnotup : ¬ (Real.pi * ((t:ℝ)/19998) < -Real.pi) := by
      push_neg
      nlinarith [mul_le_mul_of_nonneg_left hqlo hpi.le]
    have hnotdown : ¬ (Real.pi < Real.pi * ((t:ℝ)/19998)) := by
      push_neg
      exact mul_le_of_le_one_right hpi.le hqhi
    refine ⟨?_, by omega, by omega, rfl, rfl⟩
    rw [reduceUp, dif_neg hnotup, reduceDown, dif_neg hnotdown]

end FastMath

namespace FastMath

lemma fold2_shift (t1 : ℤ) (hl : -19998 ≤ t1) (hu : t1 ≤ 19998) :
    (if Real.pi < Real.pi * ((t1:ℝ)/19998) + Real.pi/2
      then Real.pi * ((t1:ℝ)/19998) + Real.pi/2 - 2*Real.pi
      else Real.pi * ((t1:ℝ)/19998) + Real.pi/2)
      = Real.pi * ((fold2 (t1 + 9999) : ℝ)/19998)
    ∧ -19998 ≤ fold2 (t1 + 9999) ∧ fold2 (t1 + 9999) ≤ 19998
    ∧ Real.sin (Real.pi * ((fold2 (t1 + 9999) : ℝ)/19998))
      = Real.cos (Real.pi * ((t1:ℝ)/19998)) := by
  have hpi : (0:ℝ) < Real.pi := Real.pi_pos
  have h19 : (0:ℝ) < 19998 := by norm_num
  have hshift : Real.pi * ((t1:ℝ)/19998) + Real.pi/2
      = Real.pi * (((t1 + 9999 : ℤ):ℝ)/19998) := by
    push_cast
    field_simp
    ring
  have hcos : Real.sin (Real.pi * (((t1 + 9999 : ℤ):ℝ)/19998))
      = Real.cos (Real.pi * ((t1:ℝ)/19998)) := by
    rw [← hshift, Real.sin_add_pi_div_two]
  by_cases hw : (19998:ℤ) < t1 + 9999
  · -- the shifted angle exceeds π and is re-wrapped
    have htr : (19998:ℝ) < ((t1 + 9999 : ℤ):ℝ) := by exact_mod_cast hw
    have hcond : Real.pi < Real.pi * ((t1:ℝ)/19998) + Real.pi/2 := by
      rw [hshift]
      have hq : (1:ℝ) < ((t1 + 9999 : ℤ):ℝ)/19998 := by
        rw [lt_div_iff h19]
        linarith
      nlinarith [mul_lt_mul_of_pos_left hq hpi]
    have hout : Real.pi * ((t1:ℝ)/19998) + Real.pi/2 - 2*Real.pi
        = Real.pi * (((t1 + 9999 - 39996 : ℤ):ℝ)/19998) := by
      push_cast
      field_simp
      ring
    have hsin9 : Real.sin (Real.pi * (((t1 + 9999 - 39996 : ℤ):ℝ)/19998))
        = Real.cos (Real.pi * ((t1:ℝ)/19998)) := by
      rw [show Real.pi * (((t1 + 9999 - 39996 : ℤ):ℝ)/19998)
          = Real.pi * (((t1 + 9999 : ℤ):ℝ)/19998) - 2*Real.pi from by
        push_cast; field_simp; ring]
      rw [Real.sin_sub_two_pi]
      exact hcos
    rw [fold2, if_pos hw, if_pos hcond]
    exact ⟨hout, by omega, by omega, hsin9⟩
  · -- no re-wrap needed
    have hcond : ¬ (Real.pi < Real.pi * ((t1:ℝ)/19998) + Real.pi/2) := by
      rw [hshift]
      push_neg
      have htr : ((t1 + 9999 : ℤ):ℝ) ≤ 19998 := by
        exact_mod_cast (by omega : t1 + 9999 ≤ (19998:ℤ))
      have hq : ((t1 + 9999 : ℤ):ℝ)/19998 ≤ 1 := by
        rw [div_le_one h19]
        linarith
      exact mul_le_of_le_one_right hpi.le hq
    rw [fold2, if_neg hw, if_neg hcond]
    exact ⟨hshift, by omega, by omega, hcos⟩

lemma half_err (a : ℤ) (h0 : 0 ≤ a) (h1 : a ≤ 19998) :
    |sinBody (Real.pi * ((a:ℝ)/19998)) - Real.sin (Real.pi * ((a:ℝ)/19998))|
      ≤ ((boundPW (half a) : ℚ) : ℝ) := by
  have h19 : (0:ℝ) < 19998 := by norm_num
  have har : (0:ℝ) ≤ (a:ℝ) := by exact_mod_cast h0
  have haru : (a:ℝ) ≤ 19998 := by exact_mod_cast h1
  have hu0 : (0:ℝ) ≤ (a:ℝ)/19998 := by positivity
  have hu1 : (a:ℝ)/19998 ≤ 1 := by rw [div_le_one h19]; linarith
  rw [sinBody_eq_hFun hu0 hu1, half]
  split_ifs with hle
  · have hm := boundPW_bound a h0 (by omega)
    have := hFun_err ((a:ℝ)/19998) hu0
    exact le_trans this (max_le hm.1 hm.2)
  · have hmr : (0:ℤ) ≤ 19998 - a := by omega
    have hmu : (19998 - a : ℤ) ≤ 9999 := by omega
    have hm := boundPW_bound (19998 - a) hmr hmu
    have hrw : (a:ℝ)/19998 = 1 - ((19998 - a : ℤ):ℝ)/19998 := by
      push_cast
      field_simp
    have hsym : hFun ((a:ℝ)/19998) = hFun (((19998 - a : ℤ):ℝ)/19998) := by
      rw [hrw, hFun_sym]
    have hsin : Real.sin (Real.pi * ((a:ℝ)/19998))
        = Real.sin (Real.pi * (((19998 - a : ℤ):ℝ)/19998)) := by
      rw [hrw, show Real.pi * (1 - ((19998 - a : ℤ):ℝ)/19998)
          = Real.pi - Real.pi * (((19998 - a : ℤ):ℝ)/19998) from by ring,
        Real.sin_pi_sub]
    rw [hsym, hsin]
    have hu0m : (0:ℝ) ≤ ((19998 - a : ℤ):ℝ)/19998 := by positivity
    exact le_trans (hFun_err (((19998 - a : ℤ):ℝ)/19998) hu0m) (max_le hm.1 hm.2)

/-- Certified bound for the `k`-th sine sample. -/
lemma sin_sample (k : ℕ) (hk : k ≤ 9999) :
    |FastMath.sin (-(2*Real.pi) + 4*Real.pi*(k:ℝ)/9999)
      - Real.sin (-(2*Real.pi) + 4*Real.pi*(k:ℝ)/9999)|
      ≤ ((boundPW (mQ k) : ℚ) : ℝ) := by
  have hkz : (k:ℤ) ≤ 9999 := by exact_mod_cast hk
  have hθ : -(2*Real.pi) + 4*Real.pi*(k:ℝ)/9999
      = Real.pi * (((8*(k:ℤ) - 39996 : ℤ):ℝ)/19998) := by
    push_cast
    field_simp
    ring
  obtain ⟨hred, hfl, hfu, hsin, _⟩ :=
    fold1_red (8*(k:ℤ) - 39996) (by omega) (by omega)
  rw [hθ, show FastMath.sin (Real.pi * (((8*(k:ℤ) - 39996 : ℤ):ℝ)/19998))
      = sinBody (reduceDown (reduceUp (Real.pi * (((8*(k:ℤ) - 39996 : ℤ):ℝ)/19998)))) from rfl,
    hred, hsin, abs_err_abs]
  have habs : |Real.pi * ((fold1 (8*(k:ℤ) - 39996) : ℝ)/19998)|
      = Real.pi * (((|fold1 (8*(k:ℤ) - 39996)| : ℤ):ℝ)/19998) := by
    rw [abs_mul, abs_div]
    push_cast
    rw [abs_of_pos Real.pi_pos, abs_of_pos (by norm_num : (0:ℝ) < 19998)]
  rw [habs]
  have := half_err |fold1 (8*(k:ℤ) - 39996)| (abs_nonneg _) (abs_le.mpr ⟨hfl, hfu⟩)
  rw [show mQ k = half |fold1 (8*(k:ℤ) - 39996)| from rfl]
  exact this

/-- Certified bound for the `k`-th cosine sample. -/
lemma cos_sample (k : ℕ) (hk : k ≤ 9999) :
    |FastMath.cos (-(2*Real.pi) + 4*Real.pi*(k:ℝ)/9999)
      - Real.cos (-(2*Real.pi) + 4*Real.pi*(k:ℝ)/9999)|
      ≤ ((boundPW (mQc k) : ℚ) : ℝ) := by
  have hkz : (k:ℤ) ≤ 9999 := by exact_mod_cast hk
  have hθ : -(2*Real.pi) + 4*Real.pi*(k:ℝ)/9999
      = Real.pi * (((8*(k:ℤ) - 39996 : ℤ):ℝ)/19998) := by
    push_cast
    field_simp
    ring
  obtain ⟨hred, hfl, hfu, _, hcos⟩ :=
    fold1_red (8*(k:ℤ) - 39996) (by omega) (by omega)
  obtain ⟨hwrap, hwl, hwu, hsin2⟩ := fold2_shift (fold1 (8*(k:ℤ) - 39996)) hfl hfu
  have hcosdef : FastMath.cos (Real.pi * (((8*(k:ℤ) - 39996 : ℤ):ℝ)/19998))
      = sinBody (if Real.pi < reduceDown (reduceUp (Real.pi * (((8*(k:ℤ) - 39996 : ℤ):ℝ)/19998))) + Real.pi/2
          then reduceDown (reduceUp (Real.pi * (((8*(k:ℤ) - 39996 : ℤ):ℝ)/19998))) + Real.pi/2 - 2*Real.pi
          else reduceDown (reduceUp (Real.pi * (((8*(k:ℤ) - 39996 : ℤ):ℝ)/19998))) + Real.pi/2) := rfl
  rw [hθ, hcosdef, hred, hwrap, hcos, ← hsin2, abs_err_abs]
  have habs : |Real.pi * ((fold2 (fold1 (8*(k:ℤ) - 39996) + 9999) : ℝ)/19998)|
      = Real.pi * (((|fold2 (fold1 (8*(k:ℤ) - 39996) + 9999)| : ℤ):ℝ)/19998) := by
    rw [abs_mul, abs_div]
    push_cast
    rw [abs_of_pos Real.pi_pos, abs_of_pos (by norm_num : (0:ℝ) < 19998)]
  rw [habs]
  have := half_err |fold2 (fold1 (8*(k:ℤ) - 39996) + 9999)| (abs_nonneg _) (abs_le.mpr ⟨hwl, hwu⟩)
  rw [show mQc k = half |fold2 (fold1 (8*(k:ℤ) - 39996) + 9999)| from rfl]
  exact this

end FastMath

namespace FastMath

/-! ## Evaluation of the sample-bound sums by block decomposition -/

lemma mQ_p0 (k : ℕ) (hlo : 0 ≤ k) (hhi : k ≤ 1249) :
    mQ k = 8*(k:ℤ) := by
  have hz1 : (0:ℤ) ≤ (k:ℤ) := by exact_mod_cast hlo
  have hz2 : (k:ℤ) ≤ (1249:ℤ) := by exact_mod_cast hhi
  simp only [mQ, fold1, half]
  rw [if_pos (show 8*(k:ℤ) - 39996 < -19998 from by omega)]
  rw [abs_of_nonneg (show (0:ℤ) ≤ 8*(k:ℤ) - 39996 + 39996 from by omega)]
  rw [if_pos (show 8*(k:ℤ) - 39996 + 39996 ≤ 9999 from by omega)]
  all_goals omega

lemma mQ_p1 (k : ℕ) (hlo : 1250 ≤ k) (hhi : k ≤ 2499) :
    mQ k = 19998 - 8*(k:ℤ) := by
  have hz1 : (1250:ℤ) ≤ (k:ℤ) := by exact_mod_cast hlo
  have hz2 : (k:ℤ) ≤ (2499:ℤ) := by exact_mod_cast hhi
  simp only [mQ, fold1, half]
  rw [if_pos (show 8*(k:ℤ) - 39996 < -19998 from by omega)]
  rw [abs_of_nonneg (show (0:ℤ) ≤ 8*(k:ℤ) - 39996 + 39996 from by omega)]
  rw [if_neg (show ¬ (8*(k:ℤ) - 39996 + 39996 ≤ 9999) from by omega)]
  all_goals omega

lemma mQ_p2 (k : ℕ) (hlo : 2500 ≤ k) (hhi : k ≤ 3749) :
    mQ k = 8*(k:ℤ) - 19998 := by
  have hz1 : (2500:ℤ) ≤ (k:ℤ) := by exact_mod_cast hlo
  have hz2 : (k:ℤ) ≤ (3749:ℤ) := by exact_mod_cast hhi
  simp only [mQ, fold1, half]
  rw [if_neg (show ¬ (8*(k:ℤ) - 39996 < -19998) from by omega)]
  rw [if_neg (show ¬ (19998 < 8*(k:ℤ) - 39996) from by omega)]
  rw [abs_of_nonpos (show 8*(k:ℤ) - 39996 ≤ 0 from by omega)]
  rw [if_neg (show ¬ (-(8*(k:ℤ) - 39996) ≤ 9999) from by omega)]
  all_goals omega

lemma mQ_p3 (k : ℕ) (hlo : 3750 ≤ k) (hhi : k ≤ 4999) :
    mQ k = 39996 - 8*(k:ℤ) := by
  have hz1 : (3750:ℤ) ≤ (k:ℤ) := by exact_mod_cast hlo
  have hz2 : (k:ℤ) ≤ (4999:ℤ) := by exact_mod_cast hhi
  simp only [mQ, fold1, half]
  rw [if_neg (show ¬ (8*(k:ℤ) - 39996 < -19998) from by omega)]
  rw [if_neg (show ¬ (19998 < 8*(k:ℤ) - 39996) from by omega)]
  rw [abs_of_nonpos (show 8*(k:ℤ) - 39996 ≤ 0 from by omega)]
  rw [if_pos (show -(8*(k:ℤ) - 39996) ≤ 9999 from by omega)]
  all_goals omega

lemma mQ_p4 (k : ℕ) (hlo : 5000 ≤ k) (hhi : k ≤ 6249) :
    mQ k = 8*(k:ℤ) - 39996 := by
  have hz1 : (5000:ℤ) ≤ (k:ℤ) := by exact_mod_cast hlo
  have hz2 : (k:ℤ) ≤ (6249:ℤ) := by exact_mod_cast hhi
  simp only [mQ, fold1, half]
  rw [if_neg (show ¬ (8*(k:ℤ) - 39996 < -19998) from by omega)]
  rw [if_neg (show ¬ (19998 < 8*(k:ℤ) - 39996) from by omega)]
  rw [abs_of_nonneg (show (0:ℤ) ≤ 8*(k:ℤ) - 39996 from by omega)]
  rw [if_pos (show 8*(k:ℤ) - 39996 ≤ 9999 from by omega)]
  all_goals omega

lemma mQ_p5 (k : ℕ) (hlo : 6250 ≤ k) (hhi : k ≤ 7499) :
    mQ k = 59994 - 8*(k:ℤ) := by
  have hz1 : (6250:ℤ) ≤ (k:ℤ) := by exact_mod_cast hlo
  have hz2 : (k:ℤ) ≤ (7499:ℤ) := by exact_mod_cast hhi
  simp only [mQ, fold1, half]
  rw [if_neg (show ¬ (8*(k:ℤ) - 39996 < -19998) from by omega)]
  rw [if_neg (show ¬ (19998 < 8*(k:ℤ) - 39996) from by omega)]
  rw [abs_of_nonneg (show (0:ℤ) ≤ 8*(k:ℤ) - 39996 from by omega)]
  rw [if_neg (show ¬ (8*(k:ℤ) - 39996 ≤ 9999) from by omega)]
  all_goals omega

lemma mQ_p6 (k : ℕ) (hlo : 7500 ≤ k) (hhi : k ≤ 8749) :
    mQ k = 8*(k:ℤ) - 59994 := by
  have hz1 : (7500:ℤ) ≤ (k:ℤ) := by exact_mod_cast hlo
  have hz2 : (k:ℤ) ≤ (8749:ℤ) := by exact_mod_cast hhi
  simp only [mQ, fold1, half]
  rw [if_neg (show ¬ (8*(k:ℤ) - 39996 < -19998) from by omega)]
  rw [if_pos (show 19998 < 8*(k:ℤ) - 39996 from by omega)]
  rw [abs_of_nonpos (show 8*(k:ℤ) - 39996 - 39996 ≤ 0 from by omega)]
  rw [if_neg (show ¬ (-(8*(k:ℤ) - 39996 - 39996) ≤ 9999) from by omega)]
  all_goals omega

lemma mQ_p7 (k : ℕ) (hlo : 8750 ≤ k) (hhi : k ≤ 9998) :
    mQ k = 79992 - 8*(k:ℤ) := by
  have hz1 : (8750:ℤ) ≤ (k:ℤ) := by exact_mod_cast hlo
  have hz2 : (k:ℤ) ≤ (9998:ℤ) := by exact_mod_cast hhi
  simp only [mQ, fold1, half]
  rw [if_neg (show ¬ (8*(k:ℤ) - 39996 < -19998) from by omega)]
  rw [if_pos (show 19998 < 8*(k:ℤ) - 39996 from by omega)]
  rw [abs_of_nonpos (show 8*(k:ℤ) - 39996 - 39996 ≤ 0 from by omega)]
  rw [if_pos (show -(8*(k:ℤ) - 39996 - 39996) ≤ 9999 from by omega)]
  all_goals omega

lemma mQ_p8 (k : ℕ) (hlo : 9999 ≤ k) (hhi : k ≤ 9999) :
    mQ k = (0 : ℤ) := by
  have hz1 : (9999:ℤ) ≤ (k:ℤ) := by exact_mod_cast hlo
  have hz2 : (k:ℤ) ≤ (9999:ℤ) := by exact_mod_cast hhi
  simp only [mQ, fold1, half]
  rw [if_neg (show ¬ (8*(k:ℤ) - 39996 < -19998) from by omega)]
  rw [if_pos (show 19998 < 8*(k:ℤ) - 39996 from by omega)]
  rw [abs_of_nonneg (show (0:ℤ) ≤ 8*(k:ℤ) - 39996 - 39996 from by omega)]
  rw [if_pos (show 8*(k:ℤ) - 39996 - 39996 ≤ 9999 from by omega)]
  all_goals omega

lemma mQc_p0 (k : ℕ) (hlo : 0 ≤ k) (hhi : k ≤ 0) :
    mQc k = (9999 : ℤ) := by
  have hz1 : (0:ℤ) ≤ (k:ℤ) := by exact_mod_cast hlo
  have hz2 : (k:ℤ) ≤ (0:ℤ) := by exact_mod_cast hhi
  simp only [mQc, fold1, fold2, half]
  rw [if_pos (show 8*(k:ℤ) - 39996 < -19998 from by omega)]
  rw [if_neg (show ¬ (19998 < 8*(k:ℤ) - 39996 + 39996 + 9999) from by omega)]
  rw [abs_of_nonneg (show (0:ℤ) ≤ 8*(k:ℤ) - 39996 + 39996 + 9999 from by omega)]
  rw [if_pos (show 8*(k:ℤ) - 39996 + 39996 + 9999 ≤ 9999 from by omega)]
  all_goals omega

lemma mQc_p1 (k : ℕ) (hlo : 1 ≤ k) (hhi : k ≤ 1249) :
    mQc k = 9999 - 8*(k:ℤ) := by
  have hz1 : (1:ℤ) ≤ (k:ℤ) := by exact_mod_cast hlo
  have hz2 : (k:ℤ) ≤ (1249:ℤ) := by exact_mod_cast hhi
  simp only [mQc, fold1, fold2, half]
  rw [if_pos (show 8*(k:ℤ) - 39996 < -19998 from by omega)]
  rw [if_neg (show ¬ (19998 < 8*(k:ℤ) - 39996 + 39996 + 9999) from by omega)]
  rw [abs_of_nonneg (show (0:ℤ) ≤ 8*(k:ℤ) - 39996 + 39996 + 9999 from by omega)]
  rw [if_neg (show ¬ (8*(k:ℤ) - 39996 + 39996 + 9999 ≤ 9999) from by omega)]
  all_goals omega

lemma mQc_p2 (k : ℕ) (hlo : 1250 ≤ k) (hhi : k ≤ 2499) :
    mQc k = 8*(k:ℤ) - 9999 := by
  have hz1 : (1250:ℤ) ≤ (k:ℤ) := by exact_mod_cast hlo
  have hz2 : (k:ℤ) ≤ (2499:ℤ) := by exact_mod_cast hhi
  simp only [mQc, fold1, fold2, half]
  rw [if_pos (show 8*(k:ℤ) - 39996 < -19998 from by omega)]
  rw [if_pos (show 19998 < 8*(k:ℤ) - 39996 + 39996 + 9999 from by omega)]
  rw [abs_of_nonpos (show 8*(k:ℤ) - 39996 + 39996 + 9999 - 39996 ≤ 0 from by omega)]
  rw [if_neg (show ¬ (-(8*(k:ℤ) - 39996 + 39996 + 9999 - 39996) ≤ 9999) from by omega)]
  all_goals omega

lemma mQc_p3 (k : ℕ) (hlo : 2500 ≤ k) (hhi : k ≤ 3749) :
    mQc k = 29997 - 8*(k:ℤ) := by
  have hz1 : (2500:ℤ) ≤ (k:ℤ) := by exact_mod_cast hlo
  have hz2 : (k:ℤ) ≤ (3749:ℤ) := by exact_mod_cast hhi
  simp only [mQc, fold1, fold2, half]
  rw [if_neg (show ¬ (8*(k:ℤ) - 39996 < -19998) from by omega)]
  rw [if_neg (show ¬ (19998 < 8*(k:ℤ) - 39996) from by omega)]
  rw [if_neg (show ¬ (19998 < 8*(k:ℤ) - 39996 + 9999) from by omega)]
  rw [abs_of_nonpos (show 8*(k:ℤ) - 39996 + 9999 ≤ 0 from by omega)]
  rw [if_pos (show -(8*(k:ℤ) - 39996 + 9999) ≤ 9999 from by omega)]
  all_goals omega

lemma mQc_p4 (k : ℕ) (hlo : 3750 ≤ k) (hhi : k ≤ 4999) :
    mQc k = 8*(k:ℤ) - 29997 := by
  have hz1 : (3750:ℤ) ≤ (k:ℤ) := by exact_mod_cast hlo
  have hz2 : (k:ℤ) ≤ (4999:ℤ) := by exact_mod_cast hhi
  simp only [mQc, fold1, fold2, half]
  rw [if_neg (show ¬ (8*(k:ℤ) - 39996 < -19998) from by omega)]
  rw [if_neg (show ¬ (19998 < 8*(k:ℤ) - 39996) from by omega)]
  rw [if_neg (show ¬ (19998 < 8*(k:ℤ) - 39996 + 9999) from by omega)]
  rw [abs_of_nonneg (show (0:ℤ) ≤ 8*(k:ℤ) - 39996 + 9999 from by omega)]
  rw [if_pos (show 8*(k:ℤ) - 39996 + 9999 ≤ 9999 from by omega)]
  all_goals omega

lemma mQc_p5 (k : ℕ) (hlo : 5000 ≤ k) (hhi : k ≤ 6249) :
    mQc k = 49995 - 8*(k:ℤ) := by
  have hz1 : (5000:ℤ) ≤ (k:ℤ) := by exact_mod_cast hlo
  have hz2 : (k:ℤ) ≤ (6249:ℤ) := by exact_mod_cast hhi
  simp only [mQc, fold1, fold2, half]
  rw [if_neg (show ¬ (8*(k:ℤ) - 39996 < -19998) from by omega)]
  rw [if_neg (show ¬ (19998 < 8*(k:ℤ) - 39996) from by omega)]
  rw [if_neg (show ¬ (19998 < 8*(k:ℤ) - 39996 + 9999) from by omega)]
  rw [abs_of_nonneg (show (0:ℤ) ≤ 8*(k:ℤ) - 39996 + 9999 from by omega)]
  rw [if_neg (show ¬ (8*(k:ℤ) - 39996 + 9999 ≤ 9999) from by omega)]
  all_goals omega

lemma mQc_p6 (k : ℕ) (hlo : 6250 ≤ k) (hhi : k ≤ 7499) :
    mQc k = 8*(k:ℤ) - 49995 := by
  have hz1 : (6250:ℤ) ≤ (k:ℤ) := by exact_mod_cast hlo
  have hz2 : (k:ℤ) ≤ (7499:ℤ) := by exact_mod_cast hhi
  simp only [mQc, fold1, fold2, half]
  rw [if_neg (show ¬ (8*(k:ℤ) - 39996 < -19998) from by omega)]
  rw [if_neg (show ¬ (19998 < 8*(k:ℤ) - 39996) from by omega)]
  rw [if_pos (show 19998 < 8*(k:ℤ) - 39996 + 9999 from by omega)]
  rw [abs_of_nonpos (show 8*(k:ℤ) - 39996 + 9999 - 39996 ≤ 0 from by omega)]
  rw [if_neg (show ¬ (-(8*(k:ℤ) - 39996 + 9999 - 39996) ≤ 9999) from by omega)]
  all_goals omega

lemma mQc_p7 (k : ℕ) (hlo : 7500 ≤ k) (hhi : k ≤ 8749) :
    mQc k = 69993 - 8*(k:ℤ) := by
  have hz1 : (7500:ℤ) ≤ (k:ℤ) := by exact_mod_cast hlo
  have hz2 : (k:ℤ) ≤ (8749:ℤ) := by exact_mod_cast hhi
  simp only [mQc, fold1, fold2, half]
  rw [if_neg (show ¬ (8*(k:ℤ) - 39996 < -19998) from by omega)]
  rw [if_pos (show 19998 < 8*(k:ℤ) - 39996 from by omega)]
  rw [if_neg (show ¬ (19998 < 8*(k:ℤ) - 39996 - 39996 + 9999) from by omega)]
  rw [abs_of_nonpos (show 8*(k:ℤ) - 39996 - 39996 + 9999 ≤ 0 from by omega)]
  rw [if_pos (show -(8*(k:ℤ) - 39996 - 39996 + 9999) ≤ 9999 from by omega)]
  all_goals omega

lemma mQc_p8 (k : ℕ) (hlo : 8750 ≤ k) (hhi : k ≤ 9999) :
    mQc k = 8*(k:ℤ) - 69993 := by
  have hz1 : (8750:ℤ) ≤ (k:ℤ) := by exact_mod_cast hlo
  have hz2 : (k:ℤ) ≤ (9999:ℤ) := by exact_mod_cast hhi
  simp only [mQc, fold1, fold2, half]
  rw [if_neg (show ¬ (8*(k:ℤ) - 39996 < -19998) from by omega)]
  rw [if_pos (show 19998 < 8*(k:ℤ) - 39996 from by omega)]
  rw [if_neg (show ¬ (19998 < 8*(k:ℤ) - 39996 - 39996 + 9999) from by omega)]
  rw [abs_of_nonneg (show (0:ℤ) ≤ 8*(k:ℤ) - 39996 - 39996 + 9999 from by omega)]
  rw [if_pos (show 8*(k:ℤ) - 39996 - 39996 + 9999 ≤ 9999 from by omega)]
  all_goals omega

set_option maxHeartbeats 2000000 in
lemma sinSum_val :
    (∑ k ∈ Finset.range 10000, boundPW (mQ k)) = 2779/400 := by
  have blk0 : ∑ k ∈ Finset.Ico (0:ℕ) 157, boundPW (mQ k) = 157 * (1093/1000000) := by
    have he : ∀ k ∈ Finset.Ico (0:ℕ) 157, boundPW (mQ k) = 1093/1000000 := by
      intro k hk
      obtain ⟨hk1, hk2⟩ := Finset.mem_Ico.mp hk
      rw [mQ_p0 k (by omega) (by omega), boundPW]
      rw [if_pos (show 8*(k:ℤ) < 1250 from by omega)]
    rw [Finset.sum_congr rfl he, Finset.sum_const, Nat.card_Ico]
    norm_num
  have blk1 : ∑ k ∈ Finset.Ico (157:ℕ) 313, boundPW (mQ k) = 156 * (1091/1000000) := by
    have he : ∀ k ∈ Finset.Ico (157:ℕ) 313, boundPW (mQ k) = 1091/1000000 := by
      intro k hk
      obtain ⟨hk1, hk2⟩ := Finset.mem_Ico.mp hk
      rw [mQ_p0 k (by omega) (by omega), boundPW]
      rw [if_neg (show ¬ (8*(k:ℤ) < 1250) from by omega), if_pos (show 8*(k:ℤ) < 2500 from by omega)]
    rw [Finset.sum_congr rfl he, Finset.sum_const, Nat.card_Ico]
    norm_num
  have blk2 : ∑ k ∈ Finset.Ico (313:ℕ) 469, boundPW (mQ k) = 156 * (111/200000) := by
    have he : ∀ k ∈ Finset.Ico (313:ℕ) 469, boundPW (mQ k) = 111/200000 := by
      intro k hk
      obtain ⟨hk1, hk2⟩ := Finset.mem_Ico.mp hk
      rw [mQ_p0 k (by omega) (by omega), boundPW]
      rw [if_neg (show ¬ (8*(k:ℤ) < 1250) from by omega), if_neg (show ¬ (8*(k:ℤ) < 2500) from by omega), if_pos (show 8*(k:ℤ) < 3750 from by omega)]
    rw [Finset.sum_congr rfl he, Finset.sum_const, Nat.card_Ico]
    norm_num
  have blk3 : ∑ k ∈ Finset.Ico (469:ℕ) 625, boundPW (mQ k) = 156 * (707/1000000) := by
    have he : ∀ k ∈ Finset.Ico (469:ℕ) 625, boundPW (mQ k) = 707/1000000 := by
      intro k hk
      obtain ⟨hk1, hk2⟩ := Finset.mem_Ico.mp hk
      rw [mQ_p0 k (by omega) (by omega), boundPW]
      rw [if_neg (show ¬ (8*(k:ℤ) < 1250) from by omega), if_neg (show ¬ (8*(k:ℤ) < 2500) from by omega), if_neg (show ¬ (8*(k:ℤ) < 3750) from by omega), if_pos (show 8*(k:ℤ) < 5000 from by omega)]
    rw [Finset.sum_congr rfl he, Finset.sum_const, Nat.card_Ico]
    norm_num
  have blk4 : ∑ k ∈ Finset.Ico (625:ℕ) 782, boundPW (mQ k) = 157 * (769/1000000) := by
    have he : ∀ k ∈ Finset.Ico (625:ℕ) 782, boundPW (mQ k) = 769/1000000 := by
      intro k hk
      obtain ⟨hk1, hk2⟩ := Finset.mem_Ico.mp hk
      rw [mQ_p0 k (by omega) (by omega), boundPW]
      rw [if_neg (show ¬ (8*(k:ℤ) < 1250) from by omega), if_neg (show ¬ (8*(k:ℤ) < 2500) from by omega), if_neg (show ¬ (8*(k:ℤ) < 3750) from by omega), if_neg (show ¬ (8*(k:ℤ) < 5000) from by omega), if_pos (show 8*(k:ℤ) < 6250 from by omega)]
    rw [Finset.sum_congr rfl he, Finset.sum_const, Nat.card_Ico]
    norm_num
  have blk5 : ∑ k ∈ Finset.Ico (782:ℕ) 938, boundPW (mQ k) = 156 * (717/1000000) := by
    have he : ∀ k ∈ Finset.Ico (782:ℕ) 938, boundPW (mQ k) = 717/1000000 := by
      intro k hk
      obtain ⟨hk1, hk2⟩ := Finset.mem_Ico.mp hk
      rw [mQ_p0 k (by omega) (by omega), boundPW]
      rw [if_neg (show ¬ (8*(k:ℤ) < 1250) from by omega), if_neg (show ¬ (8*(k:ℤ) < 2500) from by omega), if_neg (show ¬ (8*(k:ℤ) < 3750) from by omega), if_neg (show ¬ (8*(k:ℤ) < 5000) from by omega), if_neg (show ¬ (8*(k:ℤ) < 6250) from by omega), if_pos (show 8*(k:ℤ) < 7500 from by omega)]
    rw [Finset.sum_congr rfl he, Finset.sum_const, Nat.card_Ico]
    norm_num
  have blk6 : ∑ k ∈ Finset.Ico (938:ℕ) 1094, boundPW (mQ k) = 156 * (449/1000000) := by
    have he : ∀ k ∈ Finset.Ico (938:ℕ) 1094, boundPW (mQ k) = 449/1000000 := by
      intro k hk
      obtain ⟨hk1, hk2⟩ := Finset.mem_Ico.mp hk
      rw [mQ_p0 k (by omega) (by omega), boundPW]
      rw [if_neg (show ¬ (8*(k:ℤ) < 1250) from by omega), if_neg (show ¬ (8*(k:ℤ) < 2500) from by omega), if_neg (show ¬ (8*(k:ℤ) < 3750) from by omega), if_neg (show ¬ (8*(k:ℤ) < 5000) from by omega), if_neg (show ¬ (8*(k:ℤ) < 6250) from by omega), if_neg (show ¬ (8*(k:ℤ) < 7500) from by omega), if_pos (show 8*(k:ℤ) < 8750 from by omega)]
    rw [Finset.sum_congr rfl he, Finset.sum_const, Nat.card_Ico]
    norm_num
  have blk7 : ∑ k ∈ Finset.Ico (1094:ℕ) 1250, boundPW (mQ k) = 156 * (177/1000000) := by
    have he : ∀ k ∈ Finset.Ico (1094:ℕ) 1250, boundPW (mQ k) = 177/1000000 := by
      intro k hk
      obtain ⟨hk1, hk2⟩ := Finset.mem_Ico.mp hk
      rw [mQ_p0 k (by omega) (by omega), boundPW]
      rw [if_neg (show ¬ (8*(k:ℤ) < 1250) from by omega), if_neg (show ¬ (8*(k:ℤ) < 2500) from by omega), if_neg (show ¬ (8*(k:ℤ) < 3750) from by omega), if_neg (show ¬ (8*(k:ℤ) < 5000) from by omega), if_neg (show ¬ (8*(k:ℤ) < 6250) from by omega), if_neg (show ¬ (8*(k:ℤ) < 7500) from by omega), if_neg (show ¬ (8*(k:ℤ) < 8750) from by omega)]
    rw [Finset.sum_congr rfl he, Finset.sum_const, Nat.card_Ico]
    norm_num
  have blk8 : ∑ k ∈ Finset.Ico (1250:ℕ) 1407, boundPW (mQ k) = 157 * (177/1000000) := by
    have he : ∀ k ∈ Finset.Ico (1250:ℕ) 1407, boundPW (mQ k) = 177/1000000 := by
      intro k hk
      obtain ⟨hk1, hk2⟩ := Finset.mem_Ico.mp hk
      rw [mQ_p1 k (by omega) (by omega), boundPW]
      rw [if_neg (show ¬ (19998 - 8*(k:ℤ) < 1250) from by omega), if_neg (show ¬ (19998 - 8*(k:ℤ) < 2500) from by omega), if_neg (show ¬ (19998 - 8*(k:ℤ) < 3750) from by omega), if_neg (show ¬ (19998 - 8*(k:ℤ) < 5000) from by omega), if_neg (show ¬ (19998 - 8*(k:ℤ) < 6250) from by omega), if_neg (show ¬ (19998 - 8*(k:ℤ) < 7500) from by omega), if_neg (show ¬ (19998 - 8*(k:ℤ) < 8750) from by omega)]
    rw [Finset.sum_congr rfl he, Finset.sum_const, Nat.card_Ico]
    norm_num
  have blk9 : ∑ k ∈ Finset.Ico (1407:ℕ) 1563, boundPW (mQ k) = 156 * (449/1000000) := by
    have he : ∀ k ∈ Finset.Ico (1407:ℕ) 1563, boundPW (mQ k) = 449/1000000 := by
      intro k hk
      obtain ⟨hk1, hk2⟩ := Finset.mem_Ico.mp hk
      rw [mQ_p1 k (by omega) (by omega), boundPW]
      rw [if_neg (show ¬ (19998 - 8*(k:ℤ) < 1250) from by omega), if_neg (show ¬ (19998 - 8*(k:ℤ) < 2500) from by omega), if_neg (show ¬ (19998 - 8*(k:ℤ) < 3750) from by omega), if_neg (show ¬ (19998 - 8*(k:ℤ) < 5000) from by omega), if_neg (show ¬ (19998 - 8*(k:ℤ) < 6250) from by omega), if_neg (show ¬ (19998 - 8*(k:ℤ) < 7500) from by omega), if_pos (show 19998 - 8*(k:ℤ) < 8750 from by omega)]
    rw [Finset.sum_congr rfl he, Finset.sum_const, Nat.card_Ico]
    norm_num
  have blk10 : ∑ k ∈ Finset.Ico (1563:ℕ) 1719, boundPW (mQ k) = 156 * (717/1000000) := by
    have he : ∀ k ∈ Finset.Ico (1563:ℕ) 1719, boundPW (mQ k) = 717/1000000 := by
      intro k hk
      obtain ⟨hk1, hk2⟩ := Finset.mem_Ico.mp hk
      rw [mQ_p1 k (by omega) (by omega), boundPW]
      rw [if_neg (show ¬ (19998 - 8*(k:ℤ) < 1250) from by omega), if_neg (show ¬ (19998 - 8*(k:ℤ) < 2500) from by omega), if_neg (show ¬ (19998 - 8*(k:ℤ) < 3750) from by omega), if_neg (show ¬ (19998 - 8*(k:ℤ) < 5000) from by omega), if_neg (show ¬ (19998 - 8*(k:ℤ) < 6250) from by omega), if_pos (show 19998 - 8*(k:ℤ) < 7500 from by omega)]
    rw [Finset.sum_congr rfl he, Finset.sum_const, Nat.card_Ico]
    norm_num
  have blk11 : ∑ k ∈ Finset.Ico (1719:ℕ) 1875, boundPW (mQ k) = 156 * (769/1000000) := by
    have he : ∀ k ∈ Finset.Ico (1719:ℕ) 1875, boundPW (mQ k) = 769/1000000 := by
      intro k hk
      obtain ⟨hk1, hk2⟩ := Finset.mem_Ico.mp hk
      rw [mQ_p1 k (by omega) (by omega), boundPW]
      rw [if_neg (show ¬ (19998 - 8*(k:ℤ) < 1250) from by omega), if_neg (show ¬ (19998 - 8*(k:ℤ) < 2500) from by omega), if_neg (show ¬ (19998 - 8*(k:ℤ) < 3750) from by omega), if_neg (show ¬ (19998 - 8*(k:ℤ) < 5000) from by omega), if_pos (show 19998 - 8*(k:ℤ) < 6250 from by omega)]
    rw [Finset.sum_congr rfl he, Finset.sum_const, Nat.card_Ico]
    norm_num
  have blk12 : ∑ k ∈ Finset.Ico (1875:ℕ) 2032, boundPW (mQ k) = 157 * (707/1000000) := by
    have he : ∀ k ∈ Finset.Ico (1875:ℕ) 2032, boundPW (mQ k) = 707/1000000 := by
      intro k hk
      obtain ⟨hk1, hk2⟩ := Finset.mem_Ico.mp hk
      rw [mQ_p1 k (by omega) (by omega), boundPW]
      rw [if_neg (show ¬ (19998 - 8*(k:ℤ) < 1250) from by omega), if_neg (show ¬ (19998 - 8*(k:ℤ) < 2500) from by omega), if_neg (show ¬ (19998 - 8*(k:ℤ) < 3750) from by omega), if_pos (show 19998 - 8*(k:ℤ) < 5000 from by omega)]
    rw [Finset.sum_congr rfl he, Finset.sum_const, Nat.card_Ico]
    norm_num
  have blk13 : ∑ k ∈ Finset.Ico (2032:ℕ) 2188, boundPW (mQ k) = 156 * (111/200000) := by
    have he : ∀ k ∈ Finset.Ico (2032:ℕ) 2188, boundPW (mQ k) = 111/200000 := by
      intro k hk
      obtain ⟨hk1, hk2⟩ := Finset.mem_Ico.mp hk
      rw [mQ_p1 k (by omega) (by omega), boundPW]
      rw [if_neg (show ¬ (19998 - 8*(k:ℤ) < 1250) from by omega), if_neg (show ¬ (19998 - 8*(k:ℤ) < 2500) from by omega), if_pos (show 19998 - 8*(k:ℤ) < 3750 from by omega)]
    rw [Finset.sum_congr rfl he, Finset.sum_const, Nat.card_Ico]
    norm_num
  have blk14 : ∑ k ∈ Finset.Ico (2188:ℕ) 2344, boundPW (mQ k) = 156 * (1091/1000000) := by
    have he : ∀ k ∈ Finset.Ico (2188:ℕ) 2344, boundPW (mQ k) = 1091/1000000 := by
      intro k hk
      obtain ⟨hk1, hk2⟩ := Finset.mem_Ico.mp hk
      rw [mQ_p1 k (by omega) (by omega), boundPW]
      rw [if_neg (show ¬ (19998 - 8*(k:ℤ) < 1250) from by omega), if_pos (show 19998 - 8*(k:ℤ) < 2500 from by omega)]
    rw [Finset.sum_congr rfl he, Finset.sum_const, Nat.card_Ico]
    norm_num
  have blk15 : ∑ k ∈ Finset.Ico (2344:ℕ) 2500, boundPW (mQ k) = 156 * (1093/1000000) := by
    have he : ∀ k ∈ Finset.Ico (2344:ℕ) 2500, boundPW (mQ k) = 1093/1000000 := by
      intro k hk
      obtain ⟨hk1, hk2⟩ := Finset.mem_Ico.mp hk
      rw [mQ_p1 k (by omega) (by omega), boundPW]
      rw [if_pos (show 19998 - 8*(k:ℤ) < 1250 from by omega)]
    rw [Finset.sum_congr rfl he, Finset.sum_const, Nat.card_Ico]
    norm_num
  have blk16 : ∑ k ∈ Finset.Ico (2500:ℕ) 2656, boundPW (mQ k) = 156 * (1093/1000000) := by
    have he : ∀ k ∈ Finset.Ico (2500:ℕ) 2656, boundPW (mQ k) = 1093/1000000 := by
      intro k hk
      obtain ⟨hk1, hk2⟩ := Finset.mem_Ico.mp hk
      rw [mQ_p2 k (by omega) (by omega), boundPW]
      rw [if_pos (show 8*(k:ℤ) - 19998 < 1250 from by omega)]
    rw [Finset.sum_congr rfl he, Finset.sum_const, Nat.card_Ico]
    norm_num
  have blk17 : ∑ k ∈ Finset.Ico (2656:ℕ) 2813, boundPW (mQ k) = 157 * (1091/1000000) := by
    have he : ∀ k ∈ Finset.Ico (2656:ℕ) 2813, boundPW (mQ k) = 1091/1000000 := by
      intro k hk
      obtain ⟨hk1, hk2⟩ := Finset.mem_Ico.mp hk
      rw [mQ_p2 k (by omega) (by omega), boundPW]
      rw [if_neg (show ¬ (8*(k:ℤ) - 19998 < 1250) from by omega), if_pos (show 8*(k:ℤ) - 19998 < 2500 from by omega)]
    rw [Finset.sum_congr rfl he, Finset.sum_const, Nat.card_Ico]
    norm_num
  have blk18 : ∑ k ∈ Finset.Ico (2813:ℕ) 2969, boundPW (mQ k) = 156 * (111/200000) := by
    have he : ∀ k ∈ Finset.Ico (2813:ℕ) 2969, boundPW (mQ k) = 111/200000 := by
      intro k hk
      obtain ⟨hk1, hk2⟩ := Finset.mem_Ico.mp hk
      rw [mQ_p2 k (by omega) (by omega), boundPW]
      rw [if_neg (show ¬ (8*(k:ℤ) - 19998 < 1250) from by omega), if_neg (show ¬ (8*(k:ℤ) - 19998 < 2500) from by omega), if_pos (show 8*(k:ℤ) - 19998 < 3750 from by omega)]
    rw [Finset.sum_congr rfl he, Finset.sum_const, Nat.card_Ico]
    norm_num
  have blk19 : ∑ k ∈ Finset.Ico (2969:ℕ) 3125, boundPW (mQ k) = 156 * (707/1000000) := by
    have he : ∀ k ∈ Finset.Ico (2969:ℕ) 3125, boundPW (mQ k) = 707/1000000 := by
      intro k hk
      obtain ⟨hk1, hk2⟩ := Finset.mem_Ico.mp hk
      rw [mQ_p2 k (by omega) (by omega), boundPW]
      rw [if_neg (show ¬ (8*(k:ℤ) - 19998 < 1250) from by omega), if_neg (show ¬ (8*(k:ℤ) - 19998 < 2500) from by omega), if_neg (show ¬ (8*(k:ℤ) - 19998 < 3750) from by omega), if_pos (show 8*(k:ℤ) - 19998 < 5000 from by omega)]
    rw [Finset.sum_congr rfl he, Finset.sum_const, Nat.card_Ico]
    norm_num
  have blk20 : ∑ k ∈ Finset.Ico (3125:ℕ) 3281, boundPW (mQ k) = 156 * (769/1000000) := by
    have he : ∀ k ∈ Finset.Ico (3125:ℕ) 3281, boundPW (mQ k) = 769/1000000 := by
      intro k hk
      obtain ⟨hk1, hk2⟩ := Finset.mem_Ico.mp hk
      rw [mQ_p2 k (by omega) (by omega), boundPW]
      rw [if_neg (show ¬ (8*(k:ℤ) - 19998 < 1250) from by omega), if_neg (show ¬ (8*(k:ℤ) - 19998 < 2500) from by omega), if_neg (show ¬ (8*(k:ℤ) - 19998 < 3750) from by omega), if_neg (show ¬ (8*(k:ℤ) - 19998 < 5000) from by omega), if_pos (show 8*(k:ℤ) - 19998 < 6250 from by omega)]
    rw [Finset.sum_congr rfl he, Finset.sum_const, Nat.card_Ico]
    norm_num
  have blk21 : ∑ k ∈ Finset.Ico (3281:ℕ) 3438, boundPW (mQ k) = 157 * (717/1000000) := by
    have he : ∀ k ∈ Finset.Ico (3281:ℕ) 3438, boundPW (mQ k) = 717/1000000 := by
      intro k hk
      obtain ⟨hk1, hk2⟩ := Finset.mem_Ico.mp hk
      rw [mQ_p2 k (by omega) (by omega), boundPW]
      rw [if_neg (show ¬ (8*(k:ℤ) - 19998 < 1250) from by omega), if_neg (show ¬ (8*(k:ℤ) - 19998 < 2500) from by omega), if_neg (show ¬ (8*(k:ℤ) - 19998 < 3750) from by omega), if_neg (show ¬ (8*(k:ℤ) - 19998 < 5000) from by omega), if_neg (show ¬ (8*(k:ℤ) - 19998 < 6250) from by omega), if_pos (show 8*(k:ℤ) - 19998 < 7500 from by omega)]
    rw [Finset.sum_congr rfl he, Finset.sum_const, Nat.card_Ico]
    norm_num
  have blk22 : ∑ k ∈ Finset.Ico (3438:ℕ) 3594, boundPW (mQ k) = 156 * (449/1000000) := by
    have he : ∀ k ∈ Finset.Ico (3438:ℕ) 3594, boundPW (mQ k) = 449/1000000 := by
      intro k hk
      obtain ⟨hk1, hk2⟩ := Finset.mem_Ico.mp hk
      rw [mQ_p2 k (by omega) (by omega), boundPW]
      rw [if_neg (show ¬ (8*(k:ℤ) - 19998 < 1250) from by omega), if_neg (show ¬ (8*(k:ℤ) - 19998 < 2500) from by omega), if_neg (show ¬ (8*(k:ℤ) - 19998 < 3750) from by omega), if_neg (show ¬ (8*(k:ℤ) - 19998 < 5000) from by omega), if_neg (show ¬ (8*(k:ℤ) - 19998 < 6250) from by omega), if_neg (show ¬ (8*(k:ℤ) - 19998 < 7500) from by omega), if_pos (show 8*(k:ℤ) - 19998 < 8750 from by omega)]
    rw [Finset.sum_congr rfl he, Finset.sum_const, Nat.card_Ico]
    norm_num
  have blk23 : ∑ k ∈ Finset.Ico (3594:ℕ) 3750, boundPW (mQ k) = 156 * (177/1000000) := by
    have he : ∀ k ∈ Finset.Ico (3594:ℕ) 3750, boundPW (mQ k) = 177/1000000 := by
      intro k hk
      obtain ⟨hk1, hk2⟩ := Finset.mem_Ico.mp hk
      rw [mQ_p2 k (by omega) (by omega), boundPW]
      rw [if_neg (show ¬ (8*(k:ℤ) - 19998 < 1250) from by omega), if_neg (show ¬ (8*(k:ℤ) - 19998 < 2500) from by omega), if_neg (show ¬ (8*(k:ℤ) - 19998 < 3750) from by omega), if_neg (show ¬ (8*(k:ℤ) - 19998 < 5000) from by omega), if_neg (show ¬ (8*(k:ℤ) - 19998 < 6250) from by omega), if_neg (show ¬ (8*(k:ℤ) - 19998 < 7500) from by omega), if_neg (show ¬ (8*(k:ℤ) - 19998 < 8750) from by omega)]
    rw [Finset.sum_congr rfl he, Finset.sum_const, Nat.card_Ico]
    norm_num
  have blk24 : ∑ k ∈ Finset.Ico (3750:ℕ) 3906, boundPW (mQ k) = 156 * (177/1000000) := by
    have he : ∀ k ∈ Finset.Ico (3750:ℕ) 3906, boundPW (mQ k) = 177/1000000 := by
      intro k hk
      obtain ⟨hk1, hk2⟩ := Finset.mem_Ico.mp hk
      rw [mQ_p3 k (by omega) (by omega), boundPW]
      rw [if_neg (show ¬ (39996 - 8*(k:ℤ) < 1250) from by omega), if_neg (show ¬ (39996 - 8*(k:ℤ) < 2500) from by omega), if_neg (show ¬ (39996 - 8*(k:ℤ) < 3750) from by omega), if_neg (show ¬ (39996 - 8*(k:ℤ) < 5000) from by omega), if_neg (show ¬ (39996 - 8*(k:ℤ) < 6250) from by omega), if_neg (show ¬ (39996 - 8*(k:ℤ) < 7500) from by omega), if_neg (show ¬ (39996 - 8*(k:ℤ) < 8750) from by omega)]
    rw [Finset.sum_congr rfl he, Finset.sum_const, Nat.card_Ico]
    norm_num
  have blk25 : ∑ k ∈ Finset.Ico (3906:ℕ) 4063, boundPW (mQ k) = 157 * (449/1000000) := by
    have he : ∀ k ∈ Finset.Ico (3906:ℕ) 4063, boundPW (mQ k) = 449/1000000 := by
      intro k hk
      obtain ⟨hk1, hk2⟩ := Finset.mem_Ico.mp hk
      rw [mQ_p3 k (by omega) (by omega), boundPW]
      rw [if_neg (show ¬ (39996 - 8*(k:ℤ) < 1250) from by omega), if_neg (show ¬ (39996 - 8*(k:ℤ) < 2500) from by omega), if_neg (show ¬ (39996 - 8*(k:ℤ) < 3750) from by omega), if_neg (show ¬ (39996 - 8*(k:ℤ) < 5000) from by omega), if_neg (show ¬ (39996 - 8*(k:ℤ) < 6250) from by omega), if_neg (show ¬ (39996 - 8*(k:ℤ) < 7500) from by omega), if_pos (show 39996 - 8*(k:ℤ) < 8750 from by omega)]
    rw [Finset.sum_congr rfl he, Finset.sum_const, Nat.card_Ico]
    norm_num
  have blk26 : ∑ k ∈ Finset.Ico (4063:ℕ) 4219, boundPW (mQ k) = 156 * (717/1000000) := by
    have he : ∀ k ∈ Finset.Ico (4063:ℕ) 4219, boundPW (mQ k) = 717/1000000 := by
      intro k hk
      obtain ⟨hk1, hk2⟩ := Finset.mem_Ico.mp hk
      rw [mQ_p3 k (by omega) (by omega), boundPW]
      rw [if_neg (show ¬ (39996 - 8*(k:ℤ) < 1250) from by omega), if_neg (show ¬ (39996 - 8*(k:ℤ) < 2500) from by omega), if_neg (show ¬ (39996 - 8*(k:ℤ) < 3750) from by omega), if_neg (show ¬ (39996 - 8*(k:ℤ) < 5000) from by omega), if_neg (show ¬ (39996 - 8*(k:ℤ) < 6250) from by omega), if_pos (show 39996 - 8*(k:ℤ) < 7500 from by omega)]
    rw [Finset.sum_congr rfl he, Finset.sum_const, Nat.card_Ico]
    norm_num
  have blk27 : ∑ k ∈ Finset.Ico (4219:ℕ) 4375, boundPW (mQ k) = 156 * (769/1000000) := by
    have he : ∀ k ∈ Finset.Ico (4219:ℕ) 4375, boundPW (mQ k) = 769/1000000 := by
      intro k hk
      obtain ⟨hk1, hk2⟩ := Finset.mem_Ico.mp hk
      rw [mQ_p3 k (by omega) (by omega), boundPW]
      rw [if_neg (show ¬ (39996 - 8*(k:ℤ) < 1250) from by omega), if_neg (show ¬ (39996 - 8*(k:ℤ) < 2500) from by omega), if_neg (show ¬ (39996 - 8*(k:ℤ) < 3750) from by omega), if_neg (show ¬ (39996 - 8*(k:ℤ) < 5000) from by omega), if_pos (show 39996 - 8*(k:ℤ) < 6250 from by omega)]
    rw [Finset.sum_congr rfl he, Finset.sum_const, Nat.card_Ico]
    norm_num
  have blk28 : ∑ k ∈ Finset.Ico (4375:ℕ) 4531, boundPW (mQ k) = 156 * (707/1000000) := by
    have he : ∀ k ∈ Finset.Ico (4375:ℕ) 4531, boundPW (mQ k) = 707/1000000 := by
      intro k hk
      obtain ⟨hk1, hk2⟩ := Finset.mem_Ico.mp hk
      rw [mQ_p3 k (by omega) (by omega), boundPW]
      rw [if_neg (show ¬ (39996 - 8*(k:ℤ) < 1250) from by omega), if_neg (show ¬ (39996 - 8*(k:ℤ) < 2500) from by omega), if_neg (show ¬ (39996 - 8*(k:ℤ) < 3750) from by omega), if_pos (show 39996 - 8*(k:ℤ) < 5000 from by omega)]
    rw [Finset.sum_congr rfl he, Finset.sum_const, Nat.card_Ico]
    norm_num
  have blk29 : ∑ k ∈ Finset.Ico (4531:ℕ) 4688, boundPW (mQ k) = 157 * (111/200000) := by
    have he : ∀ k ∈ Finset.Ico (4531:ℕ) 4688, boundPW (mQ k) = 111/200000 := by
      intro k hk
      obtain ⟨hk1, hk2⟩ := Finset.mem_Ico.mp hk
      rw [mQ_p3 k (by omega) (by omega), boundPW]
      rw [if_neg (show ¬ (39996 - 8*(k:ℤ) < 1250) from by omega), if_neg (show ¬ (39996 - 8*(k:ℤ) < 2500) from by omega), if_pos (show 39996 - 8*(k:ℤ) < 3750 from by omega)]
    rw [Finset.sum_congr rfl he, Finset.sum_const, Nat.card_Ico]
    norm_num
  have blk30 : ∑ k ∈ Finset.Ico (4688:ℕ) 4844, boundPW (mQ k) = 156 * (1091/1000000) := by
    have he : ∀ k ∈ Finset.Ico (4688:ℕ) 4844, boundPW (mQ k) = 1091/1000000 := by
      intro k hk
      obtain ⟨hk1, hk2⟩ := Finset.mem_Ico.mp hk
      rw [mQ_p3 k (by omega) (by omega), boundPW]
      rw [if_neg (show ¬ (39996 - 8*(k:ℤ) < 1250) from by omega), if_pos (show 39996 - 8*(k:ℤ) < 2500 from by omega)]
    rw [Finset.sum_congr rfl he, Finset.sum_const, Nat.card_Ico]
    norm_num
  have blk31 : ∑ k ∈ Finset.Ico (4844:ℕ) 5000, boundPW (mQ k) = 156 * (1093/1000000) := by
    have he : ∀ k ∈ Finset.Ico (4844:ℕ) 5000, boundPW (mQ k) = 1093/1000000 := by
      intro k hk
      obtain ⟨hk1, hk2⟩ := Finset.mem_Ico.mp hk
      rw [mQ_p3 k (by omega) (by omega), boundPW]
      rw [if_pos (show 39996 - 8*(k:ℤ) < 1250 from by omega)]
    rw [Finset.sum_congr rfl he, Finset.sum_const, Nat.card_Ico]
    norm_num
  have blk32 : ∑ k ∈ Finset.Ico (5000:ℕ) 5156, boundPW (mQ k) = 156 * (1093/1000000) := by
    have he : ∀ k ∈ Finset.Ico (5000:ℕ) 5156, boundPW (mQ k) = 1093/1000000 := by
      intro k hk
      obtain ⟨hk1, hk2⟩ := Finset.mem_Ico.mp hk
      rw [mQ_p4 k (by omega) (by omega), boundPW]
      rw [if_pos (show 8*(k:ℤ) - 39996 < 1250 from by omega)]
    rw [Finset.sum_congr rfl he, Finset.sum_const, Nat.card_Ico]
    norm_num
  have blk33 : ∑ k ∈ Finset.Ico (5156:ℕ) 5312, boundPW (mQ k) = 156 * (1091/1000000) := by
    have he : ∀ k ∈ Finset.Ico (5156:ℕ) 5312, boundPW (mQ k) = 1091/1000000 := by
      intro k hk
      obtain ⟨hk1, hk2⟩ := Finset.mem_Ico.mp hk
      rw [mQ_p4 k (by omega) (by omega), boundPW]
      rw [if_neg (show ¬ (8*(k:ℤ) - 39996 < 1250) from by omega), if_pos (show 8*(k:ℤ) - 39996 < 2500 from by omega)]
    rw [Finset.sum_congr rfl he, Finset.sum_const, Nat.card_Ico]
    norm_num
  have blk34 : ∑ k ∈ Finset.Ico (5312:ℕ) 5469, boundPW (mQ k) = 157 * (111/200000) := by
    have he : ∀ k ∈ Finset.Ico (5312:ℕ) 5469, boundPW (mQ k) = 111/200000 := by
      intro k hk
      obtain ⟨hk1, hk2⟩ := Finset.mem_Ico.mp hk
      rw [mQ_p4 k (by omega) (by omega), boundPW]
      rw [if_neg (show ¬ (8*(k:ℤ) - 39996 < 1250) from by omega), if_neg (show ¬ (8*(k:ℤ) - 39996 < 2500) from by omega), if_pos (show 8*(k:ℤ) - 39996 < 3750 from by omega)]
    rw [Finset.sum_congr rfl he, Finset.sum_const, Nat.card_Ico]
    norm_num
  have blk35 : ∑ k ∈ Finset.Ico (5469:ℕ) 5625, boundPW (mQ k) = 156 * (707/1000000) := by
    have he : ∀ k ∈ Finset.Ico (5469:ℕ) 5625, boundPW (mQ k) = 707/1000000 := by
      intro k hk
      obtain ⟨hk1, hk2⟩ := Finset.mem_Ico.mp hk
      rw [mQ_p4 k (by omega) (by omega), boundPW]
      rw [if_neg (show ¬ (8*(k:ℤ) - 39996 < 1250) from by omega), if_neg (show ¬ (8*(k:ℤ) - 39996 < 2500) from by omega), if_neg (show ¬ (8*(k:ℤ) - 39996 < 3750) from by omega), if_pos (show 8*(k:ℤ) - 39996 < 5000 from by omega)]
    rw [Finset.sum_congr rfl he, Finset.sum_const, Nat.card_Ico]
    norm_num
  have blk36 : ∑ k ∈ Finset.Ico (5625:ℕ) 5781, boundPW (mQ k) = 156 * (769/1000000) := by
    have he : ∀ k ∈ Finset.Ico (5625:ℕ) 5781, boundPW (mQ k) = 769/1000000 := by
      intro k hk
      obtain ⟨hk1, hk2⟩ := Finset.mem_Ico.mp hk
      rw [mQ_p4 k (by omega) (by omega), boundPW]
      rw [if_neg (show ¬ (8*(k:ℤ) - 39996 < 1250) from by omega), if_neg (show ¬ (8*(k:ℤ) - 39996 < 2500) from by omega), if_neg (show ¬ (8*(k:ℤ) - 39996 < 3750) from by omega), if_neg (show ¬ (8*(k:ℤ) - 39996 < 5000) from by omega), if_pos (show 8*(k:ℤ) - 39996 < 6250 from by omega)]
    rw [Finset.sum_congr rfl he, Finset.sum_const, Nat.card_Ico]
    norm_num
  have blk37 : ∑ k ∈ Finset.Ico (5781:ℕ) 5937, boundPW (mQ k) = 156 * (717/1000000) := by
    have he : ∀ k ∈ Finset.Ico (5781:ℕ) 5937, boundPW (mQ k) = 717/1000000 := by
      intro k hk
      obtain ⟨hk1, hk2⟩ := Finset.mem_Ico.mp hk
      rw [mQ_p4 k (by omega) (by omega), boundPW]
      rw [if_neg (show ¬ (8*(k:ℤ) - 39996 < 1250) from by omega), if_neg (show ¬ (8*(k:ℤ) - 39996 < 2500) from by omega), if_neg (show ¬ (8*(k:ℤ) - 39996 < 3750) from by omega), if_neg (show ¬ (8*(k:ℤ) - 39996 < 5000) from by omega), if_neg (show ¬ (8*(k:ℤ) - 39996 < 6250) from by omega), if_pos (show 8*(k:ℤ) - 39996 < 7500 from by omega)]
    rw [Finset.sum_congr rfl he, Finset.sum_const, Nat.card_Ico]
    norm_num
  have blk38 : ∑ k ∈ Finset.Ico (5937:ℕ) 6094, boundPW (mQ k) = 157 * (449/1000000) := by
    have he : ∀ k ∈ Finset.Ico (5937:ℕ) 6094, boundPW (mQ k) = 449/1000000 := by
      intro k hk
      obtain ⟨hk1, hk2⟩ := Finset.mem_Ico.mp hk
      rw [mQ_p4 k (by omega) (by omega), boundPW]
      rw [if_neg (show ¬ (8*(k:ℤ) - 39996 < 1250) from by omega), if_neg (show ¬ (8*(k:ℤ) - 39996 < 2500) from by omega), if_neg (show ¬ (8*(k:ℤ) - 39996 < 3750) from by omega), if_neg (show ¬ (8*(k:ℤ) - 39996 < 5000) from by omega), if_neg (show ¬ (8*(k:ℤ) - 39996 < 6250) from by omega), if_neg (show ¬ (8*(k:ℤ) - 39996 < 7500) from by omega), if_pos (show 8*(k:ℤ) - 39996 < 8750 from by omega)]
    rw [Finset.sum_congr rfl he, Finset.sum_const, Nat.card_Ico]
    norm_num
  have blk39 : ∑ k ∈ Finset.Ico (6094:ℕ) 6250, boundPW (mQ k) = 156 * (177/1000000) := by
    have he : ∀ k ∈ Finset.Ico (6094:ℕ) 6250, boundPW (mQ k) = 177/1000000 := by
      intro k hk
      obtain ⟨hk1, hk2⟩ := Finset.mem_Ico.mp hk
      rw [mQ_p4 k (by omega) (by omega), boundPW]
      rw [if_neg (show ¬ (8*(k:ℤ) - 39996 < 1250) from by omega), if_neg (show ¬ (8*(k:ℤ) - 39996 < 2500) from by omega), if_neg (show ¬ (8*(k:ℤ) - 39996 < 3750) from by omega), if_neg (show ¬ (8*(k:ℤ) - 39996 < 5000) from by omega), if_neg (show ¬ (8*(k:ℤ) - 39996 < 6250) from by omega), if_neg (show ¬ (8*(k:ℤ) - 39996 < 7500) from by omega), if_neg (show ¬ (8*(k:ℤ) - 39996 < 8750) from by omega)]
    rw [Finset.sum_congr rfl he, Finset.sum_const, Nat.card_Ico]
    norm_num
  have blk40 : ∑ k ∈ Finset.Ico (6250:ℕ) 6406, boundPW (mQ k) = 156 * (177/1000000) := by
    have he : ∀ k ∈ Finset.Ico (6250:ℕ) 6406, boundPW (mQ k) = 177/1000000 := by
      intro k hk
      obtain ⟨hk1, hk2⟩ := Finset.mem_Ico.mp hk
      rw [mQ_p5 k (by omega) (by omega), boundPW]
      rw [if_neg (show ¬ (59994 - 8*(k:ℤ) < 1250) from by omega), if_neg (show ¬ (59994 - 8*(k:ℤ) < 2500) from by omega), if_neg (show ¬ (59994 - 8*(k:ℤ) < 3750) from by omega), if_neg (show ¬ (59994 - 8*(k:ℤ) < 5000) from by omega), if_neg (show ¬ (59994 - 8*(k:ℤ) < 6250) from by omega), if_neg (show ¬ (59994 - 8*(k:ℤ) < 7500) from by omega), if_neg (show ¬ (59994 - 8*(k:ℤ) < 8750) from by omega)]
    rw [Finset.sum_congr rfl he, Finset.sum_const, Nat.card_Ico]
    norm_num
  have blk41 : ∑ k ∈ Finset.Ico (6406:ℕ) 6562, boundPW (mQ k) = 156 * (449/1000000) := by
    have he : ∀ k ∈ Finset.Ico (6406:ℕ) 6562, boundPW (mQ k) = 449/1000000 := by
      intro k hk
      obtain ⟨hk1, hk2⟩ := Finset.mem_Ico.mp hk
      rw [mQ_p5 k (by omega) (by omega), boundPW]
      rw [if_neg (show ¬ (59994 - 8*(k:ℤ) < 1250) from by omega), if_neg (show ¬ (59994 - 8*(k:ℤ) < 2500) from by omega), if_neg (show ¬ (59994 - 8*(k:ℤ) < 3750) from by omega), if_neg (show ¬ (59994 - 8*(k:ℤ) < 5000) from by omega), if_neg (show ¬ (59994 - 8*(k:ℤ) < 6250) from by omega), if_neg (show ¬ (59994 - 8*(k:ℤ) < 7500) from by omega), if_pos (show 59994 - 8*(k:ℤ) < 8750 from by omega)]
    rw [Finset.sum_congr rfl he, Finset.sum_const, Nat.card_Ico]
    norm_num
  have blk42 : ∑ k ∈ Finset.Ico (6562:ℕ) 6719, boundPW (mQ k) = 157 * (717/1000000) := by
    have he : ∀ k ∈ Finset.Ico (6562:ℕ) 6719, boundPW (mQ k) = 717/1000000 := by
      intro k hk
      obtain ⟨hk1, hk2⟩ := Finset.mem_Ico.mp hk
      rw [mQ_p5 k (by omega) (by omega), boundPW]
      rw [if_neg (show ¬ (59994 - 8*(k:ℤ) < 1250) from by omega), if_neg (show ¬ (59994 - 8*(k:ℤ) < 2500) from by omega), if_neg (show ¬ (59994 - 8*(k:ℤ) < 3750) from by omega), if_neg (show ¬ (59994 - 8*(k:ℤ) < 5000) from by omega), if_neg (show ¬ (59994 - 8*(k:ℤ) < 6250) from by omega), if_pos (show 59994 - 8*(k:ℤ) < 7500 from by omega)]
    rw [Finset.sum_congr rfl he, Finset.sum_const, Nat.card_Ico]
    norm_num
  have blk43 : ∑ k ∈ Finset.Ico (6719:ℕ) 6875, boundPW (mQ k) = 156 * (769/1000000) := by
    have he : ∀ k ∈ Finset.Ico (6719:ℕ) 6875, boundPW (mQ k) = 769/1000000 := by
      intro k hk
      obtain ⟨hk1, hk2⟩ := Finset.mem_Ico.mp hk
      rw [mQ_p5 k (by omega) (by omega), boundPW]
      rw [if_neg (show ¬ (59994 - 8*(k:ℤ) < 1250) from by omega), if_neg (show ¬ (59994 - 8*(k:ℤ) < 2500) from by omega), if_neg (show ¬ (59994 - 8*(k:ℤ) < 3750) from by omega), if_neg (show ¬ (59994 - 8*(k:ℤ) < 5000) from by omega), if_pos (show 59994 - 8*(k:ℤ) < 6250 from by omega)]
    rw [Finset.sum_congr rfl he, Finset.sum_const, Nat.card_Ico]
    norm_num
  have blk44 : ∑ k ∈ Finset.Ico (6875:ℕ) 7031, boundPW (mQ k) = 156 * (707/1000000) := by
    have he : ∀ k ∈ Finset.Ico (6875:ℕ) 7031, boundPW (mQ k) = 707/1000000 := by
      intro k hk
      obtain ⟨hk1, hk2⟩ := Finset.mem_Ico.mp hk
      rw [mQ_p5 k (by omega) (by omega), boundPW]
      rw [if_neg (show ¬ (59994 - 8*(k:ℤ) < 1250) from by omega), if_neg (show ¬ (59994 - 8*(k:ℤ) < 2500) from by omega), if_neg (show ¬ (59994 - 8*(k:ℤ) < 3750) from by omega), if_pos (show 59994 - 8*(k:ℤ) < 5000 from by omega)]
    rw [Finset.sum_congr rfl he, Finset.sum_const, Nat.card_Ico]
    norm_num
  have blk45 : ∑ k ∈ Finset.Ico (7031:ℕ) 7187, boundPW (mQ k) = 156 * (111/200000) := by
    have he : ∀ k ∈ Finset.Ico (7031:ℕ) 7187, boundPW (mQ k) = 111/200000 := by
      intro k hk
      obtain ⟨hk1, hk2⟩ := Finset.mem_Ico.mp hk
      rw [mQ_p5 k (by omega) (by omega), boundPW]
      rw [if_neg (show ¬ (59994 - 8*(k:ℤ) < 1250) from by omega), if_neg (show ¬ (59994 - 8*(k:ℤ) < 2500) from by omega), if_pos (show 59994 - 8*(k:ℤ) < 3750 from by omega)]
    rw [Finset.sum_congr rfl he, Finset.sum_const, Nat.card_Ico]
    norm_num
  have blk46 : ∑ k ∈ Finset.Ico (7187:ℕ) 7344, boundPW (mQ k) = 157 * (1091/1000000) := by
    have he : ∀ k ∈ Finset.Ico (7187:ℕ) 7344, boundPW (mQ k) = 1091/1000000 := by
      intro k hk
      obtain ⟨hk1, hk2⟩ := Finset.mem_Ico.mp hk
      rw [mQ_p5 k (by omega) (by omega), boundPW]
      rw [if_neg (show ¬ (59994 - 8*(k:ℤ) < 1250) from by omega), if_pos (show 59994 - 8*(k:ℤ) < 2500 from by omega)]
    rw [Finset.sum_congr rfl he, Finset.sum_const, Nat.card_Ico]
    norm_num
  have blk47 : ∑ k ∈ Finset.Ico (7344:ℕ) 7500, boundPW (mQ k) = 156 * (1093/1000000) := by
    have he : ∀ k ∈ Finset.Ico (7344:ℕ) 7500, boundPW (mQ k) = 1093/1000000 := by
      intro k hk
      obtain ⟨hk1, hk2⟩ := Finset.mem_Ico.mp hk
      rw [mQ_p5 k (by omega) (by omega), boundPW]
      rw [if_pos (show 59994 - 8*(k:ℤ) < 1250 from by omega)]
    rw [Finset.sum_congr rfl he, Finset.sum_const, Nat.card_Ico]
    norm_num
  have blk48 : ∑ k ∈ Finset.Ico (7500:ℕ) 7656, boundPW (mQ k) = 156 * (1093/1000000) := by
    have he : ∀ k ∈ Finset.Ico (7500:ℕ) 7656, boundPW (mQ k) = 1093/1000000 := by
      intro k hk
      obtain ⟨hk1, hk2⟩ := Finset.mem_Ico.mp hk
      rw [mQ_p6 k (by omega) (by omega), boundPW]
      rw [if_pos (show 8*(k:ℤ) - 59994 < 1250 from by omega)]
    rw [Finset.sum_congr rfl he, Finset.sum_const, Nat.card_Ico]
    norm_num
  have blk49 : ∑ k ∈ Finset.Ico (7656:ℕ) 7812, boundPW (mQ k) = 156 * (1091/1000000) := by
    have he : ∀ k ∈ Finset.Ico (7656:ℕ) 7812, boundPW (mQ k) = 1091/1000000 := by
      intro k hk
      obtain ⟨hk1, hk2⟩ := Finset.mem_Ico.mp hk
      rw [mQ_p6 k (by omega) (by omega), boundPW]
      rw [if_neg (show ¬ (8*(k:ℤ) - 59994 < 1250) from by omega), if_pos (show 8*(k:ℤ) - 59994 < 2500 from by omega)]
    rw [Finset.sum_congr rfl he, Finset.sum_const, Nat.card_Ico]
    norm_num
  have blk50 : ∑ k ∈ Finset.Ico (7812:ℕ) 7968, boundPW (mQ k) = 156 * (111/200000) := by
    have he : ∀ k ∈ Finset.Ico (7812:ℕ) 7968, boundPW (mQ k) = 111/200000 := by
      intro k hk
      obtain ⟨hk1, hk2⟩ := Finset.mem_Ico.mp hk
      rw [mQ_p6 k (by omega) (by omega), boundPW]
      rw [if_neg (show ¬ (8*(k:ℤ) - 59994 < 1250) from by omega), if_neg (show ¬ (8*(k:ℤ) - 59994 < 2500) from by omega), if_pos (show 8*(k:ℤ) - 59994 < 3750 from by omega)]
    rw [Finset.sum_congr rfl he, Finset.sum_const, Nat.card_Ico]
    norm_num
  have blk51 : ∑ k ∈ Finset.Ico (7968:ℕ) 8125, boundPW (mQ k) = 157 * (707/1000000) := by
    have he : ∀ k ∈ Finset.Ico (7968:ℕ) 8125, boundPW (mQ k) = 707/1000000 := by
      intro k hk
      obtain ⟨hk1, hk2⟩ := Finset.mem_Ico.mp hk
      rw [mQ_p6 k (by omega) (by omega), boundPW]
      rw [if_neg (show ¬ (8*(k:ℤ) - 59994 < 1250) from by omega), if_neg (show ¬ (8*(k:ℤ) - 59994 < 2500) from by omega), if_neg (show ¬ (8*(k:ℤ) - 59994 < 3750) from by omega), if_pos (show 8*(k:ℤ) - 59994 < 5000 from by omega)]
    rw [Finset.sum_congr rfl he, Finset.sum_const, Nat.card_Ico]
    norm_num
  have blk52 : ∑ k ∈ Finset.Ico (8125:ℕ) 8281, boundPW (mQ k) = 156 * (769/1000000) := by
    have he : ∀ k ∈ Finset.Ico (8125:ℕ) 8281, boundPW (mQ k) = 769/1000000 := by
      intro k hk
      obtain ⟨hk1, hk2⟩ := Finset.mem_Ico.mp hk
      rw [mQ_p6 k (by omega) (by omega), boundPW]
      rw [if_neg (show ¬ (8*(k:ℤ) - 59994 < 1250) from by omega), if_neg (show ¬ (8*(k:ℤ) - 59994 < 2500) from by omega), if_neg (show ¬ (8*(k:ℤ) - 59994 < 3750) from by omega), if_neg (show ¬ (8*(k:ℤ) - 59994 < 5000) from by omega), if_pos (show 8*(k:ℤ) - 59994 < 6250 from by omega)]
    rw [Finset.sum_congr rfl he, Finset.sum_const, Nat.card_Ico]
    norm_num
  have blk53 : ∑ k ∈ Finset.Ico (8281:ℕ) 8437, boundPW (mQ k) = 156 * (717/1000000) := by
    have he : ∀ k ∈ Finset.Ico (8281:ℕ) 8437, boundPW (mQ k) = 717/1000000 := by
      intro k hk
      obtain ⟨hk1, hk2⟩ := Finset.mem_Ico.mp hk
      rw [mQ_p6 k (by omega) (by omega), boundPW]
      rw [if_neg (show ¬ (8*(k:ℤ) - 59994 < 1250) from by omega), if_neg (show ¬ (8*(k:ℤ) - 59994 < 2500) from by omega), if_neg (show ¬ (8*(k:ℤ) - 59994 < 3750) from by omega), if_neg (show ¬ (8*(k:ℤ) - 59994 < 5000) from by omega), if_neg (show ¬ (8*(k:ℤ) - 59994 < 6250) from by omega), if_pos (show 8*(k:ℤ) - 59994 < 7500 from by omega)]
    rw [Finset.sum_congr rfl he, Finset.sum_const, Nat.card_Ico]
    norm_num
  have blk54 : ∑ k ∈ Finset.Ico (8437:ℕ) 8593, boundPW (mQ k) = 156 * (449/1000000) := by
    have he : ∀ k ∈ Finset.Ico (8437:ℕ) 8593, boundPW (mQ k) = 449/1000000 := by
      intro k hk
      obtain ⟨hk1, hk2⟩ := Finset.mem_Ico.mp hk
      rw [mQ_p6 k (by omega) (by omega), boundPW]
      rw [if_neg (show ¬ (8*(k:ℤ) - 59994 < 1250) from by omega), if_neg (show ¬ (8*(k:ℤ) - 59994 < 2500) from by omega), if_neg (show ¬ (8*(k:ℤ) - 59994 < 3750) from by omega), if_neg (show ¬ (8*(k:ℤ) - 59994 < 5000) from by omega), if_neg (show ¬ (8*(k:ℤ) - 59994 < 6250) from by omega), if_neg (show ¬ (8*(k:ℤ) - 59994 < 7500) from by omega), if_pos (show 8*(k:ℤ) - 59994 < 8750 from by omega)]
    rw [Finset.sum_congr rfl he, Finset.sum_const, Nat.card_Ico]
    norm_num
  have blk55 : ∑ k ∈ Finset.Ico (8593:ℕ) 8750, boundPW (mQ k) = 157 * (177/1000000) := by
    have he : ∀ k ∈ Finset.Ico (8593:ℕ) 8750, boundPW (mQ k) = 177/1000000 := by
      intro k hk
      obtain ⟨hk1, hk2⟩ := Finset.mem_Ico.mp hk
      rw [mQ_p6 k (by omega) (by omega), boundPW]
      rw [if_neg (show ¬ (8*(k:ℤ) - 59994 < 1250) from by omega), if_neg (show ¬ (8*(k:ℤ) - 59994 < 2500) from by omega), if_neg (show ¬ (8*(k:ℤ) - 59994 < 3750) from by omega), if_neg (show ¬ (8*(k:ℤ) - 59994 < 5000) from by omega), if_neg (show ¬ (8*(k:ℤ) - 59994 < 6250) from by omega), if_neg (show ¬ (8*(k:ℤ) - 59994 < 7500) from by omega), if_neg (show ¬ (8*(k:ℤ) - 59994 < 8750) from by omega)]
    rw [Finset.sum_congr rfl he, Finset.sum_const, Nat.card_Ico]
    norm_num
  have blk56 : ∑ k ∈ Finset.Ico (8750:ℕ) 8906, boundPW (mQ k) = 156 * (177/1000000) := by
    have he : ∀ k ∈ Finset.Ico (8750:ℕ) 8906, boundPW (mQ k) = 177/1000000 := by
      intro k hk
      obtain ⟨hk1, hk2⟩ := Finset.mem_Ico.mp hk
      rw [mQ_p7 k (by omega) (by omega), boundPW]
      rw [if_neg (show ¬ (79992 - 8*(k:ℤ) < 1250) from by omega), if_neg (show ¬ (79992 - 8*(k:ℤ) < 2500) from by omega), if_neg (show ¬ (79992 - 8*(k:ℤ) < 3750) from by omega), if_neg (show ¬ (79992 - 8*(k:ℤ) < 5000) from by omega), if_neg (show ¬ (79992 - 8*(k:ℤ) < 6250) from by omega), if_neg (show ¬ (79992 - 8*(k:ℤ) < 7500) from by omega), if_neg (show ¬ (79992 - 8*(k:ℤ) < 8750) from by omega)]
    rw [Finset.sum_congr rfl he, Finset.sum_const, Nat.card_Ico]
    norm_num
  have blk57 : ∑ k ∈ Finset.Ico (8906:ℕ) 9062, boundPW (mQ k) = 156 * (449/1000000) := by
    have he : ∀ k ∈ Finset.Ico (8906:ℕ) 9062, boundPW (mQ k) = 449/1000000 := by
      intro k hk
      obtain ⟨hk1, hk2⟩ := Finset.mem_Ico.mp hk
      rw [mQ_p7 k (by omega) (by omega), boundPW]
      rw [if_neg (show ¬ (79992 - 8*(k:ℤ) < 1250) from by omega), if_neg (show ¬ (79992 - 8*(k:ℤ) < 2500) from by omega), if_neg (show ¬ (79992 - 8*(k:ℤ) < 3750) from by omega), if_neg (show ¬ (79992 - 8*(k:ℤ) < 5000) from by omega), if_neg (show ¬ (79992 - 8*(k:ℤ) < 6250) from by omega), if_neg (show ¬ (79992 - 8*(k:ℤ) < 7500) from by omega), if_pos (show 79992 - 8*(k:ℤ) < 8750 from by omega)]
    rw [Finset.sum_congr rfl he, Finset.sum_const, Nat.card_Ico]
    norm_num
  have blk58 : ∑ k ∈ Finset.Ico (9062:ℕ) 9218, boundPW (mQ k) = 156 * (717/1000000) := by
    have he : ∀ k ∈ Finset.Ico (9062:ℕ) 9218, boundPW (mQ k) = 717/1000000 := by
      intro k hk
      obtain ⟨hk1, hk2⟩ := Finset.mem_Ico.mp hk
      rw [mQ_p7 k (by omega) (by omega), boundPW]
      rw [if_neg (show ¬ (79992 - 8*(k:ℤ) < 1250) from by omega), if_neg (show ¬ (79992 - 8*(k:ℤ) < 2500) from by omega), if_neg (show ¬ (79992 - 8*(k:ℤ) < 3750) from by omega), if_neg (show ¬ (79992 - 8*(k:ℤ) < 5000) from by omega), if_neg (show ¬ (79992 - 8*(k:ℤ) < 6250) from by omega), if_pos (show 79992 - 8*(k:ℤ) < 7500 from by omega)]
    rw [Finset.sum_congr rfl he, Finset.sum_const, Nat.card_Ico]
    norm_num
  have blk59 : ∑ k ∈ Finset.Ico (9218:ℕ) 9375, boundPW (mQ k) = 157 * (769/1000000) := by
    have he : ∀ k ∈ Finset.Ico (9218:ℕ) 9375, boundPW (mQ k) = 769/1000000 := by
      intro k hk
      obtain ⟨hk1, hk2⟩ := Finset.mem_Ico.mp hk
      rw [mQ_p7 k (by omega) (by omega), boundPW]
      rw [if_neg (show ¬ (79992 - 8*(k:ℤ) < 1250) from by omega), if_neg (show ¬ (79992 - 8*(k:ℤ) < 2500) from by omega), if_neg (show ¬ (79992 - 8*(k:ℤ) < 3750) from by omega), if_neg (show ¬ (79992 - 8*(k:ℤ) < 5000) from by omega), if_pos (show 79992 - 8*(k:ℤ) < 6250 from by omega)]
    rw [Finset.sum_congr rfl he, Finset.sum_const, Nat.card_Ico]
    norm_num
  have blk60 : ∑ k ∈ Finset.Ico (9375:ℕ) 9531, boundPW (mQ k) = 156 * (707/1000000) := by
    have he : ∀ k ∈ Finset.Ico (9375:ℕ) 9531, boundPW (mQ k) = 707/1000000 := by
      intro k hk
      obtain ⟨hk1, hk2⟩ := Finset.mem_Ico.mp hk
      rw [mQ_p7 k (by omega) (by omega), boundPW]
      rw [if_neg (show ¬ (79992 - 8*(k:ℤ) < 1250) from by omega), if_neg (show ¬ (79992 - 8*(k:ℤ) < 2500) from by omega), if_neg (show ¬ (79992 - 8*(k:ℤ) < 3750) from by omega), if_pos (show 79992 - 8*(k:ℤ) < 5000 from by omega)]
    rw [Finset.sum_congr rfl he, Finset.sum_const, Nat.card_Ico]
    norm_num
  have blk61 : ∑ k ∈ Finset.Ico (9531:ℕ) 9687, boundPW (mQ k) = 156 * (111/200000) := by
    have he : ∀ k ∈ Finset.Ico (9531:ℕ) 9687, boundPW (mQ k) = 111/200000 := by
      intro k hk
      obtain ⟨hk1, hk2⟩ := Finset.mem_Ico.mp hk
      rw [mQ_p7 k (by omega) (by omega), boundPW]
      rw [if_neg (show ¬ (79992 - 8*(k:ℤ) < 1250) from by omega), if_neg (show ¬ (79992 - 8*(k:ℤ) < 2500) from by omega), if_pos (show 79992 - 8*(k:ℤ) < 3750 from by omega)]
    rw [Finset.sum_congr rfl he, Finset.sum_const, Nat.card_Ico]
    norm_num
  have blk62 : ∑ k ∈ Finset.Ico (9687:ℕ) 9843, boundPW (mQ k) = 156 * (1091/1000000) := by
    have he : ∀ k ∈ Finset.Ico (9687:ℕ) 9843, boundPW (mQ k) = 1091/1000000 := by
      intro k hk
      obtain ⟨hk1, hk2⟩ := Finset.mem_Ico.mp hk
      rw [mQ_p7 k (by omega) (by omega), boundPW]
      rw [if_neg (show ¬ (79992 - 8*(k:ℤ) < 1250) from by omega), if_pos (show 79992 - 8*(k:ℤ) < 2500 from by omega)]
    rw [Finset.sum_congr rfl he, Finset.sum_const, Nat.card_Ico]
    norm_num
  have blk63 : ∑ k ∈ Finset.Ico (9843:ℕ) 9999, boundPW (mQ k) = 156 * (1093/1000000) := by
    have he : ∀ k ∈ Finset.Ico (9843:ℕ) 9999, boundPW (mQ k) = 1093/1000000 := by
      intro k hk
      obtain ⟨hk1, hk2⟩ := Finset.mem_Ico.mp hk
      rw [mQ_p7 k (by omega) (by omega), boundPW]
      rw [if_pos (show 79992 - 8*(k:ℤ) < 1250 from by omega)]
    rw [Finset.sum_congr rfl he, Finset.sum_const, Nat.card_Ico]
    norm_num
  have blk64 : ∑ k ∈ Finset.Ico (9999:ℕ) 10000, boundPW (mQ k) = 1 * (1093/1000000) := by
    have he : ∀ k ∈ Finset.Ico (9999:ℕ) 10000, boundPW (mQ k) = 1093/1000000 := by
      intro k hk
      obtain ⟨hk1, hk2⟩ := Finset.mem_Ico.mp hk
      rw [mQ_p8 k (by omega) (by omega), boundPW]
      rw [if_pos (show (0 : ℤ) < 1250 from by omega)]
    rw [Finset.sum_congr rfl he, Finset.sum_const, Nat.card_Ico]
    norm_num
  have acc0 : ∑ k ∈ Finset.Ico (0:ℕ) 157, boundPW (mQ k) = 171601/1000000 := by
    rw [blk0]
    norm_num
  have acc1 : ∑ k ∈ Finset.Ico (0:ℕ) 313, boundPW (mQ k) = 341797/1000000 := by
    rw [← Finset.sum_Ico_consecutive (fun k => boundPW (mQ k)) (show (0:ℕ) ≤ 157 from by norm_num) (show (157:ℕ) ≤ 313 from by norm_num), acc0, blk1]
    norm_num
  have acc2 : ∑ k ∈ Finset.Ico (0:ℕ) 469, boundPW (mQ k) = 428377/1000000 := by
    rw [← Finset.sum_Ico_consecutive (fun k => boundPW (mQ k)) (show (0:ℕ) ≤ 313 from by norm_num) (show (313:ℕ) ≤ 469 from by norm_num), acc1, blk2]
    norm_num
  have acc3 : ∑ k ∈ Finset.Ico (0:ℕ) 625, boundPW (mQ k) = 538669/1000000 := by
    rw [← Finset.sum_Ico_consecutive (fun k => boundPW (mQ k)) (show (0:ℕ) ≤ 469 from by norm_num) (show (469:ℕ) ≤ 625 from by norm_num), acc2, blk3]
    norm_num
  have acc4 : ∑ k ∈ Finset.Ico (0:ℕ) 782, boundPW (mQ k) = 329701/500000 := by
    rw [← Finset.sum_Ico_consecutive (fun k => boundPW (mQ k)) (show (0:ℕ) ≤ 625 from by norm_num) (show (625:ℕ) ≤ 782 from by norm_num), acc3, blk4]
    norm_num
  have acc5 : ∑ k ∈ Finset.Ico (0:ℕ) 938, boundPW (mQ k) = 385627/500000 := by
    rw [← Finset.sum_Ico_consecutive (fun k => boundPW (mQ k)) (show (0:ℕ) ≤ 782 from by norm_num) (show (782:ℕ) ≤ 938 from by norm_num), acc4, blk5]
    norm_num
  have acc6 : ∑ k ∈ Finset.Ico (0:ℕ) 1094, boundPW (mQ k) = 420649/500000 := by
    rw [← Finset.sum_Ico_consecutive (fun k => boundPW (mQ k)) (show (0:ℕ) ≤ 938 from by norm_num) (show (938:ℕ) ≤ 1094 from by norm_num), acc5, blk6]
    norm_num
  have acc7 : ∑ k ∈ Finset.Ico (0:ℕ) 1250, boundPW (mQ k) = 86891/100000 := by
    rw [← Finset.sum_Ico_consecutive (fun k => boundPW (mQ k)) (show (0:ℕ) ≤ 1094 from by norm_num) (show (1094:ℕ) ≤ 1250 from by norm_num), acc6, blk7]
    norm_num
  have acc8 : ∑ k ∈ Finset.Ico (0:ℕ) 1407, boundPW (mQ k) = 896699/1000000 := by
    rw [← Finset.sum_Ico_consecutive (fun k => boundPW (mQ k)) (show (0:ℕ) ≤ 1250 from by norm_num) (show (1250:ℕ) ≤ 1407 from by norm_num), acc7, blk8]
    norm_num
  have acc9 : ∑ k ∈ Finset.Ico (0:ℕ) 1563, boundPW (mQ k) = 966743/1000000 := by
    rw [← Finset.sum_Ico_consecutive (fun k => boundPW (mQ k)) (show (0:ℕ) ≤ 1407 from by norm_num) (show (1407:ℕ) ≤ 1563 from by norm_num), acc8, blk9]
    norm_num
  have acc10 : ∑ k ∈ Finset.Ico (0:ℕ) 1719, boundPW (mQ k) = 215719/200000 := by
    rw [← Finset.sum_Ico_consecutive (fun k => boundPW (mQ k)) (show (0:ℕ) ≤ 1563 from by norm_num) (show (1563:ℕ) ≤ 1719 from by norm_num), acc9, blk10]
    norm_num
  have acc11 : ∑ k ∈ Finset.Ico (0:ℕ) 1875, boundPW (mQ k) = 1198559/1000000 := by
    rw [← Finset.sum_Ico_consecutive (fun k => boundPW (mQ k)) (show (0:ℕ) ≤ 1719 from by norm_num) (show (1719:ℕ) ≤ 1875 from by norm_num), acc10, blk11]
    norm_num
  have acc12 : ∑ k ∈ Finset.Ico (0:ℕ) 2032, boundPW (mQ k) = 654779/500000 := by
    rw [← Finset.sum_Ico_consecutive (fun k => boundPW (mQ k)) (show (0:ℕ) ≤ 1875 from by norm_num) (show (1875:ℕ) ≤ 2032 from by norm_num), acc11, blk12]
    norm_num
  have acc13 : ∑ k ∈ Finset.Ico (0:ℕ) 2188, boundPW (mQ k) = 698069/500000 := by
    rw [← Finset.sum_Ico_consecutive (fun k => boundPW (mQ k)) (show (0:ℕ) ≤ 2032 from by norm_num) (show (2032:ℕ) ≤ 2188 from by norm_num), acc12, blk13]
    norm_num
  have acc14 : ∑ k ∈ Finset.Ico (0:ℕ) 2344, boundPW (mQ k) = 783167/500000 := by
    rw [← Finset.sum_Ico_consecutive (fun k => boundPW (mQ k)) (show (0:ℕ) ≤ 2188 from by norm_num) (show (2188:ℕ) ≤ 2344 from by norm_num), acc13, blk14]
    norm_num
  have acc15 : ∑ k ∈ Finset.Ico (0:ℕ) 2500, boundPW (mQ k) = 868421/500000 := by
    rw [← Finset.sum_Ico_consecutive (fun k => boundPW (mQ k)) (show (0:ℕ) ≤ 2344 from by norm_num) (show (2344:ℕ) ≤ 2500 from by norm_num), acc14, blk15]
    norm_num
  have acc16 : ∑ k ∈ Finset.Ico (0:ℕ) 2656, boundPW (mQ k) = 38147/20000 := by
    rw [← Finset.sum_Ico_consecutive (fun k => boundPW (mQ k)) (show (0:ℕ) ≤ 2500 from by norm_num) (show (2500:ℕ) ≤ 2656 from by norm_num), acc15, blk16]
    norm_num
  have acc17 : ∑ k ∈ Finset.Ico (0:ℕ) 2813, boundPW (mQ k) = 2078637/1000000 := by
    rw [← Finset.sum_Ico_consecutive (fun k => boundPW (mQ k)) (show (0:ℕ) ≤ 2656 from by norm_num) (show (2656:ℕ) ≤ 2813 from by norm_num), acc16, blk17]
    norm_num
  have acc18 : ∑ k ∈ Finset.Ico (0:ℕ) 2969, boundPW (mQ k) = 2165217/1000000 := by
    rw [← Finset.sum_Ico_consecutive (fun k => boundPW (mQ k)) (show (0:ℕ) ≤ 2813 from by norm_num) (show (2813:ℕ) ≤ 2969 from by norm_num), acc17, blk18]
    norm_num
  have acc19 : ∑ k ∈ Finset.Ico (0:ℕ) 3125, boundPW (mQ k) = 2275509/1000000 := by
    rw [← Finset.sum_Ico_consecutive (fun k => boundPW (mQ k)) (show (0:ℕ) ≤ 2969 from by norm_num) (show (2969:ℕ) ≤ 3125 from by norm_num), acc18, blk19]
    norm_num
  have acc20 : ∑ k ∈ Finset.Ico (0:ℕ) 3281, boundPW (mQ k) = 2395473/1000000 := by
    rw [← Finset.sum_Ico_consecutive (fun k => boundPW (mQ k)) (show (0:ℕ) ≤ 3125 from by norm_num) (show (3125:ℕ) ≤ 3281 from by norm_num), acc19, blk20]
    norm_num
  have acc21 : ∑ k ∈ Finset.Ico (0:ℕ) 3438, boundPW (mQ k) = 1254021/500000 := by
    rw [← Finset.sum_Ico_consecutive (fun k => boundPW (mQ k)) (show (0:ℕ) ≤ 3281 from by norm_num) (show (3281:ℕ) ≤ 3438 from by norm_num), acc20, blk21]
    norm_num
  have acc22 : ∑ k ∈ Finset.Ico (0:ℕ) 3594, boundPW (mQ k) = 1289043/500000 := by
    rw [← Finset.sum_Ico_consecutive (fun k => boundPW (mQ k)) (show (0:ℕ) ≤ 3438 from by norm_num) (show (3438:ℕ) ≤ 3594 from by norm_num), acc21, blk22]
    norm_num
  have acc23 : ∑ k ∈ Finset.Ico (0:ℕ) 3750, boundPW (mQ k) = 1302849/500000 := by
    rw [← Finset.sum_Ico_consecutive (fun k => boundPW (mQ k)) (show (0:ℕ) ≤ 3594 from by norm_num) (show (3594:ℕ) ≤ 3750 from by norm_num), acc22, blk23]
    norm_num
  have acc24 : ∑ k ∈ Finset.Ico (0:ℕ) 3906, boundPW (mQ k) = 263331/100000 := by
    rw [← Finset.sum_Ico_consecutive (fun k => boundPW (mQ k)) (show (0:ℕ) ≤ 3750 from by norm_num) (show (3750:ℕ) ≤ 3906 from by norm_num), acc23, blk24]
    norm_num
  have acc25 : ∑ k ∈ Finset.Ico (0:ℕ) 4063, boundPW (mQ k) = 2703803/1000000 := by
    rw [← Finset.sum_Ico_consecutive (fun k => boundPW (mQ k)) (show (0:ℕ) ≤ 3906 from by norm_num) (show (3906:ℕ) ≤ 4063 from by norm_num), acc24, blk25]
    norm_num
  have acc26 : ∑ k ∈ Finset.Ico (0:ℕ) 4219, boundPW (mQ k) = 563131/200000 := by
    rw [← Finset.sum_Ico_consecutive (fun k => boundPW (mQ k)) (show (0:ℕ) ≤ 4063 from by norm_num) (show (4063:ℕ) ≤ 4219 from by norm_num), acc25, blk26]
    norm_num
  have acc27 : ∑ k ∈ Finset.Ico (0:ℕ) 4375, boundPW (mQ k) = 2935619/1000000 := by
    rw [← Finset.sum_Ico_consecutive (fun k => boundPW (mQ k)) (show (0:ℕ) ≤ 4219 from by norm_num) (show (4219:ℕ) ≤ 4375 from by norm_num), acc26, blk27]
    norm_num
  have acc28 : ∑ k ∈ Finset.Ico (0:ℕ) 4531, boundPW (mQ k) = 3045911/1000000 := by
    rw [← Finset.sum_Ico_consecutive (fun k => boundPW (mQ k)) (show (0:ℕ) ≤ 4375 from by norm_num) (show (4375:ℕ) ≤ 4531 from by norm_num), acc27, blk28]
    norm_num
  have acc29 : ∑ k ∈ Finset.Ico (0:ℕ) 4688, boundPW (mQ k) = 1566523/500000 := by
    rw [← Finset.sum_Ico_consecutive (fun k => boundPW (mQ k)) (show (0:ℕ) ≤ 4531 from by norm_num) (show (4531:ℕ) ≤ 4688 from by norm_num), acc28, blk29]
    norm_num
  have acc30 : ∑ k ∈ Finset.Ico (0:ℕ) 4844, boundPW (mQ k) = 1651621/500000 := by
    rw [← Finset.sum_Ico_consecutive (fun k => boundPW (mQ k)) (show (0:ℕ) ≤ 4688 from by norm_num) (show (4688:ℕ) ≤ 4844 from by norm_num), acc29, blk30]
    norm_num
  have acc31 : ∑ k ∈ Finset.Ico (0:ℕ) 5000, boundPW (mQ k) = 2779/800 := by
    rw [← Finset.sum_Ico_consecutive (fun k => boundPW (mQ k)) (show (0:ℕ) ≤ 4844 from by norm_num) (show (4844:ℕ) ≤ 5000 from by norm_num), acc30, blk31]
    norm_num
  have acc32 : ∑ k ∈ Finset.Ico (0:ℕ) 5156, boundPW (mQ k) = 1822129/500000 := by
    rw [← Finset.sum_Ico_consecutive (fun k => boundPW (mQ k)) (show (0:ℕ) ≤ 5000 from by norm_num) (show (5000:ℕ) ≤ 5156 from by norm_num), acc31, blk32]
    norm_num
  have acc33 : ∑ k ∈ Finset.Ico (0:ℕ) 5312, boundPW (mQ k) = 1907227/500000 := by
    rw [← Finset.sum_Ico_consecutive (fun k => boundPW (mQ k)) (show (0:ℕ) ≤ 5156 from by norm_num) (show (5156:ℕ) ≤ 5312 from by norm_num), acc32, blk33]
    norm_num
  have acc34 : ∑ k ∈ Finset.Ico (0:ℕ) 5469, boundPW (mQ k) = 3901589/1000000 := by
    rw [← Finset.sum_Ico_consecutive (fun k => boundPW (mQ k)) (show (0:ℕ) ≤ 5312 from by norm_num) (show (5312:ℕ) ≤ 5469 from by norm_num), acc33, blk34]
    norm_num
  have acc35 : ∑ k ∈ Finset.Ico (0:ℕ) 5625, boundPW (mQ k) = 4011881/1000000 := by
    rw [← Finset.sum_Ico_consecutive (fun k => boundPW (mQ k)) (show (0:ℕ) ≤ 5469 from by norm_num) (show (5469:ℕ) ≤ 5625 from by norm_num), acc34, blk35]
    norm_num
  have acc36 : ∑ k ∈ Finset.Ico (0:ℕ) 5781, boundPW (mQ k) = 826369/200000 := by
    rw [← Finset.sum_Ico_consecutive (fun k => boundPW (mQ k)) (show (0:ℕ) ≤ 5625 from by norm_num) (show (5625:ℕ) ≤ 5781 from by norm_num), acc35, blk36]
    norm_num
  have acc37 : ∑ k ∈ Finset.Ico (0:ℕ) 5937, boundPW (mQ k) = 4243697/1000000 := by
    rw [← Finset.sum_Ico_consecutive (fun k => boundPW (mQ k)) (show (0:ℕ) ≤ 5781 from by norm_num) (show (5781:ℕ) ≤ 5937 from by norm_num), acc36, blk37]
    norm_num
  have acc38 : ∑ k ∈ Finset.Ico (0:ℕ) 6094, boundPW (mQ k) = 431419/100000 := by
    rw [← Finset.sum_Ico_consecutive (fun k => boundPW (mQ k)) (show (0:ℕ) ≤ 5937 from by norm_num) (show (5937:ℕ) ≤ 6094 from by norm_num), acc37, blk38]
    norm_num
  have acc39 : ∑ k ∈ Finset.Ico (0:ℕ) 6250, boundPW (mQ k) = 2170901/500000 := by
    rw [← Finset.sum_Ico_consecutive (fun k => boundPW (mQ k)) (show (0:ℕ) ≤ 6094 from by norm_num) (show (6094:ℕ) ≤ 6250 from by norm_num), acc38, blk39]
    norm_num
  have acc40 : ∑ k ∈ Finset.Ico (0:ℕ) 6406, boundPW (mQ k) = 2184707/500000 := by
    rw [← Finset.sum_Ico_consecutive (fun k => boundPW (mQ k)) (show (0:ℕ) ≤ 6250 from by norm_num) (show (6250:ℕ) ≤ 6406 from by norm_num), acc39, blk40]
    norm_num
  have acc41 : ∑ k ∈ Finset.Ico (0:ℕ) 6562, boundPW (mQ k) = 2219729/500000 := by
    rw [← Finset.sum_Ico_consecutive (fun k => boundPW (mQ k)) (show (0:ℕ) ≤ 6406 from by norm_num) (show (6406:ℕ) ≤ 6562 from by norm_num), acc40, blk41]
    norm_num
  have acc42 : ∑ k ∈ Finset.Ico (0:ℕ) 6719, boundPW (mQ k) = 4552027/1000000 := by
    rw [← Finset.sum_Ico_consecutive (fun k => boundPW (mQ k)) (show (0:ℕ) ≤ 6562 from by norm_num) (show (6562:ℕ) ≤ 6719 from by norm_num), acc41, blk42]
    norm_num
  have acc43 : ∑ k ∈ Finset.Ico (0:ℕ) 6875, boundPW (mQ k) = 4671991/1000000 := by
    rw [← Finset.sum_Ico_consecutive (fun k => boundPW (mQ k)) (show (0:ℕ) ≤ 6719 from by norm_num) (show (6719:ℕ) ≤ 6875 from by norm_num), acc42, blk43]
    norm_num
  have acc44 : ∑ k ∈ Finset.Ico (0:ℕ) 7031, boundPW (mQ k) = 4782283/1000000 := by
    rw [← Finset.sum_Ico_consecutive (fun k => boundPW (mQ k)) (show (0:ℕ) ≤ 6875 from by norm_num) (show (6875:ℕ) ≤ 7031 from by norm_num), acc43, blk44]
    norm_num
  have acc45 : ∑ k ∈ Finset.Ico (0:ℕ) 7187, boundPW (mQ k) = 4868863/1000000 := by
    rw [← Finset.sum_Ico_consecutive (fun k => boundPW (mQ k)) (show (0:ℕ) ≤ 7031 from by norm_num) (show (7031:ℕ) ≤ 7187 from by norm_num), acc44, blk45]
    norm_num
  have acc46 : ∑ k ∈ Finset.Ico (0:ℕ) 7344, boundPW (mQ k) = 100803/20000 := by
    rw [← Finset.sum_Ico_consecutive (fun k => boundPW (mQ k)) (show (0:ℕ) ≤ 7187 from by norm_num) (show (7187:ℕ) ≤ 7344 from by norm_num), acc45, blk46]
    norm_num
  have acc47 : ∑ k ∈ Finset.Ico (0:ℕ) 7500, boundPW (mQ k) = 2605329/500000 := by
    rw [← Finset.sum_Ico_consecutive (fun k => boundPW (mQ k)) (show (0:ℕ) ≤ 7344 from by norm_num) (show (7344:ℕ) ≤ 7500 from by norm_num), acc46, blk47]
    norm_num
  have acc48 : ∑ k ∈ Finset.Ico (0:ℕ) 7656, boundPW (mQ k) = 2690583/500000 := by
    rw [← Finset.sum_Ico_consecutive (fun k => boundPW (mQ k)) (show (0:ℕ) ≤ 7500 from by norm_num) (show (7500:ℕ) ≤ 7656 from by norm_num), acc47, blk48]
    norm_num
  have acc49 : ∑ k ∈ Finset.Ico (0:ℕ) 7812, boundPW (mQ k) = 2775681/500000 := by
    rw [← Finset.sum_Ico_consecutive (fun k => boundPW (mQ k)) (show (0:ℕ) ≤ 7656 from by norm_num) (show (7656:ℕ) ≤ 7812 from by norm_num), acc48, blk49]
    norm_num
  have acc50 : ∑ k ∈ Finset.Ico (0:ℕ) 7968, boundPW (mQ k) = 2818971/500000 := by
    rw [← Finset.sum_Ico_consecutive (fun k => boundPW (mQ k)) (show (0:ℕ) ≤ 7812 from by norm_num) (show (7812:ℕ) ≤ 7968 from by norm_num), acc49, blk50]
    norm_num
  have acc51 : ∑ k ∈ Finset.Ico (0:ℕ) 8125, boundPW (mQ k) = 5748941/1000000 := by
    rw [← Finset.sum_Ico_consecutive (fun k => boundPW (mQ k)) (show (0:ℕ) ≤ 7968 from by norm_num) (show (7968:ℕ) ≤ 8125 from by norm_num), acc50, blk51]
    norm_num
  have acc52 : ∑ k ∈ Finset.Ico (0:ℕ) 8281, boundPW (mQ k) = 1173781/200000 := by
    rw [← Finset.sum_Ico_consecutive (fun k => boundPW (mQ k)) (show (0:ℕ) ≤ 8125 from by norm_num) (show (8125:ℕ) ≤ 8281 from by norm_num), acc51, blk52]
    norm_num
  have acc53 : ∑ k ∈ Finset.Ico (0:ℕ) 8437, boundPW (mQ k) = 5980757/1000000 := by
    rw [← Finset.sum_Ico_consecutive (fun k => boundPW (mQ k)) (show (0:ℕ) ≤ 8281 from by norm_num) (show (8281:ℕ) ≤ 8437 from by norm_num), acc52, blk53]
    norm_num
  have acc54 : ∑ k ∈ Finset.Ico (0:ℕ) 8593, boundPW (mQ k) = 6050801/1000000 := by
    rw [← Finset.sum_Ico_consecutive (fun k => boundPW (mQ k)) (show (0:ℕ) ≤ 8437 from by norm_num) (show (8437:ℕ) ≤ 8593 from by norm_num), acc53, blk54]
    norm_num
  have acc55 : ∑ k ∈ Finset.Ico (0:ℕ) 8750, boundPW (mQ k) = 607859/100000 := by
    rw [← Finset.sum_Ico_consecutive (fun k => boundPW (mQ k)) (show (0:ℕ) ≤ 8593 from by norm_num) (show (8593:ℕ) ≤ 8750 from by norm_num), acc54, blk55]
    norm_num
  have acc56 : ∑ k ∈ Finset.Ico (0:ℕ) 8906, boundPW (mQ k) = 3053101/500000 := by
    rw [← Finset.sum_Ico_consecutive (fun k => boundPW (mQ k)) (show (0:ℕ) ≤ 8750 from by norm_num) (show (8750:ℕ) ≤ 8906 from by norm_num), acc55, blk56]
    norm_num
  have acc57 : ∑ k ∈ Finset.Ico (0:ℕ) 9062, boundPW (mQ k) = 3088123/500000 := by
    rw [← Finset.sum_Ico_consecutive (fun k => boundPW (mQ k)) (show (0:ℕ) ≤ 8906 from by norm_num) (show (8906:ℕ) ≤ 9062 from by norm_num), acc56, blk57]
    norm_num
  have acc58 : ∑ k ∈ Finset.Ico (0:ℕ) 9218, boundPW (mQ k) = 3144049/500000 := by
    rw [← Finset.sum_Ico_consecutive (fun k => boundPW (mQ k)) (show (0:ℕ) ≤ 9062 from by norm_num) (show (9062:ℕ) ≤ 9218 from by norm_num), acc57, blk58]
    norm_num
  have acc59 : ∑ k ∈ Finset.Ico (0:ℕ) 9375, boundPW (mQ k) = 6408831/1000000 := by
    rw [← Finset.sum_Ico_consecutive (fun k => boundPW (mQ k)) (show (0:ℕ) ≤ 9218 from by norm_num) (show (9218:ℕ) ≤ 9375 from by norm_num), acc58, blk59]
    norm_num
  have acc60 : ∑ k ∈ Finset.Ico (0:ℕ) 9531, boundPW (mQ k) = 6519123/1000000 := by
    rw [← Finset.sum_Ico_consecutive (fun k => boundPW (mQ k)) (show (0:ℕ) ≤ 9375 from by norm_num) (show (9375:ℕ) ≤ 9531 from by norm_num), acc59, blk60]
    norm_num
  have acc61 : ∑ k ∈ Finset.Ico (0:ℕ) 9687, boundPW (mQ k) = 6605703/1000000 := by
    rw [← Finset.sum_Ico_consecutive (fun k => boundPW (mQ k)) (show (0:ℕ) ≤ 9531 from by norm_num) (show (9531:ℕ) ≤ 9687 from by norm_num), acc60, blk61]
    norm_num
  have acc62 : ∑ k ∈ Finset.Ico (0:ℕ) 9843, boundPW (mQ k) = 6775899/1000000 := by
    rw [← Finset.sum_Ico_consecutive (fun k => boundPW (mQ k)) (show (0:ℕ) ≤ 9687 from by norm_num) (show (9687:ℕ) ≤ 9843 from by norm_num), acc61, blk62]
    norm_num
  have acc63 : ∑ k ∈ Finset.Ico (0:ℕ) 9999, boundPW (mQ k) = 6946407/1000000 := by
    rw [← Finset.sum_Ico_consecutive (fun k => boundPW (mQ k)) (show (0:ℕ) ≤ 9843 from by norm_num) (show (9843:ℕ) ≤ 9999 from by norm_num), acc62, blk63]
    norm_num
  have acc64 : ∑ k ∈ Finset.Ico (0:ℕ) 10000, boundPW (mQ k) = 2779/400 := by
    rw [← Finset.sum_Ico_consecutive (fun k => boundPW (mQ k)) (show (0:ℕ) ≤ 9999 from by norm_num) (show (9999:ℕ) ≤ 10000 from by norm_num), acc63, blk64]
    norm_num
  rw [Finset.range_eq_Ico]
  exact acc64

set_option maxHeartbeats 2000000 in
lemma cosSum_val :
    (∑ k ∈ Finset.range 10000, boundPW (mQc k)) = 2779/400 := by
  have blk0 : ∑ k ∈ Finset.Ico (0:ℕ) 1, boundPW (mQc k) = 1 * (177/1000000) := by
    have he : ∀ k ∈ Finset.Ico (0:ℕ) 1, boundPW (mQc k) = 177/1000000 := by
      intro k hk
      obtain ⟨hk1, hk2⟩ := Finset.mem_Ico.mp hk
      rw [mQc_p0 k (by omega) (by omega), boundPW]
      rw [if_neg (show ¬ ((9999 : ℤ) < 1250) from by omega), if_neg (show ¬ ((9999 : ℤ) < 2500) from by omega), if_neg (show ¬ ((9999 : ℤ) < 3750) from by omega), if_neg (show ¬ ((9999 : ℤ) < 5000) from by omega), if_neg (show ¬ ((9999 : ℤ) < 6250) from by omega), if_neg (show ¬ ((9999 : ℤ) < 7500) from by omega), if_neg (show ¬ ((9999 : ℤ) < 8750) from by omega)]
    rw [Finset.sum_congr rfl he, Finset.sum_const, Nat.card_Ico]
    norm_num
  have blk1 : ∑ k ∈ Finset.Ico (1:ℕ) 157, boundPW (mQc k) = 156 * (177/1000000) := by
    have he : ∀ k ∈ Finset.Ico (1:ℕ) 157, boundPW (mQc k) = 177/1000000 := by
      intro k hk
      obtain ⟨hk1, hk2⟩ := Finset.mem_Ico.mp hk
      rw [mQc_p1 k (by omega) (by omega), boundPW]
      rw [if_neg (show ¬ (9999 - 8*(k:ℤ) < 1250) from by omega), if_neg (show ¬ (9999 - 8*(k:ℤ) < 2500) from by omega), if_neg (show ¬ (9999 - 8*(k:ℤ) < 3750) from by omega), if_neg (show ¬ (9999 - 8*(k:ℤ) < 5000) from by omega), if_neg (show ¬ (9999 - 8*(k:ℤ) < 6250) from by omega), if_neg (show ¬ (9999 - 8*(k:ℤ) < 7500) from by omega), if_neg (show ¬ (9999 - 8*(k:ℤ) < 8750) from by omega)]
    rw [Finset.sum_congr rfl he, Finset.sum_const, Nat.card_Ico]
    norm_num
  have blk2 : ∑ k ∈ Finset.Ico (157:ℕ) 313, boundPW (mQc k) = 156 * (449/1000000) := by
    have he : ∀ k ∈ Finset.Ico (157:ℕ) 313, boundPW (mQc k) = 449/1000000 := by
      intro k hk
      obtain ⟨hk1, hk2⟩ := Finset.mem_Ico.mp hk
      rw [mQc_p1 k (by omega) (by omega), boundPW]
      rw [if_neg (show ¬ (9999 - 8*(k:ℤ) < 1250) from by omega), if_neg (show ¬ (9999 - 8*(k:ℤ) < 2500) from by omega), if_neg (show ¬ (9999 - 8*(k:ℤ) < 3750) from by omega), if_neg (show ¬ (9999 - 8*(k:ℤ) < 5000) from by omega), if_neg (show ¬ (9999 - 8*(k:ℤ) < 6250) from by omega), if_neg (show ¬ (9999 - 8*(k:ℤ) < 7500) from by omega), if_pos (show 9999 - 8*(k:ℤ) < 8750 from by omega)]
    rw [Finset.sum_congr rfl he, Finset.sum_const, Nat.card_Ico]
    norm_num
  have blk3 : ∑ k ∈ Finset.Ico (313:ℕ) 469, boundPW (mQc k) = 156 * (717/1000000) := by
    have he : ∀ k ∈ Finset.Ico (313:ℕ) 469, boundPW (mQc k) = 717/1000000 := by
      intro k hk
      obtain ⟨hk1, hk2⟩ := Finset.mem_Ico.mp hk
      rw [mQc_p1 k (by omega) (by omega), boundPW]
      rw [if_neg (show ¬ (9999 - 8*(k:ℤ) < 1250) from by omega), if_neg (show ¬ (9999 - 8*(k:ℤ) < 2500) from by omega), if_neg (show ¬ (9999 - 8*(k:ℤ) < 3750) from by omega), if_neg (show ¬ (9999 - 8*(k:ℤ) < 5000) from by omega), if_neg (show ¬ (9999 - 8*(k:ℤ) < 6250) from by omega), if_pos (show 9999 - 8*(k:ℤ) < 7500 from by omega)]
    rw [Finset.sum_congr rfl he, Finset.sum_const, Nat.card_Ico]
    norm_num
  have blk4 : ∑ k ∈ Finset.Ico (469:ℕ) 625, boundPW (mQc k) = 156 * (769/1000000) := by
    have he : ∀ k ∈ Finset.Ico (469:ℕ) 625, boundPW (mQc k) = 769/1000000 := by
      intro k hk
      obtain ⟨hk1, hk2⟩ := Finset.mem_Ico.mp hk
      rw [mQc_p1 k (by omega) (by omega), boundPW]
      rw [if_neg (show ¬ (9999 - 8*(k:ℤ) < 1250) from by omega), if_neg (show ¬ (9999 - 8*(k:ℤ) < 2500) from by omega), if_neg (show ¬ (9999 - 8*(k:ℤ) < 3750) from by omega), if_neg (show ¬ (9999 - 8*(k:ℤ) < 5000) from by omega), if_pos (show 9999 - 8*(k:ℤ) < 6250 from by omega)]
    rw [Finset.sum_congr rfl he, Finset.sum_const, Nat.card_Ico]
    norm_num
  have blk5 : ∑ k ∈ Finset.Ico (625:ℕ) 782, boundPW (mQc k) = 157 * (707/1000000) := by
    have he : ∀ k ∈ Finset.Ico (625:ℕ) 782, boundPW (mQc k) = 707/1000000 := by
      intro k hk
      obtain ⟨hk1, hk2⟩ := Finset.mem_Ico.mp hk
      rw [mQc_p1 k (by omega) (by omega), boundPW]
      rw [if_neg (show ¬ (9999 - 8*(k:ℤ) < 1250) from by omega), if_neg (show ¬ (9999 - 8*(k:ℤ) < 2500) from by omega), if_neg (show ¬ (9999 - 8*(k:ℤ) < 3750) from by omega), if_pos (show 9999 - 8*(k:ℤ) < 5000 from by omega)]
    rw [Finset.sum_congr rfl he, Finset.sum_const, Nat.card_Ico]
    norm_num
  have blk6 : ∑ k ∈ Finset.Ico (782:ℕ) 938, boundPW (mQc k) = 156 * (111/200000) := by
    have he : ∀ k ∈ Finset.Ico (782:ℕ) 938, boundPW (mQc k) = 111/200000 := by
      intro k hk
      obtain ⟨hk1, hk2⟩ := Finset.mem_Ico.mp hk
      rw [mQc_p1 k (by omega) (by omega), boundPW]
      rw [if_neg (show ¬ (9999 - 8*(k:ℤ) < 1250) from by omega), if_neg (show ¬ (9999 - 8*(k:ℤ) < 2500) from by omega), if_pos (show 9999 - 8*(k:ℤ) < 3750 from by omega)]
    rw [Finset.sum_congr rfl he, Finset.sum_const, Nat.card_Ico]
    norm_num
  have blk7 : ∑ k ∈ Finset.Ico (938:ℕ) 1094, boundPW (mQc k) = 156 * (1091/1000000) := by
    have he : ∀ k ∈ Finset.Ico (938:ℕ) 1094, boundPW (mQc k) = 1091/1000000 := by
      intro k hk
      obtain ⟨hk1, hk2⟩ := Finset.mem_Ico.mp hk
      rw [mQc_p1 k (by omega) (by omega), boundPW]
      rw [if_neg (show ¬ (9999 - 8*(k:ℤ) < 1250) from by omega), if_pos (show 9999 - 8*(k:ℤ) < 2500 from by omega)]
    rw [Finset.sum_congr rfl he, Finset.sum_const, Nat.card_Ico]
    norm_num
  have blk8 : ∑ k ∈ Finset.Ico (1094:ℕ) 1250, boundPW (mQc k) = 156 * (1093/1000000) := by
    have he : ∀ k ∈ Finset.Ico (1094:ℕ) 1250, boundPW (mQc k) = 1093/1000000 := by
      intro k hk
      obtain ⟨hk1, hk2⟩ := Finset.mem_Ico.mp hk
      rw [mQc_p1 k (by omega) (by omega), boundPW]
      rw [if_pos (show 9999 - 8*(k:ℤ) < 1250 from by omega)]
    rw [Finset.sum_congr rfl he, Finset.sum_const, Nat.card_Ico]
    norm_num
  have blk9 : ∑ k ∈ Finset.Ico (1250:ℕ) 1407, boundPW (mQc k) = 157 * (1093/1000000) := by
    have he : ∀ k ∈ Finset.Ico (1250:ℕ) 1407, boundPW (mQc k) = 1093/1000000 := by
      intro k hk
      obtain ⟨hk1, hk2⟩ := Finset.mem_Ico.mp hk
      rw [mQc_p2 k (by omega) (by omega), boundPW]
      rw [if_pos (show 8*(k:ℤ) - 9999 < 1250 from by omega)]
    rw [Finset.sum_congr rfl he, Finset.sum_const, Nat.card_Ico]
    norm_num
  have blk10 : ∑ k ∈ Finset.Ico (1407:ℕ) 1563, boundPW (mQc k) = 156 * (1091/1000000) := by
    have he : ∀ k ∈ Finset.Ico (1407:ℕ) 1563, boundPW (mQc k) = 1091/1000000 := by
      intro k hk
      obtain ⟨hk1, hk2⟩ := Finset.mem_Ico.mp hk
      rw [mQc_p2 k (by omega) (by omega), boundPW]
      rw [if_neg (show ¬ (8*(k:ℤ) - 9999 < 1250) from by omega), if_pos (show 8*(k:ℤ) - 9999 < 2500 from by omega)]
    rw [Finset.sum_congr rfl he, Finset.sum_const, Nat.card_Ico]
    norm_num
  have blk11 : ∑ k ∈ Finset.Ico (1563:ℕ) 1719, boundPW (mQc k) = 156 * (111/200000) := by
    have he : ∀ k ∈ Finset.Ico (1563:ℕ) 1719, boundPW (mQc k) = 111/200000 := by
      intro k hk
      obtain ⟨hk1, hk2⟩ := Finset.mem_Ico.mp hk
      rw [mQc_p2 k (by omega) (by omega), boundPW]
      rw [if_neg (show ¬ (8*(k:ℤ) - 9999 < 1250) from by omega), if_neg (show ¬ (8*(k:ℤ) - 9999 < 2500) from by omega), if_pos (show 8*(k:ℤ) - 9999 < 3750 from by omega)]
    rw [Finset.sum_congr rfl he, Finset.sum_const, Nat.card_Ico]
    norm_num
  have blk12 : ∑ k ∈ Finset.Ico (1719:ℕ) 1875, boundPW (mQc k) = 156 * (707/1000000) := by
    have he : ∀ k ∈ Finset.Ico (1719:ℕ) 1875, boundPW (mQc k) = 707/1000000 := by
      intro k hk
      obtain ⟨hk1, hk2⟩ := Finset.mem_Ico.mp hk
      rw [mQc_p2 k (by omega) (by omega), boundPW]
      rw [if_neg (show ¬ (8*(k:ℤ) - 9999 < 1250) from by omega), if_neg (show ¬ (8*(k:ℤ) - 9999 < 2500) from by omega), if_neg (show ¬ (8*(k:ℤ) - 9999 < 3750) from by omega), if_pos (show 8*(k:ℤ) - 9999 < 5000 from by omega)]
    rw [Finset.sum_congr rfl he, Finset.sum_const, Nat.card_Ico]
    norm_num
  have blk13 : ∑ k ∈ Finset.Ico (1875:ℕ) 2032, boundPW (mQc k) = 157 * (769/1000000) := by
    have he : ∀ k ∈ Finset.Ico (1875:ℕ) 2032, boundPW (mQc k) = 769/1000000 := by
      intro k hk
      obtain ⟨hk1, hk2⟩ := Finset.mem_Ico.mp hk
      rw [mQc_p2 k (by omega) (by omega), boundPW]
      rw [if_neg (show ¬ (8*(k:ℤ) - 9999 < 1250) from by omega), if_neg (show ¬ (8*(k:ℤ) - 9999 < 2500) from by omega), if_neg (show ¬ (8*(k:ℤ) - 9999 < 3750) from by omega), if_neg (show ¬ (8*(k:ℤ) - 9999 < 5000) from by omega), if_pos (show 8*(k:ℤ) - 9999 < 6250 from by omega)]
    rw [Finset.sum_congr rfl he, Finset.sum_const, Nat.card_Ico]
    norm_num
  have blk14 : ∑ k ∈ Finset.Ico (2032:ℕ) 2188, boundPW (mQc k) = 156 * (717/1000000) := by
    have he : ∀ k ∈ Finset.Ico (2032:ℕ) 2188, boundPW (mQc k) = 717/1000000 := by
      intro k hk
      obtain ⟨hk1, hk2⟩ := Finset.mem_Ico.mp hk
      rw [mQc_p2 k (by omega) (by omega), boundPW]
      rw [if_neg (show ¬ (8*(k:ℤ) - 9999 < 1250) from by omega), if_neg (show ¬ (8*(k:ℤ) - 9999 < 2500) from by omega), if_neg (show ¬ (8*(k:ℤ) - 9999 < 3750) from by omega), if_neg (show ¬ (8*(k:ℤ) - 9999 < 5000) from by omega), if_neg (show ¬ (8*(k:ℤ) - 9999 < 6250) from by omega), if_pos (show 8*(k:ℤ) - 9999 < 7500 from by omega)]
    rw [Finset.sum_congr rfl he, Finset.sum_const, Nat.card_Ico]
    norm_num
  have blk15 : ∑ k ∈ Finset.Ico (2188:ℕ) 2344, boundPW (mQc k) = 156 * (449/1000000) := by
    have he : ∀ k ∈ Finset.Ico (2188:ℕ) 2344, boundPW (mQc k) = 449/1000000 := by
      intro k hk
      obtain ⟨hk1, hk2⟩ := Finset.mem_Ico.mp hk
      rw [mQc_p2 k (by omega) (by omega), boundPW]
      rw [if_neg (show ¬ (8*(k:ℤ) - 9999 < 1250) from by omega), if_neg (show ¬ (8*(k:ℤ) - 9999 < 2500) from by omega), if_neg (show ¬ (8*(k:ℤ) - 9999 < 3750) from by omega), if_neg (show ¬ (8*(k:ℤ) - 9999 < 5000) from by omega), if_neg (show ¬ (8*(k:ℤ) - 9999 < 6250) from by omega), if_neg (show ¬ (8*(k:ℤ) - 9999 < 7500) from by omega), if_pos (show 8*(k:ℤ) - 9999 < 8750 from by omega)]
    rw [Finset.sum_congr rfl he, Finset.sum_const, Nat.card_Ico]
    norm_num
  have blk16 : ∑ k ∈ Finset.Ico (2344:ℕ) 2500, boundPW (mQc k) = 156 * (177/1000000) := by
    have he : ∀ k ∈ Finset.Ico (2344:ℕ) 2500, boundPW (mQc k) = 177/1000000 := by
      intro k hk
      obtain ⟨hk1, hk2⟩ := Finset.mem_Ico.mp hk
      rw [mQc_p2 k (by omega) (by omega), boundPW]
      rw [if_neg (show ¬ (8*(k:ℤ) - 9999 < 1250) from by omega), if_neg (show ¬ (8*(k:ℤ) - 9999 < 2500) from by omega), if_neg (show ¬ (8*(k:ℤ) - 9999 < 3750) from by omega), if_neg (show ¬ (8*(k:ℤ) - 9999 < 5000) from by omega), if_neg (show ¬ (8*(k:ℤ) - 9999 < 6250) from by omega), if_neg (show ¬ (8*(k:ℤ) - 9999 < 7500) from by omega), if_neg (show ¬ (8*(k:ℤ) - 9999 < 8750) from by omega)]
    rw [Finset.sum_congr rfl he, Finset.sum_const, Nat.card_Ico]
    norm_num
  have blk17 : ∑ k ∈ Finset.Ico (2500:ℕ) 2656, boundPW (mQc k) = 156 * (177/1000000) := by
    have he : ∀ k ∈ Finset.Ico (2500:ℕ) 2656, boundPW (mQc k) = 177/1000000 := by
      intro k hk
      obtain ⟨hk1, hk2⟩ := Finset.mem_Ico.mp hk
      rw [mQc_p3 k (by omega) (by omega), boundPW]
      rw [if_neg (show ¬ (29997 - 8*(k:ℤ) < 1250) from by omega), if_neg (show ¬ (29997 - 8*(k:ℤ) < 2500) from by omega), if_neg (show ¬ (29997 - 8*(k:ℤ) < 3750) from by omega), if_neg (show ¬ (29997 - 8*(k:ℤ) < 5000) from by omega), if_neg (show ¬ (29997 - 8*(k:ℤ) < 6250) from by omega), if_neg (show ¬ (29997 - 8*(k:ℤ) < 7500) from by omega), if_neg (show ¬ (29997 - 8*(k:ℤ) < 8750) from by omega)]
    rw [Finset.sum_congr rfl he, Finset.sum_const, Nat.card_Ico]
    norm_num
  have blk18 : ∑ k ∈ Finset.Ico (2656:ℕ) 2813, boundPW (mQc k) = 157 * (449/1000000) := by
    have he : ∀ k ∈ Finset.Ico (2656:ℕ) 2813, boundPW (mQc k) = 449/1000000 := by
      intro k hk
      obtain ⟨hk1, hk2⟩ := Finset.mem_Ico.mp hk
      rw [mQc_p3 k (by omega) (by omega), boundPW]
      rw [if_neg (show ¬ (29997 - 8*(k:ℤ) < 1250) from by omega), if_neg (show ¬ (29997 - 8*(k:ℤ) < 2500) from by omega), if_neg (show ¬ (29997 - 8*(k:ℤ) < 3750) from by omega), if_neg (show ¬ (29997 - 8*(k:ℤ) < 5000) from by omega), if_neg (show ¬ (29997 - 8*(k:ℤ) < 6250) from by omega), if_neg (show ¬ (29997 - 8*(k:ℤ) < 7500) from by omega), if_pos (show 29997 - 8*(k:ℤ) < 8750 from by omega)]
    rw [Finset.sum_congr rfl he, Finset.sum_const, Nat.card_Ico]
    norm_num
  have blk19 : ∑ k ∈ Finset.Ico (2813:ℕ) 2969, boundPW (mQc k) = 156 * (717/1000000) := by
    have he : ∀ k ∈ Finset.Ico (2813:ℕ) 2969, boundPW (mQc k) = 717/1000000 := by
      intro k hk
      obtain ⟨hk1, hk2⟩ := Finset.mem_Ico.mp hk
      rw [mQc_p3 k (by omega) (by omega), boundPW]
      rw [if_neg (show ¬ (29997 - 8*(k:ℤ) < 1250) from by omega), if_neg (show ¬ (29997 - 8*(k:ℤ) < 2500) from by omega), if_neg (show ¬ (29997 - 8*(k:ℤ) < 3750) from by omega), if_neg (show ¬ (29997 - 8*(k:ℤ) < 5000) from by omega), if_neg (show ¬ (29997 - 8*(k:ℤ) < 6250) from by omega), if_pos (show 29997 - 8*(k:ℤ) < 7500 from by omega)]
    rw [Finset.sum_congr rfl he, Finset.sum_const, Nat.card_Ico]
    norm_num
  have blk20 : ∑ k ∈ Finset.Ico (2969:ℕ) 3125, boundPW (mQc k) = 156 * (769/1000000) := by
    have he : ∀ k ∈ Finset.Ico (2969:ℕ) 3125, boundPW (mQc k) = 769/1000000 := by
      intro k hk
      obtain ⟨hk1, hk2⟩ := Finset.mem_Ico.mp hk
      rw [mQc_p3 k (by omega) (by omega), boundPW]
      rw [if_neg (show ¬ (29997 - 8*(k:ℤ) < 1250) from by omega), if_neg (show ¬ (29997 - 8*(k:ℤ) < 2500) from by omega), if_neg (show ¬ (29997 - 8*(k:ℤ) < 3750) from by omega), if_neg (show ¬ (29997 - 8*(k:ℤ) < 5000) from by omega), if_pos (show 29997 - 8*(k:ℤ) < 6250 from by omega)]
    rw [Finset.sum_congr rfl he, Finset.sum_const, Nat.card_Ico]
    norm_num
  have blk21 : ∑ k ∈ Finset.Ico (3125:ℕ) 3281, boundPW (mQc k) = 156 * (707/1000000) := by
    have he : ∀ k ∈ Finset.Ico (3125:ℕ) 3281, boundPW (mQc k) = 707/1000000 := by
      intro k hk
      obtain ⟨hk1, hk2⟩ := Finset.mem_Ico.mp hk
      rw [mQc_p3 k (by omega) (by omega), boundPW]
      rw [if_neg (show ¬ (29997 - 8*(k:ℤ) < 1250) from by omega), if_neg (show ¬ (29997 - 8*(k:ℤ) < 2500) from by omega), if_neg (show ¬ (29997 - 8*(k:ℤ) < 3750) from by omega), if_pos (show 29997 - 8*(k:ℤ) < 5000 from by omega)]
    rw [Finset.sum_congr rfl he, Finset.sum_const, Nat.card_Ico]
    norm_num
  have blk22 : ∑ k ∈ Finset.Ico (3281:ℕ) 3438, boundPW (mQc k) = 157 * (111/200000) := by
    have he : ∀ k ∈ Finset.Ico (3281:ℕ) 3438, boundPW (mQc k) = 111/200000 := by
      intro k hk
      obtain ⟨hk1, hk2⟩ := Finset.mem_Ico.mp hk
      rw [mQc_p3 k (by omega) (by omega), boundPW]
      rw [if_neg (show ¬ (29997 - 8*(k:ℤ) < 1250) from by omega), if_neg (show ¬ (29997 - 8*(k:ℤ) < 2500) from by omega), if_pos (show 29997 - 8*(k:ℤ) < 3750 from by omega)]
    rw [Finset.sum_congr rfl he, Finset.sum_const, Nat.card_Ico]
    norm_num
  have blk23 : ∑ k ∈ Finset.Ico (3438:ℕ) 3594, boundPW (mQc k) = 156 * (1091/1000000) := by
    have he : ∀ k ∈ Finset.Ico (3438:ℕ) 3594, boundPW (mQc k) = 1091/1000000 := by
      intro k hk
      obtain ⟨hk1, hk2⟩ := Finset.mem_Ico.mp hk
      rw [mQc_p3 k (by omega) (by omega), boundPW]
      rw [if_neg (show ¬ (29997 - 8*(k:ℤ) < 1250) from by omega), if_pos (show 29997 - 8*(k:ℤ) < 2500 from by omega)]
    rw [Finset.sum_congr rfl he, Finset.sum_const, Nat.card_Ico]
    norm_num
  have blk24 : ∑ k ∈ Finset.Ico (3594:ℕ) 3750, boundPW (mQc k) = 156 * (1093/1000000) := by
    have he : ∀ k ∈ Finset.Ico (3594:ℕ) 3750, boundPW (mQc k) = 1093/1000000 := by
      intro k hk
      obtain ⟨hk1, hk2⟩ := Finset.mem_Ico.mp hk
      rw [mQc_p3 k (by omega) (by omega), boundPW]
      rw [if_pos (show 29997 - 8*(k:ℤ) < 1250 from by omega)]
    rw [Finset.sum_congr rfl he, Finset.sum_const, Nat.card_Ico]
    norm_num
  have blk25 : ∑ k ∈ Finset.Ico (3750:ℕ) 3906, boundPW (mQc k) = 156 * (1093/1000000) := by
    have he : ∀ k ∈ Finset.Ico (3750:ℕ) 3906, boundPW (mQc k) = 1093/1000000 := by
      intro k hk
      obtain ⟨hk1, hk2⟩ := Finset.mem_Ico.mp hk
      rw [mQc_p4 k (by omega) (by omega), boundPW]
      rw [if_pos (show 8*(k:ℤ) - 29997 < 1250 from by omega)]
    rw [Finset.sum_congr rfl he, Finset.sum_const, Nat.card_Ico]
    norm_num
  have blk26 : ∑ k ∈ Finset.Ico (3906:ℕ) 4063, boundPW (mQc k) = 157 * (1091/1000000) := by
    have he : ∀ k ∈ Finset.Ico (3906:ℕ) 4063, boundPW (mQc k) = 1091/1000000 := by
      intro k hk
      obtain ⟨hk1, hk2⟩ := Finset.mem_Ico.mp hk
      rw [mQc_p4 k (by omega) (by omega), boundPW]
      rw [if_neg (show ¬ (8*(k:ℤ) - 29997 < 1250) from by omega), if_pos (show 8*(k:ℤ) - 29997 < 2500 from by omega)]
    rw [Finset.sum_congr rfl he, Finset.sum_const, Nat.card_Ico]
    norm_num
  have blk27 : ∑ k ∈ Finset.Ico (4063:ℕ) 4219, boundPW (mQc k) = 156 * (111/200000) := by
    have he : ∀ k ∈ Finset.Ico (4063:ℕ) 4219, boundPW (mQc k) = 111/200000 := by
      intro k hk
      obtain ⟨hk1, hk2⟩ := Finset.mem_Ico.mp hk
      rw [mQc_p4 k (by omega) (by omega), boundPW]
      rw [if_neg (show ¬ (8*(k:ℤ) - 29997 < 1250) from by omega), if_neg (show ¬ (8*(k:ℤ) - 29997 < 2500) from by omega), if_pos (show 8*(k:ℤ) - 29997 < 3750 from by omega)]
    rw [Finset.sum_congr rfl he, Finset.sum_const, Nat.card_Ico]
    norm_num
  have blk28 : ∑ k ∈ Finset.Ico (4219:ℕ) 4375, boundPW (mQc k) = 156 * (707/1000000) := by
    have he : ∀ k ∈ Finset.Ico (4219:ℕ) 4375, boundPW (mQc k) = 707/1000000 := by
      intro k hk
      obtain ⟨hk1, hk2⟩ := Finset.mem_Ico.mp hk
      rw [mQc_p4 k (by omega) (by omega), boundPW]
      rw [if_neg (show ¬ (8*(k:ℤ) - 29997 < 1250) from by omega), if_neg (show ¬ (8*(k:ℤ) - 29997 < 2500) from by omega), if_neg (show ¬ (8*(k:ℤ) - 29997 < 3750) from by omega), if_pos (show 8*(k:ℤ) - 29997 < 5000 from by omega)]
    rw [Finset.sum_congr rfl he, Finset.sum_const, Nat.card_Ico]
    norm_num
  have blk29 : ∑ k ∈ Finset.Ico (4375:ℕ) 4531, boundPW (mQc k) = 156 * (769/1000000) := by
    have he : ∀ k ∈ Finset.Ico (4375:ℕ) 4531, boundPW (mQc k) = 769/1000000 := by
      intro k hk
      obtain ⟨hk1, hk2⟩ := Finset.mem_Ico.mp hk
      rw [mQc_p4 k (by omega) (by omega), boundPW]
      rw [if_neg (show ¬ (8*(k:ℤ) - 29997 < 1250) from by omega), if_neg (show ¬ (8*(k:ℤ) - 29997 < 2500) from by omega), if_neg (show ¬ (8*(k:ℤ) - 29997 < 3750) from by omega), if_neg (show ¬ (8*(k:ℤ) - 29997 < 5000) from by omega), if_pos (show 8*(k:ℤ) - 29997 < 6250 from by omega)]
    rw [Finset.sum_congr rfl he, Finset.sum_const, Nat.card_Ico]
    norm_num
  have blk30 : ∑ k ∈ Finset.Ico (4531:ℕ) 4688, boundPW (mQc k) = 157 * (717/1000000) := by
    have he : ∀ k ∈ Finset.Ico (4531:ℕ) 4688, boundPW (mQc k) = 717/1000000 := by
      intro k hk
      obtain ⟨hk1, hk2⟩ := Finset.mem_Ico.mp hk
      rw [mQc_p4 k (by omega) (by omega), boundPW]
      rw [if_neg (show ¬ (8*(k:ℤ) - 29997 < 1250) from by omega), if_neg (show ¬ (8*(k:ℤ) - 29997 < 2500) from by omega), if_neg (show ¬ (8*(k:ℤ) - 29997 < 3750) from by omega), if_neg (show ¬ (8*(k:ℤ) - 29997 < 5000) from by omega), if_neg (show ¬ (8*(k:ℤ) - 29997 < 6250) from by omega), if_pos (show 8*(k:ℤ) - 29997 < 7500 from by omega)]
    rw [Finset.sum_congr rfl he, Finset.sum_const, Nat.card_Ico]
    norm_num
  have blk31 : ∑ k ∈ Finset.Ico (4688:ℕ) 4844, boundPW (mQc k) = 156 * (449/1000000) := by
    have he : ∀ k ∈ Finset.Ico (4688:ℕ) 4844, boundPW (mQc k) = 449/1000000 := by
      intro k hk
      obtain ⟨hk1, hk2⟩ := Finset.mem_Ico.mp hk
      rw [mQc_p4 k (by omega) (by omega), boundPW]
      rw [if_neg (show ¬ (8*(k:ℤ) - 29997 < 1250) from by omega), if_neg (show ¬ (8*(k:ℤ) - 29997 < 2500) from by omega), if_neg (show ¬ (8*(k:ℤ) - 29997 < 3750) from by omega), if_neg (show ¬ (8*(k:ℤ) - 29997 < 5000) from by omega), if_neg (show ¬ (8*(k:ℤ) - 29997 < 6250) from by omega), if_neg (show ¬ (8*(k:ℤ) - 29997 < 7500) from by omega), if_pos (show 8*(k:ℤ) - 29997 < 8750 from by omega)]
    rw [Finset.sum_congr rfl he, Finset.sum_const, Nat.card_Ico]
    norm_num
  have blk32 : ∑ k ∈ Finset.Ico (4844:ℕ) 5000, boundPW (mQc k) = 156 * (177/1000000) := by
    have he : ∀ k ∈ Finset.Ico (4844:ℕ) 5000, boundPW (mQc k) = 177/1000000 := by
      intro k hk
      obtain ⟨hk1, hk2⟩ := Finset.mem_Ico.mp hk
      rw [mQc_p4 k (by omega) (by omega), boundPW]
      rw [if_neg (show ¬ (8*(k:ℤ) - 29997 < 1250) from by omega), if_neg (show ¬ (8*(k:ℤ) - 29997 < 2500) from by omega), if_neg (show ¬ (8*(k:ℤ) - 29997 < 3750) from by omega), if_neg (show ¬ (8*(k:ℤ) - 29997 < 5000) from by omega), if_neg (show ¬ (8*(k:ℤ) - 29997 < 6250) from by omega), if_neg (show ¬ (8*(k:ℤ) - 29997 < 7500) from by omega), if_neg (show ¬ (8*(k:ℤ) - 29997 < 8750) from by omega)]
    rw [Finset.sum_congr rfl he, Finset.sum_const, Nat.card_Ico]
    norm_num
  have blk33 : ∑ k ∈ Finset.Ico (5000:ℕ) 5156, boundPW (mQc k) = 156 * (177/1000000) := by
    have he : ∀ k ∈ Finset.Ico (5000:ℕ) 5156, boundPW (mQc k) = 177/1000000 := by
      intro k hk
      obtain ⟨hk1, hk2⟩ := Finset.mem_Ico.mp hk
      rw [mQc_p5 k (by omega) (by omega), boundPW]
      rw [if_neg (show ¬ (49995 - 8*(k:ℤ) < 1250) from by omega), if_neg (show ¬ (49995 - 8*(k:ℤ) < 2500) from by omega), if_neg (show ¬ (49995 - 8*(k:ℤ) < 3750) from by omega), if_neg (show ¬ (49995 - 8*(k:ℤ) < 5000) from by omega), if_neg (show ¬ (49995 - 8*(k:ℤ) < 6250) from by omega), if_neg (show ¬ (49995 - 8*(k:ℤ) < 7500) from by omega), if_neg (show ¬ (49995 - 8*(k:ℤ) < 8750) from by omega)]
    rw [Finset.sum_congr rfl he, Finset.sum_const, Nat.card_Ico]
    norm_num
  have blk34 : ∑ k ∈ Finset.Ico (5156:ℕ) 5312, boundPW (mQc k) = 156 * (449/1000000) := by
    have he : ∀ k ∈ Finset.Ico (5156:ℕ) 5312, boundPW (mQc k) = 449/1000000 := by
      intro k hk
      obtain ⟨hk1, hk2⟩ := Finset.mem_Ico.mp hk
      rw [mQc_p5 k (by omega) (by omega), boundPW]
      rw [if_neg (show ¬ (49995 - 8*(k:ℤ) < 1250) from by omega), if_neg (show ¬ (49995 - 8*(k:ℤ) < 2500) from by omega), if_neg (show ¬ (49995 - 8*(k:ℤ) < 3750) from by omega), if_neg (show ¬ (49995 - 8*(k:ℤ) < 5000) from by omega), if_neg (show ¬ (49995 - 8*(k:ℤ) < 6250) from by omega), if_neg (show ¬ (49995 - 8*(k:ℤ) < 7500) from by omega), if_pos (show 49995 - 8*(k:ℤ) < 8750 from by omega)]
    rw [Finset.sum_congr rfl he, Finset.sum_const, Nat.card_Ico]
    norm_num
  have blk35 : ∑ k ∈ Finset.Ico (5312:ℕ) 5469, boundPW (mQc k) = 157 * (717/1000000) := by
    have he : ∀ k ∈ Finset.Ico (5312:ℕ) 5469, boundPW (mQc k) = 717/1000000 := by
      intro k hk
      obtain ⟨hk1, hk2⟩ := Finset.mem_Ico.mp hk
      rw [mQc_p5 k (by omega) (by omega), boundPW]
      rw [if_neg (show ¬ (49995 - 8*(k:ℤ) < 1250) from by omega), if_neg (show ¬ (49995 - 8*(k:ℤ) < 2500) from by omega), if_neg (show ¬ (49995 - 8*(k:ℤ) < 3750) from by omega), if_neg (show ¬ (49995 - 8*(k:ℤ) < 5000) from by omega), if_neg (show ¬ (49995 - 8*(k:ℤ) < 6250) from by omega), if_pos (show 49995 - 8*(k:ℤ) < 7500 from by omega)]
    rw [Finset.sum_congr rfl he, Finset.sum_const, Nat.card_Ico]
    norm_num
  have blk36 : ∑ k ∈ Finset.Ico (5469:ℕ) 5625, boundPW (mQc k) = 156 * (769/1000000) := by
    have he : ∀ k ∈ Finset.Ico (5469:ℕ) 5625, boundPW (mQc k) = 769/1000000 := by
      intro k hk
      obtain ⟨hk1, hk2⟩ := Finset.mem_Ico.mp hk
      rw [mQc_p5 k (by omega) (by omega), boundPW]
      rw [if_neg (show ¬ (49995 - 8*(k:ℤ) < 1250) from by omega), if_neg (show ¬ (49995 - 8*(k:ℤ) < 2500) from by omega), if_neg (show ¬ (49995 - 8*(k:ℤ) < 3750) from by omega), if_neg (show ¬ (49995 - 8*(k:ℤ) < 5000) from by omega), if_pos (show 49995 - 8*(k:ℤ) < 6250 from by omega)]
    rw [Finset.sum_congr rfl he, Finset.sum_const, Nat.card_Ico]
    norm_num
  have blk37 : ∑ k ∈ Finset.Ico (5625:ℕ) 5781, boundPW (mQc k) = 156 * (707/1000000) := by
    have he : ∀ k ∈ Finset.Ico (5625:ℕ) 5781, boundPW (mQc k) = 707/1000000 := by
      intro k hk
      obtain ⟨hk1, hk2⟩ := Finset.mem_Ico.mp hk
      rw [mQc_p5 k (by omega) (by omega), boundPW]
      rw [if_neg (show ¬ (49995 - 8*(k:ℤ) < 1250) from by omega), if_neg (show ¬ (49995 - 8*(k:ℤ) < 2500) from by omega), if_neg (show ¬ (49995 - 8*(k:ℤ) < 3750) from by omega), if_pos (show 49995 - 8*(k:ℤ) < 5000 from by omega)]
    rw [Finset.sum_congr rfl he, Finset.sum_const, Nat.card_Ico]
    norm_num
  have blk38 : ∑ k ∈ Finset.Ico (5781:ℕ) 5937, boundPW (mQc k) = 156 * (111/200000) := by
    have he : ∀ k ∈ Finset.Ico (5781:ℕ) 5937, boundPW (mQc k) = 111/200000 := by
      intro k hk
      obtain ⟨hk1, hk2⟩ := Finset.mem_Ico.mp hk
      rw [mQc_p5 k (by omega) (by omega), boundPW]
      rw [if_neg (show ¬ (49995 - 8*(k:ℤ) < 1250) from by omega), if_neg (show ¬ (49995 - 8*(k:ℤ) < 2500) from by omega), if_pos (show 49995 - 8*(k:ℤ) < 3750 from by omega)]
    rw [Finset.sum_congr rfl he, Finset.sum_const, Nat.card_Ico]
    norm_num
  have blk39 : ∑ k ∈ Finset.Ico (5937:ℕ) 6094, boundPW (mQc k) = 157 * (1091/1000000) := by
    have he : ∀ k ∈ Finset.Ico (5937:ℕ) 6094, boundPW (mQc k) = 1091/1000000 := by
      intro k hk
      obtain ⟨hk1, hk2⟩ := Finset.mem_Ico.mp hk
      rw [mQc_p5 k (by omega) (by omega), boundPW]
      rw [if_neg (show ¬ (49995 - 8*(k:ℤ) < 1250) from by omega), if_pos (show 49995 - 8*(k:ℤ) < 2500 from by omega)]
    rw [Finset.sum_congr rfl he, Finset.sum_const, Nat.card_Ico]
    norm_num
  have blk40 : ∑ k ∈ Finset.Ico (6094:ℕ) 6250, boundPW (mQc k) = 156 * (1093/1000000) := by
    have he : ∀ k ∈ Finset.Ico (6094:ℕ) 6250, boundPW (mQc k) = 1093/1000000 := by
      intro k hk
      obtain ⟨hk1, hk2⟩ := Finset.mem_Ico.mp hk
      rw [mQc_p5 k (by omega) (by omega), boundPW]
      rw [if_pos (show 49995 - 8*(k:ℤ) < 1250 from by omega)]
    rw [Finset.sum_congr rfl he, Finset.sum_const, Nat.card_Ico]
    norm_num
  have blk41 : ∑ k ∈ Finset.Ico (6250:ℕ) 6406, boundPW (mQc k) = 156 * (1093/1000000) := by
    have he : ∀ k ∈ Finset.Ico (6250:ℕ) 6406, boundPW (mQc k) = 1093/1000000 := by
      intro k hk
      obtain ⟨hk1, hk2⟩ := Finset.mem_Ico.mp hk
      rw [mQc_p6 k (by omega) (by omega), boundPW]
      rw [if_pos (show 8*(k:ℤ) - 49995 < 1250 from by omega)]
    rw [Finset.sum_congr rfl he, Finset.sum_const, Nat.card_Ico]
    norm_num
  have blk42 : ∑ k ∈ Finset.Ico (6406:ℕ) 6562, boundPW (mQc k) = 156 * (1091/1000000) := by
    have he : ∀ k ∈ Finset.Ico (6406:ℕ) 6562, boundPW (mQc k) = 1091/1000000 := by
      intro k hk
      obtain ⟨hk1, hk2⟩ := Finset.mem_Ico.mp hk
      rw [mQc_p6 k (by omega) (by omega), boundPW]
      rw [if_neg (show ¬ (8*(k:ℤ) - 49995 < 1250) from by omega), if_pos (show 8*(k:ℤ) - 49995 < 2500 from by omega)]
    rw [Finset.sum_congr rfl he, Finset.sum_const, Nat.card_Ico]
    norm_num
  have blk43 : ∑ k ∈ Finset.Ico (6562:ℕ) 6719, boundPW (mQc k) = 157 * (111/200000) := by
    have he : ∀ k ∈ Finset.Ico (6562:ℕ) 6719, boundPW (mQc k) = 111/200000 := by
      intro k hk
      obtain ⟨hk1, hk2⟩ := Finset.mem_Ico.mp hk
      rw [mQc_p6 k (by omega) (by omega), boundPW]
      rw [if_neg (show ¬ (8*(k:ℤ) - 49995 < 1250) from by omega), if_neg (show ¬ (8*(k:ℤ) - 49995 < 2500) from by omega), if_pos (show 8*(k:ℤ) - 49995 < 3750 from by omega)]
    rw [Finset.sum_congr rfl he, Finset.sum_const, Nat.card_Ico]
    norm_num
  have blk44 : ∑ k ∈ Finset.Ico (6719:ℕ) 6875, boundPW (mQc k) = 156 * (707/1000000) := by
    have he : ∀ k ∈ Finset.Ico (6719:ℕ) 6875, boundPW (mQc k) = 707/1000000 := by
      intro k hk
      obtain ⟨hk1, hk2⟩ := Finset.mem_Ico.mp hk
      rw [mQc_p6 k (by omega) (by omega), boundPW]
      rw [if_neg (show ¬ (8*(k:ℤ) - 49995 < 1250) from by omega), if_neg (show ¬ (8*(k:ℤ) - 49995 < 2500) from by omega), if_neg (show ¬ (8*(k:ℤ) - 49995 < 3750) from by omega), if_pos (show 8*(k:ℤ) - 49995 < 5000 from by omega)]
    rw [Finset.sum_congr rfl he, Finset.sum_const, Nat.card_Ico]
    norm_num
  have blk45 : ∑ k ∈ Finset.Ico (6875:ℕ) 7031, boundPW (mQc k) = 156 * (769/1000000) := by
    have he : ∀ k ∈ Finset.Ico (6875:ℕ) 7031, boundPW (mQc k) = 769/1000000 := by
      intro k hk
      obtain ⟨hk1, hk2⟩ := Finset.mem_Ico.mp hk
      rw [mQc_p6 k (by omega) (by omega), boundPW]
      rw [if_neg (show ¬ (8*(k:ℤ) - 49995 < 1250) from by omega), if_neg (show ¬ (8*(k:ℤ) - 49995 < 2500) from by omega), if_neg (show ¬ (8*(k:ℤ) - 49995 < 3750) from by omega), if_neg (show ¬ (8*(k:ℤ) - 49995 < 5000) from by omega), if_pos (show 8*(k:ℤ) - 49995 < 6250 from by omega)]
    rw [Finset.sum_congr rfl he, Finset.sum_const, Nat.card_Ico]
    norm_num
  have blk46 : ∑ k ∈ Finset.Ico (7031:ℕ) 7187, boundPW (mQc k) = 156 * (717/1000000) := by
    have he : ∀ k ∈ Finset.Ico (7031:ℕ) 7187, boundPW (mQc k) = 717/1000000 := by
      intro k hk
      obtain ⟨hk1, hk2⟩ := Finset.mem_Ico.mp hk
      rw [mQc_p6 k (by omega) (by omega), boundPW]
      rw [if_neg (show ¬ (8*(k:ℤ) - 49995 < 1250) from by omega), if_neg (show ¬ (8*(k:ℤ) - 49995 < 2500) from by omega), if_neg (show ¬ (8*(k:ℤ) - 49995 < 3750) from by omega), if_neg (show ¬ (8*(k:ℤ) - 49995 < 5000) from by omega), if_neg (show ¬ (8*(k:ℤ) - 49995 < 6250) from by omega), if_pos (show 8*(k:ℤ) - 49995 < 7500 from by omega)]
    rw [Finset.sum_congr rfl he, Finset.sum_const, Nat.card_Ico]
    norm_num
  have blk47 : ∑ k ∈ Finset.Ico (7187:ℕ) 7344, boundPW (mQc k) = 157 * (449/1000000) := by
    have he : ∀ k ∈ Finset.Ico (7187:ℕ) 7344, boundPW (mQc k) = 449/1000000 := by
      intro k hk
      obtain ⟨hk1, hk2⟩ := Finset.mem_Ico.mp hk
      rw [mQc_p6 k (by omega) (by omega), boundPW]
      rw [if_neg (show ¬ (8*(k:ℤ) - 49995 < 1250) from by omega), if_neg (show ¬ (8*(k:ℤ) - 49995 < 2500) from by omega), if_neg (show ¬ (8*(k:ℤ) - 49995 < 3750) from by omega), if_neg (show ¬ (8*(k:ℤ) - 49995 < 5000) from by omega), if_neg (show ¬ (8*(k:ℤ) - 49995 < 6250) from by omega), if_neg (show ¬ (8*(k:ℤ) - 49995 < 7500) from by omega), if_pos (show 8*(k:ℤ) - 49995 < 8750 from by omega)]
    rw [Finset.sum_congr rfl he, Finset.sum_const, Nat.card_Ico]
    norm_num
  have blk48 : ∑ k ∈ Finset.Ico (7344:ℕ) 7500, boundPW (mQc k) = 156 * (177/1000000) := by
    have he : ∀ k ∈ Finset.Ico (7344:ℕ) 7500, boundPW (mQc k) = 177/1000000 := by
      intro k hk
      obtain ⟨hk1, hk2⟩ := Finset.mem_Ico.mp hk
      rw [mQc_p6 k (by omega) (by omega), boundPW]
      rw [if_neg (show ¬ (8*(k:ℤ) - 49995 < 1250) from by omega), if_neg (show ¬ (8*(k:ℤ) - 49995 < 2500) from by omega), if_neg (show ¬ (8*(k:ℤ) - 49995 < 3750) from by omega), if_neg (show ¬ (8*(k:ℤ) - 49995 < 5000) from by omega), if_neg (show ¬ (8*(k:ℤ) - 49995 < 6250) from by omega), if_neg (show ¬ (8*(k:ℤ) - 49995 < 7500) from by omega), if_neg (show ¬ (8*(k:ℤ) - 49995 < 8750) from by omega)]
    rw [Finset.sum_congr rfl he, Finset.sum_const, Nat.card_Ico]
    norm_num
  have blk49 : ∑ k ∈ Finset.Ico (7500:ℕ) 7656, boundPW (mQc k) = 156 * (177/1000000) := by
    have he : ∀ k ∈ Finset.Ico (7500:ℕ) 7656, boundPW (mQc k) = 177/1000000 := by
      intro k hk
      obtain ⟨hk1, hk2⟩ := Finset.mem_Ico.mp hk
      rw [mQc_p7 k (by omega) (by omega), boundPW]
      rw [if_neg (show ¬ (69993 - 8*(k:ℤ) < 1250) from by omega), if_neg (show ¬ (69993 - 8*(k:ℤ) < 2500) from by omega), if_neg (show ¬ (69993 - 8*(k:ℤ) < 3750) from by omega), if_neg (show ¬ (69993 - 8*(k:ℤ) < 5000) from by omega), if_neg (show ¬ (69993 - 8*(k:ℤ) < 6250) from by omega), if_neg (show ¬ (69993 - 8*(k:ℤ) < 7500) from by omega), if_neg (show ¬ (69993 - 8*(k:ℤ) < 8750) from by omega)]
    rw [Finset.sum_congr rfl he, Finset.sum_const, Nat.card_Ico]
    norm_num
  have blk50 : ∑ k ∈ Finset.Ico (7656:ℕ) 7812, boundPW (mQc k) = 156 * (449/1000000) := by
    have he : ∀ k ∈ Finset.Ico (7656:ℕ) 7812, boundPW (mQc k) = 449/1000000 := by
      intro k hk
      obtain ⟨hk1, hk2⟩ := Finset.mem_Ico.mp hk
      rw [mQc_p7 k (by omega) (by omega), boundPW]
      rw [if_neg (show ¬ (69993 - 8*(k:ℤ) < 1250) from by omega), if_neg (show ¬ (69993 - 8*(k:ℤ) < 2500) from by omega), if_neg (show ¬ (69993 - 8*(k:ℤ) < 3750) from by omega), if_neg (show ¬ (69993 - 8*(k:ℤ) < 5000) from by omega), if_neg (show ¬ (69993 - 8*(k:ℤ) < 6250) from by omega), if_neg (show ¬ (69993 - 8*(k:ℤ) < 7500) from by omega), if_pos (show 69993 - 8*(k:ℤ) < 8750 from by omega)]
    rw [Finset.sum_congr rfl he, Finset.sum_const, Nat.card_Ico]
    norm_num
  have blk51 : ∑ k ∈ Finset.Ico (7812:ℕ) 7968, boundPW (mQc k) = 156 * (717/1000000) := by
    have he : ∀ k ∈ Finset.Ico (7812:ℕ) 7968, boundPW (mQc k) = 717/1000000 := by
      intro k hk
      obtain ⟨hk1, hk2⟩ := Finset.mem_Ico.mp hk
      rw [mQc_p7 k (by omega) (by omega), boundPW]
      rw [if_neg (show ¬ (69993 - 8*(k:ℤ) < 1250) from by omega), if_neg (show ¬ (69993 - 8*(k:ℤ) < 2500) from by omega), if_neg (show ¬ (69993 - 8*(k:ℤ) < 3750) from by omega), if_neg (show ¬ (69993 - 8*(k:ℤ) < 5000) from by omega), if_neg (show ¬ (69993 - 8*(k:ℤ) < 6250) from by omega), if_pos (show 69993 - 8*(k:ℤ) < 7500 from by omega)]
    rw [Finset.sum_congr rfl he, Finset.sum_const, Nat.card_Ico]
    norm_num
  have blk52 : ∑ k ∈ Finset.Ico (7968:ℕ) 8125, boundPW (mQc k) = 157 * (769/1000000) := by
    have he : ∀ k ∈ Finset.Ico (7968:ℕ) 8125, boundPW (mQc k) = 769/1000000 := by
      intro k hk
      obtain ⟨hk1, hk2⟩ := Finset.mem_Ico.mp hk
      rw [mQc_p7 k (by omega) (by omega), boundPW]
      rw [if_neg (show ¬ (69993 - 8*(k:ℤ) < 1250) from by omega), if_neg (show ¬ (69993 - 8*(k:ℤ) < 2500) from by omega), if_neg (show ¬ (69993 - 8*(k:ℤ) < 3750) from by omega), if_neg (show ¬ (69993 - 8*(k:ℤ) < 5000) from by omega), if_pos (show 69993 - 8*(k:ℤ) < 6250 from by omega)]
    rw [Finset.sum_congr rfl he, Finset.sum_const, Nat.card_Ico]
    norm_num
  have blk53 : ∑ k ∈ Finset.Ico (8125:ℕ) 8281, boundPW (mQc k) = 156 * (707/1000000) := by
    have he : ∀ k ∈ Finset.Ico (8125:ℕ) 8281, boundPW (mQc k) = 707/1000000 := by
      intro k hk
      obtain ⟨hk1, hk2⟩ := Finset.mem_Ico.mp hk
      rw [mQc_p7 k (by omega) (by omega), boundPW]
      rw [if_neg (show ¬ (69993 - 8*(k:ℤ) < 1250) from by omega), if_neg (show ¬ (69993 - 8*(k:ℤ) < 2500) from by omega), if_neg (show ¬ (69993 - 8*(k:ℤ) < 3750) from by omega), if_pos (show 69993 - 8*(k:ℤ) < 5000 from by omega)]
    rw [Finset.sum_congr rfl he, Finset.sum_const, Nat.card_Ico]
    norm_num
  have blk54 : ∑ k ∈ Finset.Ico (8281:ℕ) 8437, boundPW (mQc k) = 156 * (111/200000) := by
    have he : ∀ k ∈ Finset.Ico (8281:ℕ) 8437, boundPW (mQc k) = 111/200000 := by
      intro k hk
      obtain ⟨hk1, hk2⟩ := Finset.mem_Ico.mp hk
      rw [mQc_p7 k (by omega) (by omega), boundPW]
      rw [if_neg (show ¬ (69993 - 8*(k:ℤ) < 1250) from by omega), if_neg (show ¬ (69993 - 8*(k:ℤ) < 2500) from by omega), if_pos (show 69993 - 8*(k:ℤ) < 3750 from by omega)]
    rw [Finset.sum_congr rfl he, Finset.sum_const, Nat.card_Ico]
    norm_num
  have blk55 : ∑ k ∈ Finset.Ico (8437:ℕ) 8593, boundPW (mQc k) = 156 * (1091/1000000) := by
    have he : ∀ k ∈ Finset.Ico (8437:ℕ) 8593, boundPW (mQc k) = 1091/1000000 := by
      intro k hk
      obtain ⟨hk1, hk2⟩ := Finset.mem_Ico.mp hk
      rw [mQc_p7 k (by omega) (by omega), boundPW]
      rw [if_neg (show ¬ (69993 - 8*(k:ℤ) < 1250) from by omega), if_pos (show 69993 - 8*(k:ℤ) < 2500 from by omega)]
    rw [Finset.sum_congr rfl he, Finset.sum_const, Nat.card_Ico]
    norm_num
  have blk56 : ∑ k ∈ Finset.Ico (8593:ℕ) 8750, boundPW (mQc k) = 157 * (1093/1000000) := by
    have he : ∀ k ∈ Finset.Ico (8593:ℕ) 8750, boundPW (mQc k) = 1093/1000000 := by
      intro k hk
      obtain ⟨hk1, hk2⟩ := Finset.mem_Ico.mp hk
      rw [mQc_p7 k (by omega) (by omega), boundPW]
      rw [if_pos (show 69993 - 8*(k:ℤ) < 1250 from by omega)]
    rw [Finset.sum_congr rfl he, Finset.sum_const, Nat.card_Ico]
    norm_num
  have blk57 : ∑ k ∈ Finset.Ico (8750:ℕ) 8906, boundPW (mQc k) = 156 * (1093/1000000) := by
    have he : ∀ k ∈ Finset.Ico (8750:ℕ) 8906, boundPW (mQc k) = 1093/1000000 := by
      intro k hk
      obtain ⟨hk1, hk2⟩ := Finset.mem_Ico.mp hk
      rw [mQc_p8 k (by omega) (by omega), boundPW]
      rw [if_pos (show 8*(k:ℤ) - 69993 < 1250 from by omega)]
    rw [Finset.sum_congr rfl he, Finset.sum_const, Nat.card_Ico]
    norm_num
  have blk58 : ∑ k ∈ Finset.Ico (8906:ℕ) 9062, boundPW (mQc k) = 156 * (1091/1000000) := by
    have he : ∀ k ∈ Finset.Ico (8906:ℕ) 9062, boundPW (mQc k) = 1091/1000000 := by
      intro k hk
      obtain ⟨hk1, hk2⟩ := Finset.mem_Ico.mp hk
      rw [mQc_p8 k (by omega) (by omega), boundPW]
      rw [if_neg (show ¬ (8*(k:ℤ) - 69993 < 1250) from by omega), if_pos (show 8*(k:ℤ) - 69993 < 2500 from by omega)]
    rw [Finset.sum_congr rfl he, Finset.sum_const, Nat.card_Ico]
    norm_num
  have blk59 : ∑ k ∈ Finset.Ico (9062:ℕ) 9218, boundPW (mQc k) = 156 * (111/200000) := by
    have he : ∀ k ∈ Finset.Ico (9062:ℕ) 9218, boundPW (mQc k) = 111/200000 := by
      intro k hk
      obtain ⟨hk1, hk2⟩ := Finset.mem_Ico.mp hk
      rw [mQc_p8 k (by omega) (by omega), boundPW]
      rw [if_neg (show ¬ (8*(k:ℤ) - 69993 < 1250) from by omega), if_neg (show ¬ (8*(k:ℤ) - 69993 < 2500) from by omega), if_pos (show 8*(k:ℤ) - 69993 < 3750 from by omega)]
    rw [Finset.sum_congr rfl he, Finset.sum_const, Nat.card_Ico]
    norm_num
  have blk60 : ∑ k ∈ Finset.Ico (9218:ℕ) 9375, boundPW (mQc k) = 157 * (707/1000000) := by
    have he : ∀ k ∈ Finset.Ico (9218:ℕ) 9375, boundPW (mQc k) = 707/1000000 := by
      intro k hk
      obtain ⟨hk1, hk2⟩ := Finset.mem_Ico.mp hk
      rw [mQc_p8 k (by omega) (by omega), boundPW]
      rw [if_neg (show ¬ (8*(k:ℤ) - 69993 < 1250) from by omega), if_neg (show ¬ (8*(k:ℤ) - 69993 < 2500) from by omega), if_neg (show ¬ (8*(k:ℤ) - 69993 < 3750) from by omega), if_pos (show 8*(k:ℤ) - 69993 < 5000 from by omega)]
    rw [Finset.sum_congr rfl he, Finset.sum_const, Nat.card_Ico]
    norm_num
  have blk61 : ∑ k ∈ Finset.Ico (9375:ℕ) 9531, boundPW (mQc k) = 156 * (769/1000000) := by
    have he : ∀ k ∈ Finset.Ico (9375:ℕ) 9531, boundPW (mQc k) = 769/1000000 := by
      intro k hk
      obtain ⟨hk1, hk2⟩ := Finset.mem_Ico.mp hk
      rw [mQc_p8 k (by omega) (by omega), boundPW]
      rw [if_neg (show ¬ (8*(k:ℤ) - 69993 < 1250) from by omega), if_neg (show ¬ (8*(k:ℤ) - 69993 < 2500) from by omega), if_neg (show ¬ (8*(k:ℤ) - 69993 < 3750) from by omega), if_neg (show ¬ (8*(k:ℤ) - 69993 < 5000) from by omega), if_pos (show 8*(k:ℤ) - 69993 < 6250 from by omega)]
    rw [Finset.sum_congr rfl he, Finset.sum_const, Nat.card_Ico]
    norm_num
  have blk62 : ∑ k ∈ Finset.Ico (9531:ℕ) 9687, boundPW (mQc k) = 156 * (717/1000000) := by
    have he : ∀ k ∈ Finset.Ico (9531:ℕ) 9687, boundPW (mQc k) = 717/1000000 := by
      intro k hk
      obtain ⟨hk1, hk2⟩ := Finset.mem_Ico.mp hk
      rw [mQc_p8 k (by omega) (by omega), boundPW]
      rw [if_neg (show ¬ (8*(k:ℤ) - 69993 < 1250) from by omega), if_neg (show ¬ (8*(k:ℤ) - 69993 < 2500) from by omega), if_neg (show ¬ (8*(k:ℤ) - 69993 < 3750) from by omega), if_neg (show ¬ (8*(k:ℤ) - 69993 < 5000) from by omega), if_neg (show ¬ (8*(k:ℤ) - 69993 < 6250) from by omega), if_pos (show 8*(k:ℤ) - 69993 < 7500 from by omega)]
    rw [Finset.sum_congr rfl he, Finset.sum_const, Nat.card_Ico]
    norm_num
  have blk63 : ∑ k ∈ Finset.Ico (9687:ℕ) 9843, boundPW (mQc k) = 156 * (449/1000000) := by
    have he : ∀ k ∈ Finset.Ico (9687:ℕ) 9843, boundPW (mQc k) = 449/1000000 := by
      intro k hk
      obtain ⟨hk1, hk2⟩ := Finset.mem_Ico.mp hk
      rw [mQc_p8 k (by omega) (by omega), boundPW]
      rw [if_neg (show ¬ (8*(k:ℤ) - 69993 < 1250) from by omega), if_neg (show ¬ (8*(k:ℤ) - 69993 < 2500) from by omega), if_neg (show ¬ (8*(k:ℤ) - 69993 < 3750) from by omega), if_neg (show ¬ (8*(k:ℤ) - 69993 < 5000) from by omega), if_neg (show ¬ (8*(k:ℤ) - 69993 < 6250) from by omega), if_neg (show ¬ (8*(k:ℤ) - 69993 < 7500) from by omega), if_pos (show 8*(k:ℤ) - 69993 < 8750 from by omega)]
    rw [Finset.sum_congr rfl he, Finset.sum_const, Nat.card_Ico]
    norm_num
  have blk64 : ∑ k ∈ Finset.Ico (9843:ℕ) 10000, boundPW (mQc k) = 157 * (177/1000000) := by
    have he : ∀ k ∈ Finset.Ico (9843:ℕ) 10000, boundPW (mQc k) = 177/1000000 := by
      intro k hk
      obtain ⟨hk1, hk2⟩ := Finset.mem_Ico.mp hk
      rw [mQc_p8 k (by omega) (by omega), boundPW]
      rw [if_neg (show ¬ (8*(k:ℤ) - 69993 < 1250) from by omega), if_neg (show ¬ (8*(k:ℤ) - 69993 < 2500) from by omega), if_neg (show ¬ (8*(k:ℤ) - 69993 < 3750) from by omega), if_neg (show ¬ (8*(k:ℤ) - 69993 < 5000) from by omega), if_neg (show ¬ (8*(k:ℤ) - 69993 < 6250) from by omega), if_neg (show ¬ (8*(k:ℤ) - 69993 < 7500) from by omega), if_neg (show ¬ (8*(k:ℤ) - 69993 < 8750) from by omega)]
    rw [Finset.sum_congr rfl he, Finset.sum_const, Nat.card_Ico]
    norm_num
  have acc0 : ∑ k ∈ Finset.Ico (0:ℕ) 1, boundPW (mQc k) = 177/1000000 := by
    rw [blk0]
    norm_num
  have acc1 : ∑ k ∈ Finset.Ico (0:ℕ) 157, boundPW (mQc k) = 27789/1000000 := by
    rw [← Finset.sum_Ico_consecutive (fun k => boundPW (mQc k)) (show (0:ℕ) ≤ 1 from by norm_num) (show (1:ℕ) ≤ 157 from by norm_num), acc0, blk1]
    norm_num
  have acc2 : ∑ k ∈ Finset.Ico (0:ℕ) 313, boundPW (mQc k) = 97833/1000000 := by
    rw [← Finset.sum_Ico_consecutive (fun k => boundPW (mQc k)) (show (0:ℕ) ≤ 157 from by norm_num) (show (157:ℕ) ≤ 313 from by norm_num), acc1, blk2]
    norm_num
  have acc3 : ∑ k ∈ Finset.Ico (0:ℕ) 469, boundPW (mQc k) = 41937/200000 := by
    rw [← Finset.sum_Ico_consecutive (fun k => boundPW (mQc k)) (show (0:ℕ) ≤ 313 from by norm_num) (show (313:ℕ) ≤ 469 from by norm_num), acc2, blk3]
    norm_num
  have acc4 : ∑ k ∈ Finset.Ico (0:ℕ) 625, boundPW (mQc k) = 329649/1000000 := by
    rw [← Finset.sum_Ico_consecutive (fun k => boundPW (mQc k)) (show (0:ℕ) ≤ 469 from by norm_num) (show (469:ℕ) ≤ 625 from by norm_num), acc3, blk4]
    norm_num
  have acc5 : ∑ k ∈ Finset.Ico (0:ℕ) 782, boundPW (mQc k) = 55081/125000 := by
    rw [← Finset.sum_Ico_consecutive (fun k => boundPW (mQc k)) (show (0:ℕ) ≤ 625 from by norm_num) (show (625:ℕ) ≤ 782 from by norm_num), acc4, blk5]
    norm_num
  have acc6 : ∑ k ∈ Finset.Ico (0:ℕ) 938, boundPW (mQc k) = 131807/250000 := by
    rw [← Finset.sum_Ico_consecutive (fun k => boundPW (mQc k)) (show (0:ℕ) ≤ 782 from by norm_num) (show (782:ℕ) ≤ 938 from by norm_num), acc5, blk6]
    norm_num
  have acc7 : ∑ k ∈ Finset.Ico (0:ℕ) 1094, boundPW (mQc k) = 43589/62500 := by
    rw [← Finset.sum_Ico_consecutive (fun k => boundPW (mQc k)) (show (0:ℕ) ≤ 938 from by norm_num) (show (938:ℕ) ≤ 1094 from by norm_num), acc6, blk7]
    norm_num
  have acc8 : ∑ k ∈ Finset.Ico (0:ℕ) 1250, boundPW (mQc k) = 216983/250000 := by
    rw [← Finset.sum_Ico_consecutive (fun k => boundPW (mQc k)) (show (0:ℕ) ≤ 1094 from by norm_num) (show (1094:ℕ) ≤ 1250 from by norm_num), acc7, blk8]
    norm_num
  have acc9 : ∑ k ∈ Finset.Ico (0:ℕ) 1407, boundPW (mQc k) = 1039533/1000000 := by
    rw [← Finset.sum_Ico_consecutive (fun k => boundPW (mQc k)) (show (0:ℕ) ≤ 1250 from by norm_num) (show (1250:ℕ) ≤ 1407 from by norm_num), acc8, blk9]
    norm_num
  have acc10 : ∑ k ∈ Finset.Ico (0:ℕ) 1563, boundPW (mQc k) = 1209729/1000000 := by
    rw [← Finset.sum_Ico_consecutive (fun k => boundPW (mQc k)) (show (0:ℕ) ≤ 1407 from by norm_num) (show (1407:ℕ) ≤ 1563 from by norm_num), acc9, blk10]
    norm_num
  have acc11 : ∑ k ∈ Finset.Ico (0:ℕ) 1719, boundPW (mQc k) = 1296309/1000000 := by
    rw [← Finset.sum_Ico_consecutive (fun k => boundPW (mQc k)) (show (0:ℕ) ≤ 1563 from by norm_num) (show (1563:ℕ) ≤ 1719 from by norm_num), acc10, blk11]
    norm_num
  have acc12 : ∑ k ∈ Finset.Ico (0:ℕ) 1875, boundPW (mQc k) = 1406601/1000000 := by
    rw [← Finset.sum_Ico_consecutive (fun k => boundPW (mQc k)) (show (0:ℕ) ≤ 1719 from by norm_num) (show (1719:ℕ) ≤ 1875 from by norm_num), acc11, blk12]
    norm_num
  have acc13 : ∑ k ∈ Finset.Ico (0:ℕ) 2032, boundPW (mQc k) = 763667/500000 := by
    rw [← Finset.sum_Ico_consecutive (fun k => boundPW (mQc k)) (show (0:ℕ) ≤ 1875 from by norm_num) (show (1875:ℕ) ≤ 2032 from by norm_num), acc12, blk13]
    norm_num
  have acc14 : ∑ k ∈ Finset.Ico (0:ℕ) 2188, boundPW (mQc k) = 819593/500000 := by
    rw [← Finset.sum_Ico_consecutive (fun k => boundPW (mQc k)) (show (0:ℕ) ≤ 2032 from by norm_num) (show (2032:ℕ) ≤ 2188 from by norm_num), acc13, blk14]
    norm_num
  have acc15 : ∑ k ∈ Finset.Ico (0:ℕ) 2344, boundPW (mQc k) = 170923/100000 := by
    rw [← Finset.sum_Ico_consecutive (fun k => boundPW (mQc k)) (show (0:ℕ) ≤ 2188 from by norm_num) (show (2188:ℕ) ≤ 2344 from by norm_num), acc14, blk15]
    norm_num
  have acc16 : ∑ k ∈ Finset.Ico (0:ℕ) 2500, boundPW (mQc k) = 868421/500000 := by
    rw [← Finset.sum_Ico_consecutive (fun k => boundPW (mQc k)) (show (0:ℕ) ≤ 2344 from by norm_num) (show (2344:ℕ) ≤ 2500 from by norm_num), acc15, blk16]
    norm_num
  have acc17 : ∑ k ∈ Finset.Ico (0:ℕ) 2656, boundPW (mQc k) = 882227/500000 := by
    rw [← Finset.sum_Ico_consecutive (fun k => boundPW (mQc k)) (show (0:ℕ) ≤ 2500 from by norm_num) (show (2500:ℕ) ≤ 2656 from by norm_num), acc16, blk17]
    norm_num
  have acc18 : ∑ k ∈ Finset.Ico (0:ℕ) 2813, boundPW (mQc k) = 1834947/1000000 := by
    rw [← Finset.sum_Ico_consecutive (fun k => boundPW (mQc k)) (show (0:ℕ) ≤ 2656 from by norm_num) (show (2656:ℕ) ≤ 2813 from by norm_num), acc17, blk18]
    norm_num
  have acc19 : ∑ k ∈ Finset.Ico (0:ℕ) 2969, boundPW (mQc k) = 1946799/1000000 := by
    rw [← Finset.sum_Ico_consecutive (fun k => boundPW (mQc k)) (show (0:ℕ) ≤ 2813 from by norm_num) (show (2813:ℕ) ≤ 2969 from by norm_num), acc18, blk19]
    norm_num
  have acc20 : ∑ k ∈ Finset.Ico (0:ℕ) 3125, boundPW (mQc k) = 2066763/1000000 := by
    rw [← Finset.sum_Ico_consecutive (fun k => boundPW (mQc k)) (show (0:ℕ) ≤ 2969 from by norm_num) (show (2969:ℕ) ≤ 3125 from by norm_num), acc19, blk20]
    norm_num
  have acc21 : ∑ k ∈ Finset.Ico (0:ℕ) 3281, boundPW (mQc k) = 435411/200000 := by
    rw [← Finset.sum_Ico_consecutive (fun k => boundPW (mQc k)) (show (0:ℕ) ≤ 3125 from by norm_num) (show (3125:ℕ) ≤ 3281 from by norm_num), acc20, blk21]
    norm_num
  have acc22 : ∑ k ∈ Finset.Ico (0:ℕ) 3438, boundPW (mQc k) = 226419/100000 := by
    rw [← Finset.sum_Ico_consecutive (fun k => boundPW (mQc k)) (show (0:ℕ) ≤ 3281 from by norm_num) (show (3281:ℕ) ≤ 3438 from by norm_num), acc21, blk22]
    norm_num
  have acc23 : ∑ k ∈ Finset.Ico (0:ℕ) 3594, boundPW (mQc k) = 1217193/500000 := by
    rw [← Finset.sum_Ico_consecutive (fun k => boundPW (mQc k)) (show (0:ℕ) ≤ 3438 from by norm_num) (show (3438:ℕ) ≤ 3594 from by norm_num), acc22, blk23]
    norm_num
  have acc24 : ∑ k ∈ Finset.Ico (0:ℕ) 3750, boundPW (mQc k) = 1302447/500000 := by
    rw [← Finset.sum_Ico_consecutive (fun k => boundPW (mQc k)) (show (0:ℕ) ≤ 3594 from by norm_num) (show (3594:ℕ) ≤ 3750 from by norm_num), acc23, blk24]
    norm_num
  have acc25 : ∑ k ∈ Finset.Ico (0:ℕ) 3906, boundPW (mQc k) = 1387701/500000 := by
    rw [← Finset.sum_Ico_consecutive (fun k => boundPW (mQc k)) (show (0:ℕ) ≤ 3750 from by norm_num) (show (3750:ℕ) ≤ 3906 from by norm_num), acc24, blk25]
    norm_num
  have acc26 : ∑ k ∈ Finset.Ico (0:ℕ) 4063, boundPW (mQc k) = 2946689/1000000 := by
    rw [← Finset.sum_Ico_consecutive (fun k => boundPW (mQc k)) (show (0:ℕ) ≤ 3906 from by norm_num) (show (3906:ℕ) ≤ 4063 from by norm_num), acc25, blk26]
    norm_num
  have acc27 : ∑ k ∈ Finset.Ico (0:ℕ) 4219, boundPW (mQc k) = 3033269/1000000 := by
    rw [← Finset.sum_Ico_consecutive (fun k => boundPW (mQc k)) (show (0:ℕ) ≤ 4063 from by norm_num) (show (4063:ℕ) ≤ 4219 from by norm_num), acc26, blk27]
    norm_num
  have acc28 : ∑ k ∈ Finset.Ico (0:ℕ) 4375, boundPW (mQc k) = 3143561/1000000 := by
    rw [← Finset.sum_Ico_consecutive (fun k => boundPW (mQc k)) (show (0:ℕ) ≤ 4219 from by norm_num) (show (4219:ℕ) ≤ 4375 from by norm_num), acc27, blk28]
    norm_num
  have acc29 : ∑ k ∈ Finset.Ico (0:ℕ) 4531, boundPW (mQc k) = 130541/40000 := by
    rw [← Finset.sum_Ico_consecutive (fun k => boundPW (mQc k)) (show (0:ℕ) ≤ 4375 from by norm_num) (show (4375:ℕ) ≤ 4531 from by norm_num), acc28, blk29]
    norm_num
  have acc30 : ∑ k ∈ Finset.Ico (0:ℕ) 4688, boundPW (mQc k) = 1688047/500000 := by
    rw [← Finset.sum_Ico_consecutive (fun k => boundPW (mQc k)) (show (0:ℕ) ≤ 4531 from by norm_num) (show (4531:ℕ) ≤ 4688 from by norm_num), acc29, blk30]
    norm_num
  have acc31 : ∑ k ∈ Finset.Ico (0:ℕ) 4844, boundPW (mQc k) = 1723069/500000 := by
    rw [← Finset.sum_Ico_consecutive (fun k => boundPW (mQc k)) (show (0:ℕ) ≤ 4688 from by norm_num) (show (4688:ℕ) ≤ 4844 from by norm_num), acc30, blk31]
    norm_num
  have acc32 : ∑ k ∈ Finset.Ico (0:ℕ) 5000, boundPW (mQc k) = 2779/800 := by
    rw [← Finset.sum_Ico_consecutive (fun k => boundPW (mQc k)) (show (0:ℕ) ≤ 4844 from by norm_num) (show (4844:ℕ) ≤ 5000 from by norm_num), acc31, blk32]
    norm_num
  have acc33 : ∑ k ∈ Finset.Ico (0:ℕ) 5156, boundPW (mQc k) = 1750681/500000 := by
    rw [← Finset.sum_Ico_consecutive (fun k => boundPW (mQc k)) (show (0:ℕ) ≤ 5000 from by norm_num) (show (5000:ℕ) ≤ 5156 from by norm_num), acc32, blk33]
    norm_num
  have acc34 : ∑ k ∈ Finset.Ico (0:ℕ) 5312, boundPW (mQc k) = 1785703/500000 := by
    rw [← Finset.sum_Ico_consecutive (fun k => boundPW (mQc k)) (show (0:ℕ) ≤ 5156 from by norm_num) (show (5156:ℕ) ≤ 5312 from by norm_num), acc33, blk34]
    norm_num
  have acc35 : ∑ k ∈ Finset.Ico (0:ℕ) 5469, boundPW (mQc k) = 147359/40000 := by
    rw [← Finset.sum_Ico_consecutive (fun k => boundPW (mQc k)) (show (0:ℕ) ≤ 5312 from by norm_num) (show (5312:ℕ) ≤ 5469 from by norm_num), acc34, blk35]
    norm_num
  have acc36 : ∑ k ∈ Finset.Ico (0:ℕ) 5625, boundPW (mQc k) = 3803939/1000000 := by
    rw [← Finset.sum_Ico_consecutive (fun k => boundPW (mQc k)) (show (0:ℕ) ≤ 5469 from by norm_num) (show (5469:ℕ) ≤ 5625 from by norm_num), acc35, blk36]
    norm_num
  have acc37 : ∑ k ∈ Finset.Ico (0:ℕ) 5781, boundPW (mQc k) = 3914231/1000000 := by
    rw [← Finset.sum_Ico_consecutive (fun k => boundPW (mQc k)) (show (0:ℕ) ≤ 5625 from by norm_num) (show (5625:ℕ) ≤ 5781 from by norm_num), acc36, blk37]
    norm_num
  have acc38 : ∑ k ∈ Finset.Ico (0:ℕ) 5937, boundPW (mQc k) = 4000811/1000000 := by
    rw [← Finset.sum_Ico_consecutive (fun k => boundPW (mQc k)) (show (0:ℕ) ≤ 5781 from by norm_num) (show (5781:ℕ) ≤ 5937 from by norm_num), acc37, blk38]
    norm_num
  have acc39 : ∑ k ∈ Finset.Ico (0:ℕ) 6094, boundPW (mQc k) = 2086049/500000 := by
    rw [← Finset.sum_Ico_consecutive (fun k => boundPW (mQc k)) (show (0:ℕ) ≤ 5937 from by norm_num) (show (5937:ℕ) ≤ 6094 from by norm_num), acc38, blk39]
    norm_num
  have acc40 : ∑ k ∈ Finset.Ico (0:ℕ) 6250, boundPW (mQc k) = 2171303/500000 := by
    rw [← Finset.sum_Ico_consecutive (fun k => boundPW (mQc k)) (show (0:ℕ) ≤ 6094 from by norm_num) (show (6094:ℕ) ≤ 6250 from by norm_num), acc39, blk40]
    norm_num
  have acc41 : ∑ k ∈ Finset.Ico (0:ℕ) 6406, boundPW (mQc k) = 2256557/500000 := by
    rw [← Finset.sum_Ico_consecutive (fun k => boundPW (mQc k)) (show (0:ℕ) ≤ 6250 from by norm_num) (show (6250:ℕ) ≤ 6406 from by norm_num), acc40, blk41]
    norm_num
  have acc42 : ∑ k ∈ Finset.Ico (0:ℕ) 6562, boundPW (mQc k) = 468331/100000 := by
    rw [← Finset.sum_Ico_consecutive (fun k => boundPW (mQc k)) (show (0:ℕ) ≤ 6406 from by norm_num) (show (6406:ℕ) ≤ 6562 from by norm_num), acc41, blk42]
    norm_num
  have acc43 : ∑ k ∈ Finset.Ico (0:ℕ) 6719, boundPW (mQc k) = 954089/200000 := by
    rw [← Finset.sum_Ico_consecutive (fun k => boundPW (mQc k)) (show (0:ℕ) ≤ 6562 from by norm_num) (show (6562:ℕ) ≤ 6719 from by norm_num), acc42, blk43]
    norm_num
  have acc44 : ∑ k ∈ Finset.Ico (0:ℕ) 6875, boundPW (mQc k) = 4880737/1000000 := by
    rw [← Finset.sum_Ico_consecutive (fun k => boundPW (mQc k)) (show (0:ℕ) ≤ 6719 from by norm_num) (show (6719:ℕ) ≤ 6875 from by norm_num), acc43, blk44]
    norm_num
  have acc45 : ∑ k ∈ Finset.Ico (0:ℕ) 7031, boundPW (mQc k) = 5000701/1000000 := by
    rw [← Finset.sum_Ico_consecutive (fun k => boundPW (mQc k)) (show (0:ℕ) ≤ 6875 from by norm_num) (show (6875:ℕ) ≤ 7031 from by norm_num), acc44, blk45]
    norm_num
  have acc46 : ∑ k ∈ Finset.Ico (0:ℕ) 7187, boundPW (mQc k) = 5112553/1000000 := by
    rw [← Finset.sum_Ico_consecutive (fun k => boundPW (mQc k)) (show (0:ℕ) ≤ 7031 from by norm_num) (show (7031:ℕ) ≤ 7187 from by norm_num), acc45, blk46]
    norm_num
  have acc47 : ∑ k ∈ Finset.Ico (0:ℕ) 7344, boundPW (mQc k) = 2591523/500000 := by
    rw [← Finset.sum_Ico_consecutive (fun k => boundPW (mQc k)) (show (0:ℕ) ≤ 7187 from by norm_num) (show (7187:ℕ) ≤ 7344 from by norm_num), acc46, blk47]
    norm_num
  have acc48 : ∑ k ∈ Finset.Ico (0:ℕ) 7500, boundPW (mQc k) = 2605329/500000 := by
    rw [← Finset.sum_Ico_consecutive (fun k => boundPW (mQc k)) (show (0:ℕ) ≤ 7344 from by norm_num) (show (7344:ℕ) ≤ 7500 from by norm_num), acc47, blk48]
    norm_num
  have acc49 : ∑ k ∈ Finset.Ico (0:ℕ) 7656, boundPW (mQc k) = 523827/100000 := by
    rw [← Finset.sum_Ico_consecutive (fun k => boundPW (mQc k)) (show (0:ℕ) ≤ 7500 from by norm_num) (show (7500:ℕ) ≤ 7656 from by norm_num), acc48, blk49]
    norm_num
  have acc50 : ∑ k ∈ Finset.Ico (0:ℕ) 7812, boundPW (mQc k) = 2654157/500000 := by
    rw [← Finset.sum_Ico_consecutive (fun k => boundPW (mQc k)) (show (0:ℕ) ≤ 7656 from by norm_num) (show (7656:ℕ) ≤ 7812 from by norm_num), acc49, blk50]
    norm_num
  have acc51 : ∑ k ∈ Finset.Ico (0:ℕ) 7968, boundPW (mQc k) = 2710083/500000 := by
    rw [← Finset.sum_Ico_consecutive (fun k => boundPW (mQc k)) (show (0:ℕ) ≤ 7812 from by norm_num) (show (7812:ℕ) ≤ 7968 from by norm_num), acc50, blk51]
    norm_num
  have acc52 : ∑ k ∈ Finset.Ico (0:ℕ) 8125, boundPW (mQc k) = 5540899/1000000 := by
    rw [← Finset.sum_Ico_consecutive (fun k => boundPW (mQc k)) (show (0:ℕ) ≤ 7968 from by norm_num) (show (7968:ℕ) ≤ 8125 from by norm_num), acc51, blk52]
    norm_num
  have acc53 : ∑ k ∈ Finset.Ico (0:ℕ) 8281, boundPW (mQc k) = 5651191/1000000 := by
    rw [← Finset.sum_Ico_consecutive (fun k => boundPW (mQc k)) (show (0:ℕ) ≤ 8125 from by norm_num) (show (8125:ℕ) ≤ 8281 from by norm_num), acc52, blk53]
    norm_num
  have acc54 : ∑ k ∈ Finset.Ico (0:ℕ) 8437, boundPW (mQc k) = 5737771/1000000 := by
    rw [← Finset.sum_Ico_consecutive (fun k => boundPW (mQc k)) (show (0:ℕ) ≤ 8281 from by norm_num) (show (8281:ℕ) ≤ 8437 from by norm_num), acc53, blk54]
    norm_num
  have acc55 : ∑ k ∈ Finset.Ico (0:ℕ) 8593, boundPW (mQc k) = 5907967/1000000 := by
    rw [← Finset.sum_Ico_consecutive (fun k => boundPW (mQc k)) (show (0:ℕ) ≤ 8437 from by norm_num) (show (8437:ℕ) ≤ 8593 from by norm_num), acc54, blk55]
    norm_num
  have acc56 : ∑ k ∈ Finset.Ico (0:ℕ) 8750, boundPW (mQc k) = 379973/62500 := by
    rw [← Finset.sum_Ico_consecutive (fun k => boundPW (mQc k)) (show (0:ℕ) ≤ 8593 from by norm_num) (show (8593:ℕ) ≤ 8750 from by norm_num), acc55, blk56]
    norm_num
  have acc57 : ∑ k ∈ Finset.Ico (0:ℕ) 8906, boundPW (mQc k) = 1562519/250000 := by
    rw [← Finset.sum_Ico_consecutive (fun k => boundPW (mQc k)) (show (0:ℕ) ≤ 8750 from by norm_num) (show (8750:ℕ) ≤ 8906 from by norm_num), acc56, blk57]
    norm_num
  have acc58 : ∑ k ∈ Finset.Ico (0:ℕ) 9062, boundPW (mQc k) = 401267/62500 := by
    rw [← Finset.sum_Ico_consecutive (fun k => boundPW (mQc k)) (show (0:ℕ) ≤ 8906 from by norm_num) (show (8906:ℕ) ≤ 9062 from by norm_num), acc57, blk58]
    norm_num
  have acc59 : ∑ k ∈ Finset.Ico (0:ℕ) 9218, boundPW (mQc k) = 1626713/250000 := by
    rw [← Finset.sum_Ico_consecutive (fun k => boundPW (mQc k)) (show (0:ℕ) ≤ 9062 from by norm_num) (show (9062:ℕ) ≤ 9218 from by norm_num), acc58, blk59]
    norm_num
  have acc60 : ∑ k ∈ Finset.Ico (0:ℕ) 9375, boundPW (mQc k) = 6617851/1000000 := by
    rw [← Finset.sum_Ico_consecutive (fun k => boundPW (mQc k)) (show (0:ℕ) ≤ 9218 from by norm_num) (show (9218:ℕ) ≤ 9375 from by norm_num), acc59, blk60]
    norm_num
  have acc61 : ∑ k ∈ Finset.Ico (0:ℕ) 9531, boundPW (mQc k) = 1347563/200000 := by
    rw [← Finset.sum_Ico_consecutive (fun k => boundPW (mQc k)) (show (0:ℕ) ≤ 9375 from by norm_num) (show (9375:ℕ) ≤ 9531 from by norm_num), acc60, blk61]
    norm_num
  have acc62 : ∑ k ∈ Finset.Ico (0:ℕ) 9687, boundPW (mQc k) = 6849667/1000000 := by
    rw [← Finset.sum_Ico_consecutive (fun k => boundPW (mQc k)) (show (0:ℕ) ≤ 9531 from by norm_num) (show (9531:ℕ) ≤ 9687 from by norm_num), acc61, blk62]
    norm_num
  have acc63 : ∑ k ∈ Finset.Ico (0:ℕ) 9843, boundPW (mQc k) = 6919711/1000000 := by
    rw [← Finset.sum_Ico_consecutive (fun k => boundPW (mQc k)) (show (0:ℕ) ≤ 9687 from by norm_num) (show (9687:ℕ) ≤ 9843 from by norm_num), acc62, blk63]
    norm_num
  have acc64 : ∑ k ∈ Finset.Ico (0:ℕ) 10000, boundPW (mQc k) = 2779/400 := by
    rw [← Finset.sum_Ico_consecutive (fun k => boundPW (mQc k)) (show (0:ℕ) ≤ 9843 from by norm_num) (show (9843:ℕ) ≤ 10000 from by norm_num), acc63, blk64]
    norm_num
  rw [Finset.range_eq_Ico]
  exact acc64

end FastMath

namespace FastMath

/-! ## Helper lemmas for `atan2`, iterate forms of the loops, and
evaluation of `log` at the counterexample points -/

lemma angle_bounds (a : ℝ) (h0 : 0 ≤ a) (h1 : a ≤ 1) :
    0 ≤ a * (Real.pi/4 + 0.273*(1 - a)) ∧ a * (Real.pi/4 + 0.273*(1 - a)) ≤ Real.pi/2 := by
  have hpi : (3:ℝ) < Real.pi := Real.pi_gt_three
  have hXnn : (0:ℝ) ≤ Real.pi/4 + 0.273*(1 - a) := by nlinarith
  constructor
  · exact mul_nonneg h0 hXnn
  · have h3 : a * (Real.pi/4 + 0.273*(1 - a)) ≤ Real.pi/4 + 0.273*(1 - a) := by
      nlinarith [mul_nonneg (by linarith : (0:ℝ) ≤ 1 - a) hXnn]
    nlinarith

lemma iter_add (n : ℕ) (theta : ℝ) :
    (fun t => t + 2*Real.pi)^[n] theta = theta + n*(2*Real.pi) := by
  induction n with
  | zero => simp
  | succ k ih =>
    rw [Function.iterate_succ_apply', ih]
    push_cast
    ring

lemma iter_sub (n : ℕ) (theta : ℝ) :
    (fun t => t - 2*Real.pi)^[n] theta = theta - n*(2*Real.pi) := by
  induction n with
  | zero => simp
  | succ k ih =>
    rw [Function.iterate_succ_apply', ih]
    push_cast
    ring

lemma intlog3 : Int.log 2 (3:ℚ) = 1 := by
  rw [Int.log_of_one_le_right 2 (by norm_num : (1:ℚ) ≤ 3)]
  rw [show Nat.floor (3:ℚ) = 3 from by norm_num]
  rw [show Nat.log 2 3 = 1 from Nat.log_eq_of_pow_le_of_lt_pow (by norm_num) (by norm_num)]
  norm_num

lemma intlog13 : Int.log 2 ((1:ℚ)/3) = -2 := by
  rw [Int.log_of_right_le_one 2 (by norm_num : (1:ℚ)/3 ≤ 1)]
  rw [show ((1:ℚ)/3)⁻¹ = 3 from by norm_num]
  rw [show Nat.ceil (3:ℚ) = 3 from by norm_num]
  have hc : Nat.clog 2 3 = 2 := by
    have hle : Nat.clog 2 3 ≤ 2 :=
      (Nat.le_pow_iff_clog_le (by norm_num)).mp (by norm_num)
    have hlt : 1 < Nat.clog 2 3 :=
      (Nat.pow_lt_iff_lt_clog (by norm_num)).mp (by norm_num)
    omega
  rw [hc]
  norm_num

lemma log3_val : FastMath.log 3 = 6921257394327655453/6300000000000000000 := by
  simp only [FastMath.log]
  rw [if_neg (by norm_num : ¬ (3:ℚ) ≤ 0), if_neg (by norm_num : ¬ (3:ℚ) = 1), intlog3]
  norm_num

lemma log13_val : FastMath.log (1/3) = -(19949835845726665683109853/18159123150000000000000000) := by
  simp only [FastMath.log]
  rw [if_neg (by norm_num : ¬ (1:ℚ)/3 ≤ 0), if_neg (by norm_num : ¬ (1:ℚ)/3 = 1), intlog13]
  norm_num

/-! ## Evaluation of the float32 loop step at a large input -/

lemma c3_log : Int.log 2 ((2^51 - 13176795 : ℚ)/2^21) = 29 := by
  rw [Int.log_of_one_le_right 2 (by norm_num : (1:ℚ) ≤ (2^51 - 13176795 : ℚ)/2^21)]
  rw [show Nat.floor ((2^51 - 13176795 : ℚ)/2^21) = 1073741817 from by
    rw [Nat.floor_eq_iff (by norm_num)]
    norm_num]
  rw [show Nat.log 2 1073741817 = 29 from
    Nat.log_eq_of_pow_le_of_lt_pow (by norm_num) (by norm_num)]
  norm_num

lemma c3_rne : rne ((2^51 - 13176795 : ℚ)/2^27) = 2^24 := by decide

/-- At `theta = -2^30` the float32 loop step is the identity: the increment
`two_pi` is below half an ulp of `theta` (ulp = 2^6 there), so the rounded
sum is `theta` again. -/
lemma c3_fix : reduceUpStepF32 (-(2^30 : ℚ)) = -(2^30) := by
  have hguard : (-(2^30 : ℚ)) < -piF32 := by rw [piF32]; norm_num
  rw [reduceUpStepF32, if_pos hguard]
  have hx : (-(2^30 : ℚ) + twoPiF32) = -((2^51 - 13176795 : ℚ)/2^21) := by
    rw [twoPiF32, piF32]; norm_num
  rw [hx, fl32, if_neg (by norm_num), if_neg (by norm_num),
    abs_neg, abs_of_pos (by norm_num), c3_log]
  rw [show ((2^51 - 13176795 : ℚ)/2^21) / 2 ^ ((29:ℤ) - 23)
      = (2^51 - 13176795 : ℚ)/2^27 from by norm_num]
  rw [c3_rne]
  norm_num

end FastMath

namespace FastMath

/-! ## The specification claims -/

/-- Claim C1: for every input θ already reduced into `[-π, π]`, `sin θ` is
computed as the parabola base term `θ·B - sign(θ)·C·θ²` (`B = 4/π`,
`C = 4/π²`) followed by exactly one correction pass
`y ← y + P·(y·|y| - y)` with `P = 0.225`, and `cos θ` is produced by the
same pipeline after a `+π/2` phase shift with re-wrap into `[-π, π]`. -/
theorem claim_C1 : ∀ theta : ℝ, -Real.pi ≤ theta → theta ≤ Real.pi →
    FastMath.sin theta = specCorr (specBase theta) ∧
    FastMath.cos theta = specCorr (specBase (specWrap (theta + Real.pi/2))) := by
  intro theta h1 h2
  constructor
  · show sinBody (reduceDown (reduceUp theta)) = _
    rw [reduce_id h1 h2, sinBody_eq_spec]
  · show sinBody (if Real.pi < reduceDown (reduceUp theta) + Real.pi/2
        then reduceDown (reduceUp theta) + Real.pi/2 - 2*Real.pi
        else reduceDown (reduceUp theta) + Real.pi/2) = _
    rw [reduce_id h1 h2, sinBody_eq_spec,
      show (if Real.pi < theta + Real.pi/2 then theta + Real.pi/2 - 2*Real.pi
        else theta + Real.pi/2) = specWrap (theta + Real.pi/2) from rfl]

/-- Witness for claim C1 at `θ = 0`. -/
theorem claim_C1_witness :
    (-Real.pi ≤ (0:ℝ) ∧ (0:ℝ) ≤ Real.pi) ∧
    FastMath.sin 0 = specCorr (specBase 0) :=
  ⟨⟨neg_nonpos.mpr Real.pi_pos.le, Real.pi_pos.le⟩,
    (claim_C1 0 (neg_nonpos.mpr Real.pi_pos.le) Real.pi_pos.le).1⟩

/-- Claim C2: for every θ in `[-2π, 2π]` the absolute error of `sin`/`cos`
against the exact functions is below `0.01`, and over the canonical uniform
sampling of `[-2π, 2π]` with 10000 points `θ_k = -2π + 4π·k/9999` the mean
absolute error is below `0.001` for both. -/
theorem claim_C2 :
    (∀ theta : ℝ, -(2*Real.pi) ≤ theta → theta ≤ 2*Real.pi →
      |FastMath.sin theta - Real.sin theta| < 0.01 ∧
      |FastMath.cos theta - Real.cos theta| < 0.01) ∧
    (∑ k ∈ Finset.range 10000,
        |FastMath.sin (-(2*Real.pi) + 4*Real.pi*(k:ℝ)/9999)
          - Real.sin (-(2*Real.pi) + 4*Real.pi*(k:ℝ)/9999)|) / 10000 < 0.001 ∧
    (∑ k ∈ Finset.range 10000,
        |FastMath.cos (-(2*Real.pi) + 4*Real.pi*(k:ℝ)/9999)
          - Real.cos (-(2*Real.pi) + 4*Real.pi*(k:ℝ)/9999)|) / 10000 < 0.001 := by
  refine ⟨fun theta _ _ => ⟨lt_of_le_of_lt (sin_err theta) (by norm_num),
    lt_of_le_of_lt (cos_err theta) (by norm_num)⟩, ?_, ?_⟩
  · have hle : (∑ k ∈ Finset.range 10000,
        |FastMath.sin (-(2*Real.pi) + 4*Real.pi*(k:ℝ)/9999)
          - Real.sin (-(2*Real.pi) + 4*Real.pi*(k:ℝ)/9999)|)
        ≤ ∑ k ∈ Finset.range 10000, ((boundPW (mQ k) : ℚ) : ℝ) := by
      apply Finset.sum_le_sum
      intro k hk
      have hk9 := Finset.mem_range.mp hk
      exact sin_sample k (by omega)
    have hval : (∑ k ∈ Finset.range 10000, ((boundPW (mQ k) : ℚ) : ℝ))
        = ((2779:ℝ)/400) := by
      rw [show (∑ k ∈ Finset.range 10000, ((boundPW (mQ k) : ℚ) : ℝ))
          = (((∑ k ∈ Finset.range 10000, boundPW (mQ k)) : ℚ) : ℝ) from by push_cast; rfl]
      rw [sinSum_val]
      norm_num
    rw [div_lt_iff (by norm_num : (0:ℝ) < 10000)]
    calc (∑ k ∈ Finset.range 10000,
        |FastMath.sin (-(2*Real.pi) + 4*Real.pi*(k:ℝ)/9999)
          - Real.sin (-(2*Real.pi) + 4*Real.pi*(k:ℝ)/9999)|)
        ≤ (2779:ℝ)/400 := by rw [← hval]; exact hle
      _ < 0.001 * 10000 := by norm_num
  · have hle : (∑ k ∈ Finset.range 10000,
        |FastMath.cos (-(2*Real.pi) + 4*Real.pi*(k:ℝ)/9999)
          - Real.cos (-(2*Real.pi) + 4*Real.pi*(k:ℝ)/9999)|)
        ≤ ∑ k ∈ Finset.range 10000, ((boundPW (mQc k) : ℚ) : ℝ) := by
      apply Finset.sum_le_sum
      intro k hk
      have hk9 := Finset.mem_range.mp hk
      exact cos_sample k (by omega)
    have hval : (∑ k ∈ Finset.range 10000, ((boundPW (mQc k) : ℚ) : ℝ))
        = ((2779:ℝ)/400) := by
      rw [show (∑ k ∈ Finset.range 10000, ((boundPW (mQc k) : ℚ) : ℝ))
          = (((∑ k ∈ Finset.range 10000, boundPW (mQc k)) : ℚ) : ℝ) from by push_cast; rfl]
      rw [cosSum_val]
      norm_num
    rw [div_lt_iff (by norm_num : (0:ℝ) < 10000)]
    calc (∑ k ∈ Finset.range 10000,
        |FastMath.cos (-(2*Real.pi) + 4*Real.pi*(k:ℝ)/9999)
          - Real.cos (-(2*Real.pi) + 4*Real.pi*(k:ℝ)/9999)|)
        ≤ (2779:ℝ)/400 := by rw [← hval]; exact hle
      _ < 0.001 * 10000 := by norm_num

/-- Witness for claim C2 at `θ = 0`. -/
theorem claim_C2_witness :
    (-(2*Real.pi) ≤ (0:ℝ) ∧ (0:ℝ) ≤ 2*Real.pi) ∧
    |FastMath.sin 0 - Real.sin 0| < 0.01 :=
  ⟨⟨neg_nonpos.mpr (by positivity), by positivity⟩,
    (claim_C2.1 0 (neg_nonpos.mpr (by positivity)) (by positivity)).1⟩

/-- In the exact-arithmetic idealization the range-reduction loops do
terminate for every real input, and `sin` factors through the loop results.
The claim-C3 theorem below shows this does not transfer to the float32
program. -/
theorem reduce_loops_terminate : ∀ theta : ℝ, ∃ n m : ℕ,
    reduceUp theta = (fun t => t + 2*Real.pi)^[n] theta ∧
    ¬ ((fun t => t + 2*Real.pi)^[n] theta < -Real.pi) ∧
    reduceDown (reduceUp theta) = (fun t => t - 2*Real.pi)^[m] (reduceUp theta) ∧
    ¬ (Real.pi < (fun t => t - 2*Real.pi)^[m] (reduceUp theta)) ∧
    FastMath.sin theta
      = sinBody ((fun t => t - 2*Real.pi)^[m] ((fun t => t + 2*Real.pi)^[n] theta)) := by
  intro theta
  obtain ⟨n, hn1, hn2⟩ := reduceUp_exists theta
  obtain ⟨m, hm1, hm2, _⟩ := reduceDown_exists (reduceUp theta)
  refine ⟨n, m, ?_, ?_, ?_, ?_, ?_⟩
  · rw [iter_add]
    exact hn1
  · rw [iter_add, ← hn1]
    exact hn2
  · rw [iter_sub]
    exact hm1
  · rw [iter_sub, ← hm1]
    exact hm2
  · rw [show FastMath.sin theta = sinBody (reduceDown (reduceUp theta)) from rfl,
      iter_sub, iter_add, ← hn1, ← hm1]

/-- Claim C3: refuted for the float32 program — the claim says the loops
that add or subtract `2π` run only finitely many iterations for every finite
float input, making every function total. At `theta = -2^30` the guard
`theta < -pi` of `FastMath::sin` holds, and the binary32 addition
`theta += two_pi` rounds the sum back to `theta` (the increment `two_pi` is
below half an ulp there), so every iterate of the float loop step equals
`-2^30` and remains inside the guard region: the first reduction loop never
exits. By contrast, in the exact-arithmetic model the loops terminate for
every input (`reduce_loops_terminate`). -/
theorem claim_C3 : ∀ n : ℕ,
    reduceUpStepF32^[n] (-(2^30 : ℚ)) = -(2^30) ∧
      reduceUpStepF32^[n] (-(2^30 : ℚ)) < -piF32 := by
  intro n
  have hiter : reduceUpStepF32^[n] (-(2^30 : ℚ)) = -(2^30) := by
    induction n with
    | zero => rfl
    | succ k ih => rw [Function.iterate_succ_apply', ih, c3_fix]
  refine ⟨hiter, ?_⟩
  rw [hiter, piF32]
  norm_num

/-- Claim C4: domain-violation inputs map to the fixed sentinels and never
raise an error: `log (x ≤ 0) = -1e38`, `atanh (|x| ≥ 1) = 0`,
`pow 0 (e < 0) = 1e38`, and `pow` of a negative base with a non-integer
exponent returns `0`. -/
theorem claim_C4 :
    (∀ x : ℚ, x ≤ 0 → FastMath.log x = -1e38) ∧
    (∀ x : ℚ, 1 ≤ |x| → FastMath.atanh x = 0) ∧
    (∀ e : ℚ, e < 0 → FastMath.pow 0 e = 1e38) ∧
    (∀ b e : ℚ, b < 0 → (∀ n : ℤ, e ≠ (n:ℚ)) → FastMath.pow b e = 0) := by
  refine ⟨?_, ?_, ?_, ?_⟩
  · intro x hx
    rw [FastMath.log, if_pos hx]
  · intro x hx
    rw [FastMath.atanh, if_pos hx]
  · intro e he
    rw [FastMath.pow, if_neg (ne_of_lt he), if_neg (ne_of_lt (he.trans zero_lt_one)),
      if_pos rfl, if_neg (not_lt.mpr he.le)]
  · intro b e hb hne
    have h0 : e ≠ 0 := by
      intro h
      exact hne 0 (by exact_mod_cast h)
    have h1 : e ≠ 1 := by
      intro h
      exact hne 1 (by exact_mod_cast h)
    have h2 : e ≠ 2 := by
      intro h
      exact hne 2 (by exact_mod_cast h)
    have h3 : e ≠ 3 := by
      intro h
      exact hne 3 (by exact_mod_cast h)
    have h4 : e ≠ 4 := by
      intro h
      exact hne 4 (by exact_mod_cast h)
    have hm1 : e ≠ -1 := by
      intro h
      exact hne (-1) (by exact_mod_cast h)
    have hm2 : e ≠ -2 := by
      intro h
      exact hne (-2) (by exact_mod_cast h)
    have hb0 : b ≠ 0 := ne_of_lt hb
    have hb1 : b ≠ 1 := ne_of_lt (hb.trans zero_lt_one)
    rw [FastMath.pow, if_neg h0, if_neg h1, if_neg hb0, if_neg hb1, if_neg h2,
      if_neg h3, if_neg h4]
    by_cases h05 : e = 0.5
    · rw [if_pos h05, FastMath.sqrt, if_pos hb.le]
    · rw [if_neg h05, if_neg hm1, if_neg hm2,
        if_neg (show ¬ (e = ((castInt e : ℤ):ℚ) ∧ (castInt e).natAbs ≤ 32) from
          fun hc => hne (castInt e) hc.1),
        if_pos hb]

/-- Witness for claim C4 at `log (-1)`, `atanh 1`, `pow 0 (-3)` and
`pow (-2) (3/2)`. -/
theorem claim_C4_witness :
    ((-1:ℚ) ≤ 0 ∧ FastMath.log (-1) = -1e38) ∧
    ((1:ℚ) ≤ |(1:ℚ)| ∧ FastMath.atanh 1 = 0) ∧
    ((-3:ℚ) < 0 ∧ FastMath.pow 0 (-3) = 1e38) ∧
    ((-2:ℚ) < 0 ∧ FastMath.pow (-2) (3/2) = 0) :=
  ⟨⟨by norm_num, claim_C4.1 (-1) (by norm_num)⟩,
    ⟨by norm_num, claim_C4.2.1 1 (by norm_num)⟩,
    ⟨by norm_num, claim_C4.2.2.1 (-3) (by norm_num)⟩,
    ⟨by norm_num, claim_C4.2.2.2 (-2) (3/2) (by norm_num)
      (fun n h => by
        have hd := congrArg Rat.den h
        rw [Rat.den_intCast] at hd
        norm_num at hd)⟩⟩

/-- Claim C5: `round` is round-half-away-from-zero, not round-half-to-even:
`round x = floor (x + 0.5)` for `x ≥ 0`, `round x = ceil (x - 0.5)` for
`x < 0`, `round 2.5 = 3`, `round (-2.5) = -3`, `ceil 2.3 = 3`,
`floor 2.3 = 2`. -/
theorem claim_C5 :
    (∀ x : ℚ, 0 ≤ x → FastMath.round x = FastMath.floor (x + 0.5)) ∧
    (∀ x : ℚ, x < 0 → FastMath.round x = FastMath.ceil (x - 0.5)) ∧
    FastMath.round 2.5 = 3 ∧ FastMath.round (-2.5) = -3 ∧
    FastMath.ceil 2.3 = 3 ∧ FastMath.floor 2.3 = 2 := by
  refine ⟨?_, ?_, by decide, by decide, by decide, by decide⟩
  · intro x hx
    rw [FastMath.round, if_pos hx]
  · intro x hx
    rw [FastMath.round, if_neg (not_le.mpr hx)]

/-- Witness for claim C5 at `x = 2.5` and `x = -2.5`. -/
theorem claim_C5_witness :
    ((0:ℚ) ≤ 2.5 ∧ FastMath.round 2.5 = FastMath.floor (2.5 + 0.5)) ∧
    ((-2.5:ℚ) < 0 ∧ FastMath.round (-2.5) = FastMath.ceil (-2.5 - 0.5)) :=
  ⟨⟨by norm_num, claim_C5.1 2.5 (by norm_num)⟩,
    ⟨by norm_num, claim_C5.2.1 (-2.5) (by norm_num)⟩⟩

/-- Claim C6: the special-case ladder of `pow` satisfies `pow b 0 = 1` for
every b (including `b = 0`), `pow b 1 = b` for every b, and `pow 2 3 = 8`
exactly (integer fast path, zero error). -/
theorem claim_C6 :
    (∀ b : ℚ, FastMath.pow b 0 = 1) ∧ (∀ b : ℚ, FastMath.pow b 1 = b) ∧
    FastMath.pow 2 3 = 8 := by
  refine ⟨?_, ?_, by decide⟩
  · intro b
    rw [FastMath.pow, if_pos rfl]
  · intro b
    rw [FastMath.pow, if_neg (by norm_num : (1:ℚ) ≠ 0), if_pos rfl]

/-- Claim C7: `atan2 y x` always lies in `[-π, π]`; if both `|x|` and `|y|`
are below the near-zero threshold the result is `0`, and if only `|x|` is
below the threshold the result is `π/2` for `y ≥ 0` and `-π/2` for
`y < 0`. -/
theorem claim_C7 : ∀ y x : ℝ,
    (-Real.pi ≤ FastMath.atan2 y x ∧ FastMath.atan2 y x ≤ Real.pi) ∧
    (|x| < 1e-7 → |y| < 1e-7 → FastMath.atan2 y x = 0) ∧
    (|x| < 1e-7 → ¬ (|y| < 1e-7) →
      FastMath.atan2 y x = (if 0 ≤ y then Real.pi/2 else -(Real.pi/2))) := by
  intro y x
  have hpi : (0:ℝ) < Real.pi := Real.pi_pos
  refine ⟨?_, ?_, ?_⟩
  · simp only [FastMath.atan2]
    by_cases hb : |x| < 1e-7 ∧ |y| < 1e-7
    · rw [if_pos hb]
      constructor <;> linarith
    · rw [if_neg hb]
      by_cases hx : |x| < 1e-7
      · rw [if_pos hx]
        split_ifs <;> constructor <;> linarith
      · rw [if_neg hx]
        have hxpos : (0:ℝ) < |x| := lt_of_lt_of_le (by norm_num) (not_lt.mp hx)
        by_cases hab : |y| ≤ |x|
        · rw [if_pos hab]
          have h0 : 0 ≤ |y| / |x| := div_nonneg (abs_nonneg y) (abs_nonneg x)
          have h1 : |y| / |x| ≤ 1 := (div_le_one hxpos).mpr hab
          obtain ⟨ha1, ha2⟩ := angle_bounds (|y| / |x|) h0 h1
          split_ifs <;> constructor <;> linarith
        · rw [if_neg hab]
          push_neg at hab
          have hypos : (0:ℝ) < |y| := lt_trans hxpos hab
          have h0 : 0 ≤ |x| / |y| := div_nonneg (abs_nonneg x) (abs_nonneg y)
          have h1 : |x| / |y| ≤ 1 := (div_le_one hypos).mpr hab.le
          obtain ⟨ha1, ha2⟩ := angle_bounds (|x| / |y|) h0 h1
          split_ifs <;> constructor <;> linarith
  · intro h1 h2
    rw [FastMath.atan2, if_pos ⟨h1, h2⟩]
  · intro h1 h2
    rw [FastMath.atan2, if_neg (fun hc => h2 hc.2), if_pos h1]

/-- Witness for claim C7 at `(y, x) = (1, 0)` and `(0, 0)`. -/
theorem claim_C7_witness :
    (|(0:ℝ)| < 1e-7 ∧ ¬ (|(1:ℝ)| < 1e-7) ∧
      FastMath.atan2 1 0 = (if (0:ℝ) ≤ 1 then Real.pi/2 else -(Real.pi/2))) ∧
    FastMath.atan2 0 0 = 0 :=
  ⟨⟨by norm_num, by norm_num,
    (claim_C7 1 0).2.2 (by norm_num) (by norm_num)⟩,
    (claim_C7 0 0).2.1 (by norm_num) (by norm_num)⟩

/-- Claim C8 (amended): `sinh`, `asinh` are odd and `cosh` is even, exactly;
`atanh` is exactly odd on the Taylor region `|x| < 0.5` and on the guard
region `|x| ≥ 1`, but not in general in the closed-form region (the code
does not restore sign by symmetry there). -/
theorem claim_C8 : ∀ x : ℚ,
    FastMath.sinh (-x) = -FastMath.sinh x ∧
    FastMath.asinh (-x) = -FastMath.asinh x ∧
    FastMath.cosh (-x) = FastMath.cosh x ∧
    ((|x| < 0.5 ∨ 1 ≤ |x|) → FastMath.atanh (-x) = -FastMath.atanh x) := by
  intro x
  refine ⟨?_, ?_, ?_, ?_⟩
  · simp only [FastMath.sinh, abs_neg]
    by_cases h : |x| < 0.5
    · rw [if_pos h, if_pos h]
      ring
    · rw [if_neg h, if_neg h]
      rcases lt_trichotomy x 0 with hx | hx | hx
      · rw [if_neg (show ¬ -x < 0 from by linarith), if_pos hx, if_neg (show ¬ -x < 0 from by linarith), if_pos hx]
        ring
      · exact absurd (show |x| < 0.5 from by rw [hx]; decide) h
      · rw [if_pos (show -x < 0 from by linarith), if_neg (show ¬ x < 0 from by linarith), if_pos (show -x < 0 from by linarith), if_neg (show ¬ x < 0 from by linarith)]
        ring_nf
  · simp only [FastMath.asinh, abs_neg]
    by_cases h : |x| < 0.5
    · rw [if_pos h, if_pos h]
      ring
    · rw [if_neg h, if_neg h]
      rcases lt_trichotomy x 0 with hx | hx | hx
      · rw [if_neg (show ¬ -x < 0 from by linarith), if_pos hx, if_neg (show ¬ -x < 0 from by linarith), if_pos hx]
        ring
      · exact absurd (show |x| < 0.5 from by rw [hx]; decide) h
      · rw [if_pos (show -x < 0 from by linarith), if_neg (show ¬ x < 0 from by linarith), if_pos (show -x < 0 from by linarith), if_neg (show ¬ x < 0 from by linarith)]
        ring_nf
  · simp only [FastMath.cosh, abs_neg]
    by_cases h : |x| < 0.5
    · rw [if_pos h, if_pos h]
      ring
    · rw [if_neg h, if_neg h]
  · intro hd
    rcases hd with h | h
    · simp only [FastMath.atanh, abs_neg]
      rw [if_neg (show ¬ (1:ℚ) ≤ |x| from by rw [not_le]; linarith [abs_nonneg x]),
        if_neg (show ¬ (1:ℚ) ≤ |x| from by rw [not_le]; linarith [abs_nonneg x]),
        if_pos h, if_pos h]
      ring
    · simp only [FastMath.atanh, abs_neg]
      rw [if_pos h, if_pos h]
      norm_num

/-- Witness for claim C8 (amended) at `x = 1/4`. -/
theorem claim_C8_witness :
    FastMath.sinh (-(1/4)) = -FastMath.sinh (1/4) ∧
    ((|(1/4 : ℚ)| < 0.5 ∨ 1 ≤ |(1/4 : ℚ)|) ∧
      FastMath.atanh (-(1/4)) = -FastMath.atanh (1/4)) :=
  ⟨(claim_C8 (1/4)).1,
    ⟨Or.inl (by decide), (claim_C8 (1/4)).2.2.2 (Or.inl (by decide))⟩⟩

/-- Counterexample to claim C8 as stated: `atanh` is not odd at `x = 1/2`
(the closed-form region does not restore sign via symmetry, and the fast
`log` is not exactly antisymmetric under reciprocals). -/
theorem claim_C8_counterexample :
    ¬ (FastMath.atanh (-(1/2)) = -FastMath.atanh (1/2)) := by
  have h1 : FastMath.atanh (1/2) = 0.5 * FastMath.log 3 := by
    rw [FastMath.atanh,
      if_neg (show ¬ (1:ℚ) ≤ |(1/2 : ℚ)| from by decide),
      if_neg (show ¬ |(1/2 : ℚ)| < 0.5 from by decide),
      show ((1 + (1/2 : ℚ)) / (1 - (1/2 : ℚ))) = 3 from by norm_num]
  have h2 : FastMath.atanh (-(1/2)) = 0.5 * FastMath.log (1/3) := by
    rw [FastMath.atanh,
      if_neg (show ¬ (1:ℚ) ≤ |(-(1/2) : ℚ)| from by decide),
      if_neg (show ¬ |(-(1/2) : ℚ)| < 0.5 from by decide),
      show ((1 + (-(1/2) : ℚ)) / (1 - (-(1/2) : ℚ))) = 1/3 from by norm_num]
  rw [h1, h2, log3_val, log13_val]
  norm_num

/-- Claim C9: `fmod x 0 = 0` for every x; `fmod` returns the dividend
unchanged whenever `|dividend| < |divisor|`; and on the fast path
`fmod 7 3 = 1` and `fmod (-7) 3 = -1` exactly. -/
theorem claim_C9 :
    (∀ x : ℚ, FastMath.fmod x 0 = 0) ∧
    (∀ x y : ℚ, |x| < |y| → FastMath.fmod x y = x) ∧
    FastMath.fmod 7 3 = 1 ∧ FastMath.fmod (-7) 3 = -1 := by
  refine ⟨?_, ?_, by decide, by decide⟩
  · intro x
    rw [FastMath.fmod, if_pos rfl]
  · intro x y h
    have hy : ¬ (y = 0) := by
      intro h0
      rw [h0] at h
      simp only [abs_zero] at h
      exact absurd h (not_lt.mpr (abs_nonneg x))
    rw [FastMath.fmod, if_neg hy, if_pos h]

/-- Witness for claim C9 at `fmod 1 2`. -/
theorem claim_C9_witness :
    |(1:ℚ)| < |(2:ℚ)| ∧ FastMath.fmod 1 2 = 1 :=
  ⟨by norm_num, claim_C9.2.1 1 2 (by norm_num)⟩

/-- Claim C10: every value returned by `sin` or `cos` lies in `[-1, 1]`:
the reduced argument is in `[-π, π]`, the parabola base term lies in
`[-1, 1]` there, and the `P = 0.225` correction pass keeps it in
`[-1, 1]`. -/
theorem claim_C10 : ∀ theta : ℝ,
    (-1 ≤ FastMath.sin theta ∧ FastMath.sin theta ≤ 1) ∧
    (-1 ≤ FastMath.cos theta ∧ FastMath.cos theta ≤ 1) := by
  intro theta
  have hpi : (0:ℝ) < Real.pi := Real.pi_pos
  obtain ⟨h1, h2, _⟩ := reduce_spec theta
  constructor
  · exact sinBody_range h1 h2
  · show -1 ≤ sinBody (if Real.pi < reduceDown (reduceUp theta) + Real.pi/2
        then reduceDown (reduceUp theta) + Real.pi/2 - 2*Real.pi
        else reduceDown (reduceUp theta) + Real.pi/2)
      ∧ sinBody (if Real.pi < reduceDown (reduceUp theta) + Real.pi/2
        then reduceDown (reduceUp theta) + Real.pi/2 - 2*Real.pi
        else reduceDown (reduceUp theta) + Real.pi/2) ≤ 1
    split_ifs with hsh
    · exact sinBody_range (by linarith) (by linarith)
    · exact sinBody_range (by linarith) (by linarith)

end FastMath
